import Mathlib

/-!
Verification of the ProjectContour terrain/route mesh pipeline.

This file is a shallow embedding, in Lean 4, of the core computations of the
ProjectContour repository (src/route.py, src/coordinate_transform.py,
src/terrain_data.py, src/mesh_builder.py, src/mesh_generator.py), together
with theorems settling the natural-language specification claims about them.

Modelling conventions:
* NumPy float arithmetic is modelled exactly: with rational numbers where the
  computations are field operations, and with real numbers where a square
  root occurs (np.sqrt becomes Real.sqrt).  Grids are total functions
  ℕ → ℕ → K together with explicit height/width bounds; routes are lists.
* Python loops that build lists become List.range binds in the same order as
  the source iteration.
* In-place NumPy mutation (terrain_u[i, j] -= ...) is made explicit: the
  function that the source mutates is exposed as the value the caller's
  array holds after the call.
* Transcendental one-argument maps from degrees to Web-Mercator normalized
  coordinates (asinh, tan, cos) are kept abstract: a longitude/latitude pair
  is represented by its normalized Mercator position, and the cosine of the
  central latitude is an input value.  Everything the source does with those
  values (floors, comparisons, arithmetic) is modelled exactly.
-/

/-- Python list slicing l[::step]: keep the head, then every step-th element.
In the source the step is always at least 1 (step = max(1, n // 500)). -/
def takeEvery (step : ℕ) : List α → List α
  | [] => []
  | a :: t => a :: takeEvery step (t.drop (step - 1))
  termination_by l => l.length
  decreasing_by simp [List.length_drop]; omega

theorem takeEvery_length (step : ℕ) (hs : 1 ≤ step) (l : List α) :
    (takeEvery step l).length = (l.length + step - 1) / step := by
  induction l using takeEvery.induct step with
  | case1 =>
      simp [takeEvery, Nat.div_eq_of_lt (by omega : step - 1 < step)]
  | case2 a t ih =>
      rw [takeEvery, List.length_cons, ih]
      simp only [List.length_drop, List.length_cons]
      rcases Nat.lt_or_ge t.length (step - 1) with h | h
      · have h1 : t.length - (step - 1) = 0 := by omega
        have h2 : t.length / step = 0 := Nat.div_eq_of_lt (by omega)
        have h3 : (t.length + 1 + step - 1) = t.length + step := by omega
        rw [h1, h3, Nat.add_div_right _ (by omega), h2]
        simp [Nat.div_eq_of_lt (by omega : step - 1 < step)]
      · have h1 : t.length - (step - 1) + step - 1 = t.length := by omega
        have h3 : (t.length + 1 + step - 1) = t.length + step := by omega
        rw [h1, h3, Nat.add_div_right _ (by omega)]

/-- Downsampling stride used by create_route_ribbon_mesh:
step = max(1, len(route_e) // 500). -/
def ribbon_step (n : ℕ) : ℕ := max 1 (n / 500)

/-- The route arrays after the route_e[::step] downsampling at the top of
create_route_ribbon_mesh. -/
def ribbon_downsample (l : List α) : List α := takeEvery (ribbon_step l.length) l

theorem ribbon_downsample_length (l : List α) :
    (ribbon_downsample l).length =
      (l.length + ribbon_step l.length - 1) / ribbon_step l.length :=
  takeEvery_length _ (le_max_left _ _) l

/-- Claim C8 counterexample: a route of 501 points is left with all 501
samples (the stride is max(1, 501 // 500) = 1), exceeding the claimed bound
of 500 samples. -/
theorem ribbon_downsample_overflow_at_501 :
    500 < (ribbon_downsample (List.replicate 501 (0 : ℚ))).length := by
  rw [ribbon_downsample_length]
  norm_num [ribbon_step]

/-- Claim C8 amended: the uniform-stride downsampling in
create_route_ribbon_mesh leaves at most 999 samples (not 500): with
step = max(1, n // 500) the resulting length is ceil(n / step), which is n
itself for n < 1000 (up to 999), and at most 750 for n ≥ 1000. -/
theorem ribbon_downsample_le_999 (l : List α) :
    (ribbon_downsample l).length ≤ 999 := by
  rw [ribbon_downsample_length]
  simp only [ribbon_step]
  set n := l.length with hn
  set s := max 1 (n / 500) with hs
  have hs0 : 0 < s := by omega
  have hmod : n % 500 < 500 := Nat.mod_lt _ (by norm_num)
  have hdiv : 500 * (n / 500) + n % 500 = n := Nat.div_add_mod n 500
  have key : n + s - 1 < 1000 * s := by omega
  have := (Nat.div_lt_iff_lt_mul hs0).2 (by omega : n + s - 1 < 1000 * s)
  omega

/-- Python int() truncation toward zero, applied to an exact rational. -/
def pyInt (q : ℚ) : ℤ := if 0 ≤ q then ⌊q⌋ else ⌈q⌉

/-- A longitude/latitude pair, represented by its normalized Web-Mercator
position: xn = (lon + 180) / 360 (increasing in longitude, and in [0, 1] for
longitudes in [-180, 180]) and yn = (1 - asinh(tan(lat·π/180)) / π) / 2
(decreasing in latitude, and in [0, 1] away from the poles).  The
transcendental map from degrees to (xn, yn) is kept abstract; everything
the source computes from these values is modelled exactly. -/
structure NormLL where
  xn : ℚ
  yn : ℚ
deriving DecidableEq

/-- Web-Mercator raster tile index (coordinate_transform.RasterTile). -/
structure RasterTile where
  zoom : ℕ
  x : ℤ
  y : ℤ
deriving DecidableEq

/-- LonLatToRasterTile.lonlat_to_tile: x_tile = int((lon+180)/360 · 2^zoom)
and y_tile = int((1 - asinh(tan(lat_rad))/π)/2 · 2^zoom); in normalized
coordinates both are int(c · 2^zoom). -/
def lonlat_to_tile (p : NormLL) (zoom : ℕ) : RasterTile :=
  ⟨zoom, pyInt (p.xn * 2 ^ zoom), pyInt (p.yn * 2 ^ zoom)⟩

/-- Python range(a, b + 1) over integers. -/
def intRangeIncl (a b : ℤ) : List ℤ :=
  (List.range (b + 1 - a).toNat).map fun k : ℕ => a + (k : ℤ)

/-- BBox_LL.tiles_to_cover: tile indices of the two bounding-box corners,
then every tile in the inclusive rectangle between the componentwise min and
max (x outer loop, y inner loop, both ascending). -/
def tiles_to_cover (cmin cmax : NormLL) (zoom : ℕ) : List RasterTile :=
  let tmin := lonlat_to_tile cmin zoom
  let tmax := lonlat_to_tile cmax zoom
  let minX := min tmin.x tmax.x
  let maxX := max tmin.x tmax.x
  let minY := min tmin.y tmax.y
  let maxY := max tmin.y tmax.y
  (intRangeIncl minX maxX).flatMap fun x =>
    (intRangeIncl minY maxY).map fun y => ⟨zoom, x, y⟩

theorem intRangeIncl_length (a b : ℤ) :
    (intRangeIncl a b).length = (b + 1 - a).toNat := by
  rw [intRangeIncl, List.length_map, List.length_range]

theorem pyInt_of_nonneg {q : ℚ} (h : 0 ≤ q) : pyInt q = ⌊q⌋ := if_pos h

theorem pyInt_natCast_div_pow_mul (a z : ℕ) :
    pyInt ((a : ℚ) / 2 ^ z * 2 ^ z) = a := by
  have h2 : ((2 : ℚ) ^ z) ≠ 0 := by positivity
  have : (a : ℚ) / 2 ^ z * 2 ^ z = (a : ℚ) := by field_simp
  rw [this, pyInt_of_nonneg (by positivity)]
  exact_mod_cast Int.floor_natCast a

theorem intRangeIncl_pair (a : ℤ) : intRangeIncl a (a + 1) = [a, a + 1] := by
  have h2 : (a + 1 + 1 - a).toNat = 2 := by omega
  rw [intRangeIncl, h2, show List.range 2 = [0, 1] from rfl]
  simp

/-- Claim C9 amended, general form: for a bounding box whose corners are
exactly the corner coordinates of the single tile (z, x, y) (west edge
xn = x/2^z, east edge (x+1)/2^z, north edge yn = y/2^z, south edge
(y+1)/2^z; the minimum-latitude corner is the southern one, hence carries
the larger normalized yn), tiles_to_cover returns the 2-by-2 block of four
tiles (x..x+1) × (y..y+1), not a single tile: the inclusive min/max
rectangle of int-truncated corner indices lands in the east and south
neighbours as well. -/
theorem tiles_to_cover_on_tile_corners (z x y : ℕ) :
    tiles_to_cover ⟨(x : ℚ) / 2 ^ z, ((y : ℚ) + 1) / 2 ^ z⟩
        ⟨((x : ℚ) + 1) / 2 ^ z, (y : ℚ) / 2 ^ z⟩ z =
      [⟨z, (x : ℤ), (y : ℤ)⟩, ⟨z, (x : ℤ), (y : ℤ) + 1⟩,
       ⟨z, (x : ℤ) + 1, (y : ℤ)⟩, ⟨z, (x : ℤ) + 1, (y : ℤ) + 1⟩] := by
  have hx1 : pyInt ((x : ℚ) / 2 ^ z * 2 ^ z) = (x : ℤ) := pyInt_natCast_div_pow_mul x z
  have hy1 : pyInt ((y : ℚ) / 2 ^ z * 2 ^ z) = (y : ℤ) := pyInt_natCast_div_pow_mul y z
  have hx2 : pyInt (((x : ℚ) + 1) / 2 ^ z * 2 ^ z) = (x : ℤ) + 1 := by
    have h := pyInt_natCast_div_pow_mul (x + 1) z
    push_cast at h
    exact h
  have hy2 : pyInt (((y : ℚ) + 1) / 2 ^ z * 2 ^ z) = (y : ℤ) + 1 := by
    have h := pyInt_natCast_div_pow_mul (y + 1) z
    push_cast at h
    exact h
  simp only [tiles_to_cover, lonlat_to_tile, hx1, hx2, hy1, hy2]
  rw [min_eq_left (by omega), max_eq_right (by omega),
      min_eq_right (by omega), max_eq_left (by omega),
      intRangeIncl_pair, intRangeIncl_pair]
  rfl

/-- Claim C9 counterexample: a bounding box given by the exact corners of
the single tile (zoom 2, x = 1, y = 1) (normalized corner coordinates
xn ∈ {1/4, 2/4}, yn ∈ {1/4, 2/4}) yields four covering tiles, not one. -/
theorem tiles_to_cover_single_tile_gives_four :
    (tiles_to_cover ⟨1 / 4, 2 / 4⟩ ⟨2 / 4, 1 / 4⟩ 2).length = 4 ∧
      (tiles_to_cover ⟨1 / 4, 2 / 4⟩ ⟨2 / 4, 1 / 4⟩ 2).length ≠ 1 := by
  have e1 : pyInt ((1 / 4 : ℚ) * 2 ^ 2) = 1 := by
    rw [show (1 / 4 : ℚ) * 2 ^ 2 = 1 by norm_num, pyInt_of_nonneg (by norm_num)]
    exact Int.floor_one
  have e2 : pyInt ((2 / 4 : ℚ) * 2 ^ 2) = 2 := by
    rw [show (2 / 4 : ℚ) * 2 ^ 2 = 2 by norm_num, pyInt_of_nonneg (by norm_num)]
    rw [show (2 : ℚ) = ((2 : ℤ) : ℚ) by norm_num]
    exact Int.floor_intCast 2
  simp only [tiles_to_cover, lonlat_to_tile, e1, e2]
  decide

/-- Meters-per-pixel formula of ZoomLevel._compute_auto_zoom:
(EARTH_CIRCUMFERENCE_M · cos(radians(central_latitude))) / (256 · 2^zoom).
The circumference and the cosine of the central latitude enter as input
values circ and cosLat. -/
def meters_per_pixel (circ cosLat : ℚ) (z : ℕ) : ℚ := circ * cosLat / (256 * 2 ^ z)

/-- Both conditions of the auto-zoom search at one zoom: meters-per-pixel at
most the required model resolution, and covering tile count within budget. -/
abbrev zoom_good (circ cosLat res : ℚ) (cmin cmax : NormLL) (maxTiles z : ℕ) : Prop :=
  meters_per_pixel circ cosLat z ≤ res ∧
    (tiles_to_cover cmin cmax z).length ≤ maxTiles

/-- Loop of ZoomLevel._compute_auto_zoom over a list of zoom levels, with
the accumulator optimum_zoom (initially 15): stop ("break") at the first
zoom whose tile count exceeds max_tiles, otherwise record the zoom when it
satisfies both conditions and continue. -/
def auto_zoom_loop (circ cosLat res : ℚ) (cmin cmax : NormLL) (maxTiles : ℕ) :
    List ℕ → ℕ → ℕ
  | [], acc => acc
  | z :: rest, acc =>
    if maxTiles < (tiles_to_cover cmin cmax z).length then acc
    else if meters_per_pixel circ cosLat z ≤ res ∧
        (tiles_to_cover cmin cmax z).length ≤ maxTiles then
      auto_zoom_loop circ cosLat res cmin cmax maxTiles rest z
    else
      auto_zoom_loop circ cosLat res cmin cmax maxTiles rest acc

/-- ZoomLevel._compute_auto_zoom: scan zooms 1..15 with fallback 15. -/
def compute_auto_zoom (circ cosLat res : ℚ) (cmin cmax : NormLL) (maxTiles : ℕ) : ℕ :=
  auto_zoom_loop circ cosLat res cmin cmax maxTiles
    ((List.range 15).map fun k => k + 1) 15

theorem length_flatMap_const {α β : Type _} (l : List α) (f : α → List β) (c : ℕ)
    (h : ∀ x ∈ l, (f x).length = c) : (l.flatMap f).length = l.length * c := by
  induction l with
  | nil => simp
  | cons a t ih =>
      rw [List.flatMap_cons, List.length_append, h a (List.mem_cons_self _ _),
        List.length_cons, ih fun x hx => h x (List.mem_cons_of_mem _ hx)]
      ring

theorem tiles_to_cover_length_eq (cmin cmax : NormLL) (z : ℕ) :
    (tiles_to_cover cmin cmax z).length =
      (max (pyInt (cmin.xn * 2 ^ z)) (pyInt (cmax.xn * 2 ^ z)) + 1 -
        min (pyInt (cmin.xn * 2 ^ z)) (pyInt (cmax.xn * 2 ^ z))).toNat *
      (max (pyInt (cmin.yn * 2 ^ z)) (pyInt (cmax.yn * 2 ^ z)) + 1 -
        min (pyInt (cmin.yn * 2 ^ z)) (pyInt (cmax.yn * 2 ^ z))).toNat := by
  simp only [tiles_to_cover, lonlat_to_tile]
  rw [length_flatMap_const _ _
      ((max (pyInt (cmin.yn * 2 ^ z)) (pyInt (cmax.yn * 2 ^ z)) + 1 -
        min (pyInt (cmin.yn * 2 ^ z)) (pyInt (cmax.yn * 2 ^ z))).toNat)
      (fun x _ => by rw [List.length_map, intRangeIncl_length]),
    intRangeIncl_length]

theorem floor_diff_mono_double {u v : ℚ} (huv : u ≤ v) (z : ℕ) :
    ⌊v * 2 ^ z⌋ - ⌊u * 2 ^ z⌋ ≤ ⌊v * 2 ^ (z + 1)⌋ - ⌊u * 2 ^ (z + 1)⌋ := by
  have h1 : 2 * ⌊v * 2 ^ z⌋ ≤ ⌊v * 2 ^ (z + 1)⌋ := by
    rw [show v * 2 ^ (z + 1) = 2 * (v * 2 ^ z) by ring]
    apply Int.le_floor.2
    push_cast
    linarith [Int.floor_le (v * 2 ^ z)]
  have h2 : ⌊u * 2 ^ (z + 1)⌋ ≤ 2 * ⌊u * 2 ^ z⌋ + 1 := by
    rw [show u * 2 ^ (z + 1) = 2 * (u * 2 ^ z) by ring]
    apply Int.floor_le_iff.2
    push_cast
    linarith [Int.lt_floor_add_one (u * 2 ^ z)]
  have h0 : ⌊u * 2 ^ z⌋ ≤ ⌊v * 2 ^ z⌋ := by
    apply Int.floor_le_floor
    exact mul_le_mul_of_nonneg_right huv (pow_pos (by norm_num : (0:ℚ) < 2) z).le
  have h0' : ⌊u * 2 ^ (z + 1)⌋ ≤ ⌊v * 2 ^ (z + 1)⌋ := by
    apply Int.floor_le_floor
    exact mul_le_mul_of_nonneg_right huv (pow_pos (by norm_num : (0:ℚ) < 2) (z + 1)).le
  omega

theorem pyInt_minmax_diff_mono {a b : ℚ} (ha : 0 ≤ a) (hb : 0 ≤ b) (z : ℕ) :
    max (pyInt (a * 2 ^ z)) (pyInt (b * 2 ^ z)) + 1 -
      min (pyInt (a * 2 ^ z)) (pyInt (b * 2 ^ z)) ≤
    max (pyInt (a * 2 ^ (z + 1))) (pyInt (b * 2 ^ (z + 1))) + 1 -
      min (pyInt (a * 2 ^ (z + 1))) (pyInt (b * 2 ^ (z + 1))) := by
  have h2z : (0:ℚ) ≤ 2 ^ z := (pow_pos (by norm_num : (0:ℚ) < 2) z).le
  have h2z1 : (0:ℚ) ≤ 2 ^ (z + 1) := (pow_pos (by norm_num : (0:ℚ) < 2) (z + 1)).le
  rw [pyInt_of_nonneg (mul_nonneg ha h2z), pyInt_of_nonneg (mul_nonneg hb h2z),
    pyInt_of_nonneg (mul_nonneg ha h2z1), pyInt_of_nonneg (mul_nonneg hb h2z1)]
  rcases le_total a b with hab | hab
  · have e1 : a * 2 ^ z ≤ b * 2 ^ z := mul_le_mul_of_nonneg_right hab h2z
    have e2 : a * 2 ^ (z + 1) ≤ b * 2 ^ (z + 1) := mul_le_mul_of_nonneg_right hab h2z1
    rw [min_eq_left (Int.floor_le_floor e1), max_eq_right (Int.floor_le_floor e1),
      min_eq_left (Int.floor_le_floor e2), max_eq_right (Int.floor_le_floor e2)]
    have := floor_diff_mono_double hab z
    omega
  · have e1 : b * 2 ^ z ≤ a * 2 ^ z := mul_le_mul_of_nonneg_right hab h2z
    have e2 : b * 2 ^ (z + 1) ≤ a * 2 ^ (z + 1) := mul_le_mul_of_nonneg_right hab h2z1
    rw [min_eq_right (Int.floor_le_floor e1), max_eq_left (Int.floor_le_floor e1),
      min_eq_right (Int.floor_le_floor e2), max_eq_left (Int.floor_le_floor e2)]
    have := floor_diff_mono_double hab z
    omega

theorem tiles_to_cover_length_mono (cmin cmax : NormLL)
    (hx1 : 0 ≤ cmin.xn) (hx2 : 0 ≤ cmax.xn) (hy1 : 0 ≤ cmin.yn) (hy2 : 0 ≤ cmax.yn)
    {z z' : ℕ} (hzz : z ≤ z') :
    (tiles_to_cover cmin cmax z).length ≤ (tiles_to_cover cmin cmax z').length := by
  induction z', hzz using Nat.le_induction with
  | base => exact le_refl _
  | succ w hw ih =>
      refine le_trans ih ?_
      rw [tiles_to_cover_length_eq, tiles_to_cover_length_eq]
      have kx := pyInt_minmax_diff_mono hx1 hx2 w
      have ky := pyInt_minmax_diff_mono hy1 hy2 w
      exact Nat.mul_le_mul (by omega) (by omega)

theorem auto_zoom_loop_no_good (circ cosLat res : ℚ) (cmin cmax : NormLL)
    (maxTiles : ℕ) :
    ∀ (zs : List ℕ) (acc : ℕ),
      (∀ z ∈ zs, ¬ zoom_good circ cosLat res cmin cmax maxTiles z) →
      auto_zoom_loop circ cosLat res cmin cmax maxTiles zs acc = acc := by
  intro zs
  induction zs with
  | nil => intro acc _; rfl
  | cons z rest ih =>
      intro acc hnone
      rw [auto_zoom_loop]
      by_cases hbreak : maxTiles < (tiles_to_cover cmin cmax z).length
      · rw [if_pos hbreak]
      · rw [if_neg hbreak, if_neg (hnone z (List.mem_cons_self _ _))]
        exact ih acc fun w hw => hnone w (List.mem_cons_of_mem _ hw)

theorem auto_zoom_loop_max_good (circ cosLat res : ℚ) (cmin cmax : NormLL)
    (maxTiles : ℕ)
    (hx1 : 0 ≤ cmin.xn) (hx2 : 0 ≤ cmax.xn) (hy1 : 0 ≤ cmin.yn) (hy2 : 0 ≤ cmax.yn) :
    ∀ (zs : List ℕ) (acc g : ℕ),
      zs.Sorted (· < ·) →
      g ∈ zs →
      zoom_good circ cosLat res cmin cmax maxTiles g →
      (∀ z ∈ zs, zoom_good circ cosLat res cmin cmax maxTiles z → z ≤ g) →
      auto_zoom_loop circ cosLat res cmin cmax maxTiles zs acc = g := by
  intro zs
  induction zs with
  | nil => intro acc g _ hg; cases hg
  | cons z rest ih =>
      intro acc g hsort hg hgood hmax
      have hsrest : rest.Sorted (· < ·) := (List.sorted_cons.1 hsort).2
      have hlt : ∀ w ∈ rest, z < w := (List.sorted_cons.1 hsort).1
      rw [auto_zoom_loop]
      have hnobreak : ¬ maxTiles < (tiles_to_cover cmin cmax z).length := by
        rcases List.mem_cons.1 hg with rfl | hgrest
        · exact not_lt.2 hgood.2
        · have hzg : z ≤ g := (hlt g hgrest).le
          have := tiles_to_cover_length_mono cmin cmax hx1 hx2 hy1 hy2 hzg
          exact not_lt.2 (this.trans hgood.2)
      rw [if_neg hnobreak]
      by_cases hzgood : zoom_good circ cosLat res cmin cmax maxTiles z
      · rw [if_pos hzgood]
        rcases List.mem_cons.1 hg with rfl | hgrest
        · apply auto_zoom_loop_no_good
          intro w hw hwgood
          exact absurd (hmax w (List.mem_cons_of_mem _ hw) hwgood) (not_le.2 (hlt w hw))
        · exact ih z g hsrest hgrest hgood
            fun w hw hwgood => hmax w (List.mem_cons_of_mem _ hw) hwgood
      · rw [if_neg hzgood]
        rcases List.mem_cons.1 hg with rfl | hgrest
        · exact absurd hgood hzgood
        · exact ih acc g hsrest hgrest hgood
            fun w hw hwgood => hmax w (List.mem_cons_of_mem _ hw) hwgood

theorem mem_zoom_scan_list (z : ℕ) :
    z ∈ ((List.range 15).map fun k => k + 1) ↔ 1 ≤ z ∧ z ≤ 15 := by
  simp only [List.mem_map, List.mem_range]
  constructor
  · rintro ⟨k, hk, rfl⟩; omega
  · rintro ⟨h1, h15⟩; exact ⟨z - 1, by omega, by omega⟩

/-- Claim C3: for every bounding box (given by its two corners, with
nonnegative normalized Mercator coordinates, as holds for any box inside
the Web-Mercator domain), any required resolution and the default budget of
1000 tiles, _compute_auto_zoom always returns a zoom in [1, 15]; whenever
some zoom in [1, 15] has meters-per-pixel at most the required resolution
and covering tile count within budget, the result is the finest (largest)
such zoom; and when no zoom in [1, 15] satisfies both conditions, the
result is the fallback 15.  The early break at the first over-budget zoom
never discards a satisfying zoom because the covering tile count is
monotone in zoom. -/
theorem compute_auto_zoom_spec (circ cosLat res : ℚ) (cmin cmax : NormLL)
    (hx1 : 0 ≤ cmin.xn) (hx2 : 0 ≤ cmax.xn) (hy1 : 0 ≤ cmin.yn) (hy2 : 0 ≤ cmax.yn) :
    (1 ≤ compute_auto_zoom circ cosLat res cmin cmax 1000 ∧
      compute_auto_zoom circ cosLat res cmin cmax 1000 ≤ 15) ∧
    ((∃ z, 1 ≤ z ∧ z ≤ 15 ∧ zoom_good circ cosLat res cmin cmax 1000 z) →
      zoom_good circ cosLat res cmin cmax 1000
          (compute_auto_zoom circ cosLat res cmin cmax 1000) ∧
        ∀ z, 1 ≤ z → z ≤ 15 → zoom_good circ cosLat res cmin cmax 1000 z →
          z ≤ compute_auto_zoom circ cosLat res cmin cmax 1000) ∧
    ((∀ z, 1 ≤ z → z ≤ 15 → ¬ zoom_good circ cosLat res cmin cmax 1000 z) →
      compute_auto_zoom circ cosLat res cmin cmax 1000 = 15) := by
  have hsort : ((List.range 15).map fun k => k + 1).Sorted (· < ·) := by decide
  by_cases hex : ∃ z, 1 ≤ z ∧ z ≤ 15 ∧ zoom_good circ cosLat res cmin cmax 1000 z
  · obtain ⟨z0, hz01, hz015, hz0g⟩ := hex
    set g := Nat.findGreatest (zoom_good circ cosLat res cmin cmax 1000) 15 with hgdef
    have hg_good : zoom_good circ cosLat res cmin cmax 1000 g :=
      Nat.findGreatest_spec hz015 hz0g
    have hg_ge : z0 ≤ g := Nat.le_findGreatest hz015 hz0g
    have hg_le : g ≤ 15 := Nat.findGreatest_le 15
    have hmax : ∀ z, 1 ≤ z → z ≤ 15 →
        zoom_good circ cosLat res cmin cmax 1000 z → z ≤ g :=
      fun z _ h15 hz => Nat.le_findGreatest h15 hz
    have hZ : compute_auto_zoom circ cosLat res cmin cmax 1000 = g := by
      apply auto_zoom_loop_max_good circ cosLat res cmin cmax 1000 hx1 hx2 hy1 hy2
        _ 15 g hsort ((mem_zoom_scan_list g).2 ⟨by omega, hg_le⟩) hg_good
      intro w hw hwgood
      have hwb := (mem_zoom_scan_list w).1 hw
      exact hmax w hwb.1 hwb.2 hwgood
    refine ⟨⟨by omega, by omega⟩, fun _ => ⟨hZ ▸ hg_good, fun z h1 h15 hz => hZ ▸ hmax z h1 h15 hz⟩,
      fun hnone => absurd hz0g (hnone z0 hz01 hz015)⟩
  · have hnone : ∀ z ∈ ((List.range 15).map fun k => k + 1),
        ¬ zoom_good circ cosLat res cmin cmax 1000 z := by
      intro z hz hg
      have hb := (mem_zoom_scan_list z).1 hz
      exact hex ⟨z, hb.1, hb.2, hg⟩
    have hZ : compute_auto_zoom circ cosLat res cmin cmax 1000 = 15 :=
      auto_zoom_loop_no_good circ cosLat res cmin cmax 1000 _ 15 hnone
    exact ⟨⟨by omega, by omega⟩, fun h => absurd h hex, fun _ => hZ⟩

/-- Witness for compute_auto_zoom_spec at a concrete input: a degenerate
single-point bounding box at the normalized origin, circumference times
cosine 40075017, required resolution 40000: the finest satisfying zoom is
computed and all hypotheses hold. -/
theorem compute_auto_zoom_spec_witness :
    (1 ≤ compute_auto_zoom 40075017 1 40000 ⟨0, 0⟩ ⟨0, 0⟩ 1000 ∧
      compute_auto_zoom 40075017 1 40000 ⟨0, 0⟩ ⟨0, 0⟩ 1000 ≤ 15) ∧
    ((∃ z, 1 ≤ z ∧ z ≤ 15 ∧ zoom_good 40075017 1 40000 ⟨0, 0⟩ ⟨0, 0⟩ 1000 z) →
      zoom_good 40075017 1 40000 ⟨0, 0⟩ ⟨0, 0⟩ 1000
          (compute_auto_zoom 40075017 1 40000 ⟨0, 0⟩ ⟨0, 0⟩ 1000) ∧
        ∀ z, 1 ≤ z → z ≤ 15 → zoom_good 40075017 1 40000 ⟨0, 0⟩ ⟨0, 0⟩ 1000 z →
          z ≤ compute_auto_zoom 40075017 1 40000 ⟨0, 0⟩ ⟨0, 0⟩ 1000) ∧
    ((∀ z, 1 ≤ z → z ≤ 15 → ¬ zoom_good 40075017 1 40000 ⟨0, 0⟩ ⟨0, 0⟩ 1000 z) →
      compute_auto_zoom 40075017 1 40000 ⟨0, 0⟩ ⟨0, 0⟩ 1000 = 15) :=
  compute_auto_zoom_spec 40075017 1 40000 ⟨0, 0⟩ ⟨0, 0⟩
    (le_refl 0) (le_refl 0) (le_refl 0) (le_refl 0)

/-- Fold of the nearest-neighbour scan: carry (best index, best value),
replacing it whenever a strictly smaller value appears (so ties keep the
first index), with i the index of the head of the remaining list. -/
def argminGo : List ℚ → ℕ → ℕ × ℚ → ℕ × ℚ
  | [], _, b => b
  | x :: xs, i, b => argminGo xs (i + 1) (if x < b.2 then (i, x) else b)

/-- Index of the first minimal element of a list (0 on the empty list).
Models the index returned by the cKDTree nearest-neighbour query of
Terrain_ENU.sample_at_points: the query minimizes the Euclidean distance,
and minimizing the squared distance selects the same indices since the
square root is monotone. -/
def py_argmin (l : List ℚ) : ℕ :=
  match l with
  | [] => 0
  | x :: xs => (argminGo xs 1 (0, x)).1

theorem argminGo_le (xs : List ℚ) : ∀ (i : ℕ) (b : ℕ × ℚ),
    (argminGo xs i b).2 ≤ b.2 ∧ ∀ x ∈ xs, (argminGo xs i b).2 ≤ x := by
  induction xs with
  | nil => intro i b; exact ⟨le_refl _, by simp⟩
  | cons x t ih =>
      intro i b
      rw [argminGo]
      rcases ih (i + 1) (if x < b.2 then (i, x) else b) with ⟨h1, h2⟩
      constructor
      · refine h1.trans ?_
        split <;> simp_all <;> linarith
      · intro y hy
        rcases List.mem_cons.1 hy with rfl | hyt
        · refine h1.trans ?_
          split <;> simp_all
        · exact h2 y hyt

theorem argminGo_at (xs : List ℚ) : ∀ (i : ℕ) (b : ℕ × ℚ),
    argminGo xs i b = b ∨
      ∃ k, k < xs.length ∧ (argminGo xs i b).1 = i + k ∧
        (argminGo xs i b).2 = xs.getD k 0 := by
  induction xs with
  | nil => intro i b; exact Or.inl rfl
  | cons x t ih =>
      intro i b
      rw [argminGo]
      rcases ih (i + 1) (if x < b.2 then (i, x) else b) with h | ⟨k, hk, h1, h2⟩
      · rw [h]
        by_cases hx : x < b.2
        · rw [if_pos hx]
          exact Or.inr ⟨0, by simp, by simp [if_pos hx], by simp [if_pos hx]⟩
        · rw [if_neg hx]
          exact Or.inl rfl
      · exact Or.inr ⟨k + 1, by simp; omega, by omega, by simpa using h2⟩

theorem py_argmin_spec (l : List ℚ) (hne : l ≠ []) :
    py_argmin l < l.length ∧
      (∀ m < l.length, l.getD (py_argmin l) 0 ≤ l.getD m 0) := by
  match l with
  | [] => exact absurd rfl hne
  | x :: xs =>
      have hle := argminGo_le xs 1 (0, x)
      have hat := argminGo_at xs 1 (0, x)
      rw [py_argmin]
      have hval : (argminGo xs 1 (0, x)).2 = (x :: xs).getD (argminGo xs 1 (0, x)).1 0 := by
        rcases hat with h | ⟨k, hk, h1, h2⟩
        · rw [h]; simp
        · rw [h1, h2, Nat.add_comm 1 k]
          simp [List.getD_cons_succ]
      have hlen : (argminGo xs 1 (0, x)).1 < (x :: xs).length := by
        rcases hat with h | ⟨k, hk, h1, _⟩
        · rw [h]; simp
        · rw [h1]; simp; omega
      refine ⟨hlen, fun m hm => ?_⟩
      rw [← hval]
      match m with
      | 0 => exact hle.1
      | m + 1 =>
          have hm' : m < xs.length := by simpa using hm
          have he : (x :: xs).getD (m + 1) 0 = xs.getD m 0 := by
            simp [List.getD_cons_succ]
          rw [he, List.getD_eq_getElem xs 0 hm']
          exact hle.2 _ (List.getElem_mem hm')

theorem getD_zipWith (f : ℚ → ℚ → ℚ) (l1 l2 : List ℚ) (k : ℕ)
    (h1 : k < l1.length) (h2 : k < l2.length) :
    (List.zipWith f l1 l2).getD k 0 = f (l1.getD k 0) (l2.getD k 0) := by
  rw [List.getD_eq_getElem _ _ (by rw [List.length_zipWith]; omega),
    List.getD_eq_getElem _ _ h1, List.getD_eq_getElem _ _ h2]
  exact List.getElem_zipWith

/-- Terrain_ENU.sample_at_points for a single query point: squared planar
distances from the query to every raveled terrain grid point, then the
u_grid entry at the first index of minimal distance.  (The source minimizes
the Euclidean distance through a cKDTree; the squared distance has the same
minimizers since the square root is monotone.) -/
def sample_at_point (eg ng ug : List ℚ) (qe qn : ℚ) : ℚ :=
  ug.getD (py_argmin (List.zipWith (fun te tn => (te - qe) ^ 2 + (tn - qn) ^ 2) eg ng)) 0

/-- Terrain_ENU.sample_at_points: nearest-neighbour elevation lookup over
the raveled (E, N) grids, batched over the query arrays. -/
def sample_at_points (eg ng ug : List ℚ) (qe qn : List ℚ) : List ℚ :=
  List.zipWith (fun e n => sample_at_point eg ng ug e n) qe qn

/-- Claim C10: Terrain_ENU.sample_at_points is total over arbitrary query
coordinates (the terrain grids being nonempty and co-indexed): for every
query point, also outside the terrain's East/North extent, it returns the
u_grid entry at a grid index whose (E, N) position has minimal distance to
the query among all grid points; in particular every returned value is an
element of u_grid. -/
theorem sample_at_point_nearest (eg ng ug : List ℚ) (qe qn : ℚ)
    (hng : ng.length = eg.length) (hug : ug.length = eg.length) (hne : eg ≠ []) :
    ∃ k, k < eg.length ∧
      sample_at_point eg ng ug qe qn = ug.getD k 0 ∧
      sample_at_point eg ng ug qe qn ∈ ug ∧
      ∀ m < eg.length,
        (eg.getD k 0 - qe) ^ 2 + (ng.getD k 0 - qn) ^ 2 ≤
          (eg.getD m 0 - qe) ^ 2 + (ng.getD m 0 - qn) ^ 2 := by
  set dists := List.zipWith (fun te tn => (te - qe) ^ 2 + (tn - qn) ^ 2) eg ng with hd
  have hdlen : dists.length = eg.length := by
    rw [hd, List.length_zipWith]; omega
  have hdne : dists ≠ [] := by
    intro h0
    exact hne (List.length_eq_zero.1 (by rw [← hdlen, h0]; rfl))
  obtain ⟨hlt, hmin⟩ := py_argmin_spec dists hdne
  refine ⟨py_argmin dists, by omega, rfl, ?_, ?_⟩
  · rw [sample_at_point, ← hd, List.getD_eq_getElem ug 0 (by omega)]
    exact List.getElem_mem _
  · intro m hm
    have e1 := getD_zipWith (fun te tn => (te - qe) ^ 2 + (tn - qn) ^ 2) eg ng
      (py_argmin dists) (by omega) (by omega)
    have e2 := getD_zipWith (fun te tn => (te - qe) ^ 2 + (tn - qn) ^ 2) eg ng
      m (by omega) (by omega)
    have h3 := hmin m (by omega)
    rw [← hd] at e1 e2
    rw [e1, e2] at h3
    exact h3

/-- Witness for sample_at_point_nearest: a two-point terrain with a query
point outside the terrain extent; the sampled value is the nearest point's
elevation. -/
theorem sample_at_point_nearest_witness :
    ∃ k, k < [(0 : ℚ), 3].length ∧
      sample_at_point [(0 : ℚ), 3] [0, 0] [10, 20] 5 0 = [(10 : ℚ), 20].getD k 0 ∧
      sample_at_point [(0 : ℚ), 3] [0, 0] [10, 20] 5 0 ∈ [(10 : ℚ), 20] ∧
      ∀ m < [(0 : ℚ), 3].length,
        ([(0 : ℚ), 3].getD k 0 - 5) ^ 2 + ([(0 : ℚ), 0].getD k 0 - 0) ^ 2 ≤
          ([(0 : ℚ), 3].getD m 0 - 5) ^ 2 + ([(0 : ℚ), 0].getD m 0 - 0) ^ 2 :=
  sample_at_point_nearest [0, 3] [0, 0] [10, 20] 5 0 rfl rfl (by simp)

/-- Minimum tile x index over a nonempty tile list (Python min(tile_xs)). -/
def tile_x_min (t : ℤ × ℤ) (ts : List (ℤ × ℤ)) : ℤ := (ts.map Prod.fst).foldl min t.1

/-- Minimum tile y index over a nonempty tile list (Python min(tile_ys)). -/
def tile_y_min (t : ℤ × ℤ) (ts : List (ℤ × ℤ)) : ℤ := (ts.map Prod.snd).foldl min t.2

/-- Terrain_ENU.new: for each pixel (i, j) the fractional tile coordinate
is (tile_x_min + j/256, tile_y_min + i/256); the longitude is recovered
exactly as tile_x/2^zoom · 360 - 180; the latitude
arctan(sinh(π(1 - 2·tile_y/2^zoom))) is kept abstract as latOf applied to
the fractional tile y; the external pymap3d geodetic-to-ENU transform is
the abstract function enu taking (latitude, longitude, elevation) to an
(E, N, U) triple.  The resulting grids are: E and N from the transform
output, and u_grid = heightmap.copy() — the raw elevations, not the
transform's third component.  Returns none on an empty tile list (where the
source's min() raises). -/
def terrain_enu_new {L : Type _} (latOf : ℚ → L) (enu : L → ℚ → ℚ → ℚ × ℚ × ℚ)
    (z : ℕ) (heightmap : ℕ → ℕ → ℚ) (tiles : List (ℤ × ℤ)) :
    Option ((ℕ → ℕ → ℚ) × (ℕ → ℕ → ℚ) × (ℕ → ℕ → ℚ)) :=
  match tiles with
  | [] => none
  | t :: ts =>
      let lon : ℕ → ℚ := fun j =>
        ((tile_x_min t ts : ℚ) + (j : ℚ) / 256) / 2 ^ z * 360 - 180
      let lat : ℕ → L := fun i => latOf ((tile_y_min t ts : ℚ) + (i : ℚ) / 256)
      some
        (fun i j => (enu (lat i) (lon j) (heightmap i j)).1,
         fun i j => (enu (lat i) (lon j) (heightmap i j)).2.1,
         fun i j => heightmap i j)

/-- Modelled from the spec (claim C4, §3 TerrainGrid invariant, §4.4): the
grid construction in which all three of E, N and U come from the ENU
projection of each pixel's geodetic position.  Identical to terrain_enu_new
except that U is the transform's third component; used only to compare the
source behaviour against the claimed one. -/
def terrain_enu_new_spec {L : Type _} (latOf : ℚ → L) (enu : L → ℚ → ℚ → ℚ × ℚ × ℚ)
    (z : ℕ) (heightmap : ℕ → ℕ → ℚ) (tiles : List (ℤ × ℤ)) :
    Option ((ℕ → ℕ → ℚ) × (ℕ → ℕ → ℚ) × (ℕ → ℕ → ℚ)) :=
  match tiles with
  | [] => none
  | t :: ts =>
      let lon : ℕ → ℚ := fun j =>
        ((tile_x_min t ts : ℚ) + (j : ℚ) / 256) / 2 ^ z * 360 - 180
      let lat : ℕ → L := fun i => latOf ((tile_y_min t ts : ℚ) + (i : ℚ) / 256)
      some
        (fun i j => (enu (lat i) (lon j) (heightmap i j)).1,
         fun i j => (enu (lat i) (lon j) (heightmap i j)).2.1,
         fun i j => (enu (lat i) (lon j) (heightmap i j)).2.2)

/-- Claim C4 counterexample: with a transform whose up component differs
from the raw elevation (as the true fixed-origin geodetic-to-ENU transform
does at every pixel away from the origin, where earth curvature lowers the
tangent-plane up component), Terrain_ENU.new keeps u_grid equal to the raw
heightmap, so the U component of TerrainGrid does not equal the ENU
projection of the pixel's geodetic position. -/
theorem terrain_enu_new_u_counterexample :
    ∃ gsrc gspec,
      terrain_enu_new (fun _ => ()) (fun _ _ ele => (0, 0, ele - 1)) 0
          (fun _ _ => 0) [(0, 0)] = some gsrc ∧
      terrain_enu_new_spec (fun _ => ()) (fun _ _ ele => (0, 0, ele - 1)) 0
          (fun _ _ => 0) [(0, 0)] = some gspec ∧
      gsrc.2.2 0 0 = 0 ∧ gspec.2.2 0 0 = -1 ∧ gsrc.2.2 0 0 ≠ gspec.2.2 0 0 := by
  refine ⟨_, _, rfl, rfl, rfl, ?_, ?_⟩
  · show (0 : ℚ) - 1 = -1
    norm_num
  · show (0 : ℚ) ≠ 0 - 1
    norm_num

/-- Claim C4 amended: for every transform and every assembled heightmap
(nonempty tile list), Terrain_ENU.new constructs E and N as the first two
components of the ENU projection of the geodetic position derived from the
top-left (minimum) tile index plus the (col/256, row/256) sub-tile pixel
fraction with elevation Heightmap[i][j] — so E and N agree with the fully
projected grid — while the U component is the raw heightmap value
(u_grid = heightmap.copy()), not the projection's up component. -/
theorem terrain_enu_new_grids {L : Type _} (latOf : ℚ → L)
    (enu : L → ℚ → ℚ → ℚ × ℚ × ℚ) (z : ℕ) (heightmap : ℕ → ℕ → ℚ)
    (t : ℤ × ℤ) (ts : List (ℤ × ℤ)) :
    ∃ gsrc gspec,
      terrain_enu_new latOf enu z heightmap (t :: ts) = some gsrc ∧
      terrain_enu_new_spec latOf enu z heightmap (t :: ts) = some gspec ∧
      (∀ i j, gsrc.1 i j =
        (enu (latOf ((tile_y_min t ts : ℚ) + (i : ℚ) / 256))
          (((tile_x_min t ts : ℚ) + (j : ℚ) / 256) / 2 ^ z * 360 - 180)
          (heightmap i j)).1) ∧
      gsrc.1 = gspec.1 ∧ gsrc.2.1 = gspec.2.1 ∧
      ∀ i j, gsrc.2.2 i j = heightmap i j :=
  ⟨_, _, rfl, rfl, fun _ _ => rfl, rfl, rfl, fun _ _ => rfl⟩

/-- NumPy ndarray.min() of a nonempty array, as a head-seeded fold. -/
def np_min {K : Type _} [LinearOrder K] (x : K) (xs : List K) : K := xs.foldl min x

theorem np_min_mem {K : Type _} [LinearOrder K] (xs : List K) :
    ∀ x : K, np_min x xs ∈ x :: xs := by
  induction xs with
  | nil => intro x; simp [np_min]
  | cons y ys ih =>
      intro x
      have h := ih (min x y)
      simp only [np_min] at h ⊢
      rw [List.foldl_cons]
      rcases List.mem_cons.1 h with h0 | h0
      · rw [h0]
        rcases min_choice x y with hm | hm
        · rw [hm]; exact List.mem_cons_self _ _
        · rw [hm]; exact List.mem_cons.2 (Or.inr (List.mem_cons_self _ _))
      · exact List.mem_cons.2 (Or.inr (List.mem_cons.2 (Or.inr h0)))

theorem np_min_le {K : Type _} [LinearOrder K] (xs : List K) :
    ∀ x : K, np_min x xs ≤ x ∧ ∀ y ∈ xs, np_min x xs ≤ y := by
  induction xs with
  | nil => intro x; exact ⟨le_refl x, by simp⟩
  | cons y ys ih =>
      intro x
      have h := ih (min x y)
      rw [np_min, List.foldl_cons]
      refine ⟨h.1.trans (min_le_left _ _), fun w hw => ?_⟩
      rcases List.mem_cons.1 hw with rfl | hw'
      · exact h.1.trans (min_le_right _ _)
      · exact h.2 w hw'

/-- Route-carving of create_terrain_mesh for a single grid cell (source
lines 44-55): distances = sqrt((route_e - te)^2 + (route_n - tn)^2),
min_dist = distances.min(); if min_dist < route_width/2 the elevation
becomes u - route_depth · (1 - min_dist/(route_width/2)), else unchanged.
np.sqrt is the parameter sqrtF, instantiated with Real.sqrt over ℝ.  The
empty-distances case (where NumPy's min() would raise) returns u here; the
full create_terrain_mesh embedding errors out before reaching it. -/
def carve_cell {K : Type _} [LinearOrderedField K] (sqrtF : K → K)
    (routeE routeN : List K) (w dep : K) (te tn u : K) : K :=
  match List.zipWith (fun re rn => sqrtF ((re - te) ^ 2 + (rn - tn) ^ 2)) routeE routeN with
  | [] => u
  | d0 :: ds =>
      if np_min d0 ds < w / 2 then u - dep * (1 - np_min d0 ds / (w / 2)) else u

/-- The whole carved elevation grid: carve_cell applied at every cell. -/
def carve_u {K : Type _} [LinearOrderedField K] (sqrtF : K → K)
    (routeE routeN : List K) (w dep : K) (E N U : ℕ → ℕ → K) : ℕ → ℕ → K :=
  fun i j => carve_cell sqrtF routeE routeN w dep (E i j) (N i j) (U i j)

/-- The contents of the caller's terrain_u array after create_terrain_mesh
returns: the source carves in place (terrain_u[i, j] -= ...) directly on the
caller's array when all three route arrays are supplied, so the post-call
array is the carved grid; without a route it is untouched.  The E and N
arrays are never assigned to by create_terrain_mesh. -/
def terrain_u_after_create {K : Type _} [LinearOrderedField K] (sqrtF : K → K)
    (E N U : ℕ → ℕ → K) (route? : Option (List K × List K)) (w dep : K) :
    ℕ → ℕ → K :=
  match route? with
  | none => U
  | some (re, rn) => carve_u sqrtF re rn w dep E N U

theorem carve_cell_of_far {K : Type _} [LinearOrderedField K] (sqrtF : K → K)
    (routeE routeN : List K) (w dep te tn u : K)
    (h : ∀ x ∈ List.zipWith (fun re rn => sqrtF ((re - te) ^ 2 + (rn - tn) ^ 2))
        routeE routeN, ¬ x < w / 2) :
    carve_cell sqrtF routeE routeN w dep te tn u = u := by
  rw [carve_cell]
  split
  · rfl
  · rename_i heq
    rw [if_neg]
    apply h
    rw [heq]
    exact np_min_mem _ _

theorem carve_cell_single_point (te : ℝ) :
    carve_cell Real.sqrt [0] [0] (2 : ℝ) 1 te 0 100 =
      if Real.sqrt (te ^ 2) < 1 then 100 - (1 - Real.sqrt (te ^ 2)) else 100 := by
  have h1 : ((0 : ℝ) - te) ^ 2 + ((0 : ℝ) - 0) ^ 2 = te ^ 2 := by ring
  rw [show carve_cell Real.sqrt [0] [0] (2 : ℝ) 1 te 0 100 =
      if Real.sqrt (((0 : ℝ) - te) ^ 2 + ((0 : ℝ) - 0) ^ 2) < 2 / 2 then
        100 - 1 * (1 - Real.sqrt (((0 : ℝ) - te) ^ 2 + ((0 : ℝ) - 0) ^ 2) / (2 / 2))
      else 100 from rfl, h1]
  norm_num

/-- Claim C6 amended: route-carving with corridor width 2 m and depth 1 m on
a flat 100 m grid (route sample at the origin, grid points at distances
0, 1/2, 1, 2): the point exactly on the route drops to 99; a point at
distance 1/2 (strictly inside the corridor, whose half-width is
width/2 = 1 m) is lowered per the linear blend to 99.5; the point at
distance 1 m sits exactly at the corridor edge and is unchanged at 100 (it
is not lowered — the blend support is the open disc of radius width/2); the
point at distance 2 m is far outside the corridor and unchanged. -/
theorem carve_flat_grid_scenario :
    carve_u Real.sqrt [0] [0] 2 1 (fun _ j => [(0 : ℝ), 1 / 2, 1, 2].getD j 0)
        (fun _ _ => 0) (fun _ _ => 100) 0 0 = 99 ∧
    carve_u Real.sqrt [0] [0] 2 1 (fun _ j => [(0 : ℝ), 1 / 2, 1, 2].getD j 0)
        (fun _ _ => 0) (fun _ _ => 100) 0 1 = 100 - 1 / 2 ∧
    carve_u Real.sqrt [0] [0] 2 1 (fun _ j => [(0 : ℝ), 1 / 2, 1, 2].getD j 0)
        (fun _ _ => 0) (fun _ _ => 100) 0 2 = 100 ∧
    carve_u Real.sqrt [0] [0] 2 1 (fun _ j => [(0 : ℝ), 1 / 2, 1, 2].getD j 0)
        (fun _ _ => 0) (fun _ _ => 100) 0 3 = 100 := by
  refine ⟨?_, ?_, ?_, ?_⟩
  · show carve_cell Real.sqrt [0] [0] (2 : ℝ) 1 0 0 100 = 99
    rw [carve_cell_single_point, show ((0 : ℝ) ^ 2) = 0 by ring, Real.sqrt_zero]
    norm_num
  · show carve_cell Real.sqrt [0] [0] (2 : ℝ) 1 (1 / 2) 0 100 = 100 - 1 / 2
    rw [carve_cell_single_point, Real.sqrt_sq (by norm_num : (0 : ℝ) ≤ 1 / 2)]
    norm_num
  · show carve_cell Real.sqrt [0] [0] (2 : ℝ) 1 1 0 100 = 100
    rw [carve_cell_single_point, Real.sqrt_sq (by norm_num : (0 : ℝ) ≤ 1)]
    norm_num
  · show carve_cell Real.sqrt [0] [0] (2 : ℝ) 1 2 0 100 = 100
    rw [carve_cell_single_point, Real.sqrt_sq (by norm_num : (0 : ℝ) ≤ 2)]
    norm_num

/-- Claim C6 counterexample: the claim asserts that a grid point 1 m from
the route is partially lowered by the blend; in fact with corridor width 2 m
the corridor half-width is 1 m, so that point lies exactly on the corridor
edge and keeps its elevation of 100 m — it is not lowered at all. -/
theorem carve_one_meter_point_not_lowered :
    carve_u Real.sqrt [0] [0] 2 1 (fun _ j => [(0 : ℝ), 1 / 2, 1, 2].getD j 0)
        (fun _ _ => 0) (fun _ _ => 100) 0 2 = 100 ∧
    ¬ carve_u Real.sqrt [0] [0] 2 1 (fun _ j => [(0 : ℝ), 1 / 2, 1, 2].getD j 0)
        (fun _ _ => 0) (fun _ _ => 100) 0 2 < 100 := by
  have h : carve_cell Real.sqrt [0] [0] (2 : ℝ) 1 1 0 100 = 100 := by
    rw [carve_cell_single_point, Real.sqrt_sq (by norm_num : (0 : ℝ) ≤ 1)]
    norm_num
  exact ⟨h, by rw [show carve_u Real.sqrt [0] [0] 2 1
    (fun _ j => [(0 : ℝ), 1 / 2, 1, 2].getD j 0) (fun _ _ => 0) (fun _ _ => 100) 0 2 =
      carve_cell Real.sqrt [0] [0] (2 : ℝ) 1 1 0 100 from rfl, h]; norm_num⟩

/-- Claim C5 counterexample: create_terrain_mesh does not carve a private
copy: after the call the caller's elevation array holds the carved values.
On a flat 100 m grid with a route sample exactly on grid point (0, 0),
corridor width 2 m and depth 1 m, the caller's array afterwards reads 99 m
there, not the pre-call 100 m. -/
theorem terrain_u_after_create_mutated :
    terrain_u_after_create Real.sqrt (fun _ j => [(0 : ℝ), 1 / 2, 1, 2].getD j 0)
        (fun _ _ => 0) (fun _ _ => 100) (some ([0], [0])) 2 1 0 0 = 99 ∧
    terrain_u_after_create Real.sqrt (fun _ j => [(0 : ℝ), 1 / 2, 1, 2].getD j 0)
        (fun _ _ => 0) (fun _ _ => 100) (some ([0], [0])) 2 1 0 0 ≠ 100 := by
  have h : carve_cell Real.sqrt [0] [0] (2 : ℝ) 1 0 0 100 = 99 := by
    rw [carve_cell_single_point, show ((0 : ℝ) ^ 2) = 0 by ring, Real.sqrt_zero]
    norm_num
  refine ⟨h, ?_⟩
  rw [show terrain_u_after_create Real.sqrt (fun _ j => [(0 : ℝ), 1 / 2, 1, 2].getD j 0)
      (fun _ _ => 0) (fun _ _ => 100) (some ([0], [0])) 2 1 0 0 =
        carve_cell Real.sqrt [0] [0] (2 : ℝ) 1 0 0 100 from rfl, h]
  norm_num

/-- Claim C5 amended: the carving writes only the elevation grid, and only
inside the corridor: without a route the caller's array is untouched, and
with a route every grid cell whose distances to all route samples are at
least half the corridor width keeps its pre-call value (the E and N arrays
are never assigned at all — in this embedding the post-call state exists
only for U). -/
theorem terrain_u_after_create_frame {K : Type _} [LinearOrderedField K]
    (sqrtF : K → K) (E N U : ℕ → ℕ → K) (re rn : List K) (w dep : K) :
    terrain_u_after_create sqrtF E N U none w dep = U ∧
    ∀ i j, (∀ x ∈ List.zipWith (fun a b => sqrtF ((a - E i j) ^ 2 + (b - N i j) ^ 2)) re rn,
        ¬ x < w / 2) →
      terrain_u_after_create sqrtF E N U (some (re, rn)) w dep i j = U i j :=
  ⟨rfl, fun _ _ h => carve_cell_of_far sqrtF re rn w dep _ _ _ h⟩

/-- Witness for terrain_u_after_create_frame: a far-away route sample (all
distances 25 under the identity in place of sqrt) leaves the cell value
unchanged. -/
theorem terrain_u_after_create_frame_witness :
    terrain_u_after_create (fun q : ℚ => q) (fun _ _ => 0) (fun _ _ => 0)
        (fun _ _ => 100) none 2 1 = (fun _ _ => (100 : ℚ)) ∧
    ∀ i j, (∀ x ∈ List.zipWith
        (fun a b => (fun q : ℚ => q) ((a - (fun _ _ => (0 : ℚ)) i j) ^ 2 +
          (b - (fun _ _ => (0 : ℚ)) i j) ^ 2)) [5] [0], ¬ x < 2 / 2) →
      terrain_u_after_create (fun q : ℚ => q) (fun _ _ => 0) (fun _ _ => 0)
        (fun _ _ => 100) (some ([5], [0])) 2 1 i j = (fun _ _ => (100 : ℚ)) i j :=
  terrain_u_after_create_frame (fun q : ℚ => q) (fun _ _ => 0) (fun _ _ => 0)
    (fun _ _ => 100) [5] [0] 2 1

/-- A terrain mesh vertex in grid-structured form: (row i, column j,
bottom?).  In create_terrain_mesh the flat NumPy index of (i, j, false)
(a top-surface vertex) is i·W + j and of (i, j, true) (a base vertex) is
H·W + i·W + j; the structured form is used for the edge-counting proofs and
mapped to flat indices afterwards. -/
abbrev GridVertex := ℕ × ℕ × Bool

/-- A triangle of grid-structured vertices, in its winding order. -/
abbrev GridFace := GridVertex × GridVertex × GridVertex

/-- The three undirected edges of a triangle. -/
def faceEdges (f : GridFace) : List (Sym2 GridVertex) :=
  [s(f.1, f.2.1), s(f.2.1, f.2.2), s(f.2.2, f.1)]

/-- Top-surface triangle 1 of cell (i, j): flat indices
[idx, idx + W, idx + 1] with idx = i·W + j. -/
def topF1 (i j : ℕ) : GridFace := ((i, j, false), (i + 1, j, false), (i, j + 1, false))

/-- Top-surface triangle 2 of cell (i, j): [idx + 1, idx + W, idx + W + 1]. -/
def topF2 (i j : ℕ) : GridFace :=
  ((i, j + 1, false), (i + 1, j, false), (i + 1, j + 1, false))

/-- Bottom triangle of cell (i, j): top triangle 1 reversed
(faces[:, ::-1]) and offset to the base vertex block. -/
def botF1 (i j : ℕ) : GridFace := ((i, j + 1, true), (i + 1, j, true), (i, j, true))

/-- Bottom triangle of cell (i, j): top triangle 2 reversed and offset. -/
def botF2 (i j : ℕ) : GridFace :=
  ((i + 1, j + 1, true), (i + 1, j, true), (i, j + 1, true))

/-- Wall faces of the j = W - 1 boundary ("Top edge" loop in the source),
strip i: [t1, b1, t2] and [t2, b1, b2] with t1 = i·W + (W-1). -/
def eastF1 (L i : ℕ) : GridFace := ((i, L, false), (i, L, true), (i + 1, L, false))

/-- Second wall face of the j = W - 1 boundary, strip i. -/
def eastF2 (L i : ℕ) : GridFace := ((i + 1, L, false), (i, L, true), (i + 1, L, true))

/-- Wall faces of the i = H - 1 boundary ("Right edge" loop), strip j:
[t1, t2, b1] and [t2, b2, b1]. -/
def southF1 (K j : ℕ) : GridFace := ((K, j, false), (K, j + 1, false), (K, j, true))

/-- Second wall face of the i = H - 1 boundary, strip j. -/
def southF2 (K j : ℕ) : GridFace := ((K, j + 1, false), (K, j + 1, true), (K, j, true))

/-- Wall faces of the j = 0 boundary ("Bottom edge" loop), strip i:
[t1, t2, b1] and [t2, b2, b1]. -/
def westF1 (i : ℕ) : GridFace := ((i, 0, false), (i + 1, 0, false), (i, 0, true))

/-- Second wall face of the j = 0 boundary, strip i. -/
def westF2 (i : ℕ) : GridFace := ((i + 1, 0, false), (i + 1, 0, true), (i, 0, true))

/-- Wall faces of the i = 0 boundary ("Left edge" loop), strip j:
[t1, b1, t2] and [t2, b1, b2]. -/
def northF1 (j : ℕ) : GridFace := ((0, j, false), (0, j, true), (0, j + 1, false))

/-- Second wall face of the i = 0 boundary, strip j. -/
def northF2 (j : ℕ) : GridFace := ((0, j + 1, false), (0, j, true), (0, j + 1, true))

/-- All faces of the terrain mesh built by create_terrain_mesh, in source
order (top surface, bottom surface, then the four wall strips in the order
the source emits them), in grid-structured vertex form. -/
def structFaces (H W : ℕ) : List GridFace :=
  ((List.range (H - 1)).flatMap fun i => (List.range (W - 1)).flatMap fun j =>
    [topF1 i j, topF2 i j]) ++
  ((List.range (H - 1)).flatMap fun i => (List.range (W - 1)).flatMap fun j =>
    [botF1 i j, botF2 i j]) ++
  ((List.range (H - 1)).flatMap fun i => [eastF1 (W - 1) i, eastF2 (W - 1) i]) ++
  ((List.range (W - 1)).flatMap fun j => [southF1 (H - 1) j, southF2 (H - 1) j]) ++
  ((List.range (H - 1)).flatMap fun i => [westF1 i, westF2 i]) ++
  ((List.range (W - 1)).flatMap fun j => [northF1 j, northF2 j])

/-- The multiset (as a list) of undirected edges of all terrain mesh faces. -/
def structEdges (H W : ℕ) : List (Sym2 GridVertex) := (structFaces H W).flatMap faceEdges

/-- Number of faces of a singly-indexed face family containing a given edge. -/
def famCnt1 (n : ℕ) (F : ℕ → GridFace) (e : Sym2 GridVertex) : ℕ :=
  ((List.range n).map fun i => (faceEdges (F i)).count e).sum

/-- Number of faces of a doubly-indexed face family containing a given edge. -/
def famCnt2 (n m : ℕ) (F : ℕ → ℕ → GridFace) (e : Sym2 GridVertex) : ℕ :=
  ((List.range n).map fun i =>
    ((List.range m).map fun j => (faceEdges (F i j)).count e).sum).sum

theorem sum_map_add {α : Type _} (l : List α) (f g : α → ℕ) :
    (l.map fun x => f x + g x).sum = (l.map f).sum + (l.map g).sum := by
  induction l with
  | nil => rfl
  | cons a t ih => simp [ih]; ring

theorem count_pair_flatMap2 (n m : ℕ) (F G : ℕ → ℕ → GridFace) (e : Sym2 GridVertex) :
    ((((List.range n).flatMap fun i => (List.range m).flatMap fun j =>
        [F i j, G i j]).flatMap faceEdges)).count e = famCnt2 n m F e + famCnt2 n m G e := by
  have h1 : (((List.range n).flatMap fun i => (List.range m).flatMap fun j =>
      [F i j, G i j]).flatMap faceEdges) =
      (List.range n).flatMap fun i => (List.range m).flatMap fun j =>
        faceEdges (F i j) ++ faceEdges (G i j) := by
    simp [List.flatMap_assoc]
  rw [h1]
  simp only [List.count_flatMap, Function.comp_def, List.count_append]
  rw [famCnt2, famCnt2, ← sum_map_add]
  congr 1
  apply List.map_congr_left
  intro i _
  exact sum_map_add _ _ _

theorem count_pair_flatMap1 (n : ℕ) (F G : ℕ → GridFace) (e : Sym2 GridVertex) :
    ((((List.range n).flatMap fun i => [F i, G i]).flatMap faceEdges)).count e =
      famCnt1 n F e + famCnt1 n G e := by
  have h1 : (((List.range n).flatMap fun i => [F i, G i]).flatMap faceEdges) =
      (List.range n).flatMap fun i => faceEdges (F i) ++ faceEdges (G i) := by
    simp [List.flatMap_assoc]
  rw [h1]
  simp only [List.count_flatMap, Function.comp_def, List.count_append]
  rw [famCnt1, famCnt1, ← sum_map_add]

/-- Edge-count decomposition over the twelve face families. -/
theorem count_structEdges (H W : ℕ) (e : Sym2 GridVertex) :
    (structEdges H W).count e =
      famCnt2 (H - 1) (W - 1) topF1 e + famCnt2 (H - 1) (W - 1) topF2 e +
      (famCnt2 (H - 1) (W - 1) botF1 e + famCnt2 (H - 1) (W - 1) botF2 e) +
      (famCnt1 (H - 1) (eastF1 (W - 1)) e + famCnt1 (H - 1) (eastF2 (W - 1)) e) +
      (famCnt1 (W - 1) (southF1 (H - 1)) e + famCnt1 (W - 1) (southF2 (H - 1)) e) +
      (famCnt1 (H - 1) westF1 e + famCnt1 (H - 1) westF2 e) +
      (famCnt1 (W - 1) northF1 e + famCnt1 (W - 1) northF2 e) := by
  rw [structEdges, structFaces]
  simp only [List.flatMap_append, List.count_append]
  rw [count_pair_flatMap2, count_pair_flatMap2, count_pair_flatMap1, count_pair_flatMap1,
    count_pair_flatMap1, count_pair_flatMap1]

theorem sum_ite_single (n t c : ℕ) :
    ((List.range n).map fun i => if i = t then c else 0).sum = if t < n then c else 0 := by
  induction n with
  | zero => simp
  | succ n ih =>
      rw [List.range_succ]
      simp only [List.map_append, List.sum_append, ih, List.map_cons, List.map_nil,
        List.sum_cons, List.sum_nil]
      split_ifs <;> omega

theorem famCnt1_eval (n : ℕ) (F : ℕ → GridFace) (e : Sym2 GridVertex) (t : ℕ)
    (P : Prop) [Decidable P]
    (h : ∀ i, (faceEdges (F i)).count e = if i = t ∧ P then 1 else 0) :
    famCnt1 n F e = if t < n ∧ P then 1 else 0 := by
  by_cases hP : P
  · have h' : ∀ i, (faceEdges (F i)).count e = if i = t then 1 else 0 := by
      intro i; rw [h]; simp [hP]
    rw [famCnt1]
    simp only [h']
    rw [sum_ite_single]
    simp [hP]
  · have h' : ∀ i, (faceEdges (F i)).count e = 0 := by
      intro i; rw [h]; simp [hP]
    rw [famCnt1]
    simp [h', hP]

theorem famCnt1_zero (n : ℕ) (F : ℕ → GridFace) (e : Sym2 GridVertex)
    (h : ∀ i, (faceEdges (F i)).count e = 0) : famCnt1 n F e = 0 := by
  rw [famCnt1]
  simp [h]

theorem famCnt2_eval (n m : ℕ) (F : ℕ → ℕ → GridFace) (e : Sym2 GridVertex) (ta tb : ℕ)
    (P : Prop) [Decidable P]
    (h : ∀ i j, (faceEdges (F i j)).count e = if i = ta ∧ j = tb ∧ P then 1 else 0) :
    famCnt2 n m F e = if ta < n ∧ tb < m ∧ P then 1 else 0 := by
  by_cases hP : P
  · have h' : ∀ i j, (faceEdges (F i j)).count e = if i = ta ∧ j = tb then 1 else 0 := by
      intro i j; rw [h]; simp [hP]
    rw [famCnt2]
    simp only [h']
    have hinner : ∀ i : ℕ,
        ((List.range m).map fun j => if i = ta ∧ j = tb then 1 else 0).sum =
          if i = ta then (if tb < m then 1 else 0) else 0 := by
      intro i
      by_cases hi : i = ta
      · subst hi
        simp only [eq_self_iff_true, true_and, if_true]
        exact sum_ite_single m tb 1
      · simp [hi]
    simp only [hinner]
    rw [sum_ite_single]
    simp only [hP, and_true]
    split_ifs <;> omega
  · have h' : ∀ i j, (faceEdges (F i j)).count e = 0 := by
      intro i j; rw [h]; simp [hP]
    rw [famCnt2]
    simp [h', hP]

theorem famCnt2_zero (n m : ℕ) (F : ℕ → ℕ → GridFace) (e : Sym2 GridVertex)
    (h : ∀ i j, (faceEdges (F i j)).count e = 0) : famCnt2 n m F e = 0 := by
  rw [famCnt2]
  simp [h]

theorem count_faceEdges (f : GridFace) (e : Sym2 GridVertex) :
    (faceEdges f).count e =
      (if s(f.1, f.2.1) = e then 1 else 0) + (if s(f.2.1, f.2.2) = e then 1 else 0) +
        (if s(f.2.2, f.1) = e then 1 else 0) := by
  simp only [faceEdges, List.count_cons, List.count_nil, beq_iff_eq]
  ring

theorem ite_sum_slot1 {C1 C2 C3 D : Prop} [Decidable C1] [Decidable C2] [Decidable C3]
    [Decidable D] (h1 : C1 ↔ D) (h2 : ¬C2) (h3 : ¬C3) :
    ((if C1 then 1 else 0) + (if C2 then 1 else 0) + (if C3 then 1 else 0) : ℕ) =
      if D then 1 else 0 := by
  simp [h1, h2, h3]

theorem ite_sum_slot2 {C1 C2 C3 D : Prop} [Decidable C1] [Decidable C2] [Decidable C3]
    [Decidable D] (h1 : ¬C1) (h2 : C2 ↔ D) (h3 : ¬C3) :
    ((if C1 then 1 else 0) + (if C2 then 1 else 0) + (if C3 then 1 else 0) : ℕ) =
      if D then 1 else 0 := by
  simp [h1, h2, h3]

theorem ite_sum_slot3 {C1 C2 C3 D : Prop} [Decidable C1] [Decidable C2] [Decidable C3]
    [Decidable D] (h1 : ¬C1) (h2 : ¬C2) (h3 : C3 ↔ D) :
    ((if C1 then 1 else 0) + (if C2 then 1 else 0) + (if C3 then 1 else 0) : ℕ) =
      if D then 1 else 0 := by
  simp [h1, h2, h3]

theorem ite_sum_none {C1 C2 C3 : Prop} [Decidable C1] [Decidable C2] [Decidable C3]
    (h1 : ¬C1) (h2 : ¬C2) (h3 : ¬C3) :
    ((if C1 then 1 else 0) + (if C2 then 1 else 0) + (if C3 then 1 else 0) : ℕ) = 0 := by
  simp [h1, h2, h3]
set_option maxHeartbeats 4000000 in
theorem cnt_topH (H W : ℕ) (a b : ℕ) (hH : 2 ≤ H) (hW : 2 ≤ W) (ha : a ≤ H - 1) (hb : b < W - 1) :
    (structEdges H W).count (s(((a, b, false) : GridVertex), (a, b + 1, false))) = 2 := by
  have htopF1 : famCnt2 (H - 1) (W - 1) topF1 (s(((a, b, false) : GridVertex), (a, b + 1, false))) =
      if (a) < H - 1 ∧ (b) < W - 1 ∧ (True) then 1 else 0 := by
    apply famCnt2_eval
    intro i j
    rw [count_faceEdges]
    apply ite_sum_slot3
    · simp only [topF1, topF2, botF1, botF2, eastF1, eastF2, southF1, southF2, westF1,
        westF2, northF1, northF2, Sym2.eq_iff, Prod.mk.injEq, Bool.false_eq_true,
        Bool.true_eq_false, and_false, false_and, and_true, true_and, or_false,
        false_or, or_self, not_false_eq_true]
      try omega
    · simp only [topF1, topF2, botF1, botF2, eastF1, eastF2, southF1, southF2, westF1,
        westF2, northF1, northF2, Sym2.eq_iff, Prod.mk.injEq, Bool.false_eq_true,
        Bool.true_eq_false, and_false, false_and, and_true, true_and, or_false,
        false_or, or_self, not_false_eq_true]
      try omega
    · simp only [topF1, topF2, botF1, botF2, eastF1, eastF2, southF1, southF2, westF1,
        westF2, northF1, northF2, Sym2.eq_iff, Prod.mk.injEq, Bool.false_eq_true,
        Bool.true_eq_false, and_false, false_and, and_true, true_and, or_false,
        false_or, or_self, not_false_eq_true]
      try omega
  have htopF2 : famCnt2 (H - 1) (W - 1) topF2 (s(((a, b, false) : GridVertex), (a, b + 1, false))) =
      if (a - 1) < H - 1 ∧ (b) < W - 1 ∧ (1 ≤ a) then 1 else 0 := by
    apply famCnt2_eval
    intro i j
    rw [count_faceEdges]
    apply ite_sum_slot2
    · simp only [topF1, topF2, botF1, botF2, eastF1, eastF2, southF1, southF2, westF1,
        westF2, northF1, northF2, Sym2.eq_iff, Prod.mk.injEq, Bool.false_eq_true,
        Bool.true_eq_false, and_false, false_and, and_true, true_and, or_false,
        false_or, or_self, not_false_eq_true]
      try omega
    · simp only [topF1, topF2, botF1, botF2, eastF1, eastF2, southF1, southF2, westF1,
        westF2, northF1, northF2, Sym2.eq_iff, Prod.mk.injEq, Bool.false_eq_true,
        Bool.true_eq_false, and_false, false_and, and_true, true_and, or_false,
        false_or, or_self, not_false_eq_true]
      try omega
    · simp only [topF1, topF2, botF1, botF2, eastF1, eastF2, southF1, southF2, westF1,
        westF2, northF1, northF2, Sym2.eq_iff, Prod.mk.injEq, Bool.false_eq_true,
        Bool.true_eq_false, and_false, false_and, and_true, true_and, or_false,
        false_or, or_self, not_false_eq_true]
      try omega
  have hbotF1 : famCnt2 (H - 1) (W - 1) botF1 (s(((a, b, false) : GridVertex), (a, b + 1, false))) = 0 := by
    apply famCnt2_zero
    intro i j
    rw [count_faceEdges]
    apply ite_sum_none
    · simp only [topF1, topF2, botF1, botF2, eastF1, eastF2, southF1, southF2, westF1,
        westF2, northF1, northF2, Sym2.eq_iff, Prod.mk.injEq, Bool.false_eq_true,
        Bool.true_eq_false, and_false, false_and, and_true, true_and, or_false,
        false_or, or_self, not_false_eq_true]
      try omega
    · simp only [topF1, topF2, botF1, botF2, eastF1, eastF2, southF1, southF2, westF1,
        westF2, northF1, northF2, Sym2.eq_iff, Prod.mk.injEq, Bool.false_eq_true,
        Bool.true_eq_false, and_false, false_and, and_true, true_and, or_false,
        false_or, or_self, not_false_eq_true]
      try omega
    · simp only [topF1, topF2, botF1, botF2, eastF1, eastF2, southF1, southF2, westF1,
        westF2, northF1, northF2, Sym2.eq_iff, Prod.mk.injEq, Bool.false_eq_true,
        Bool.true_eq_false, and_false, false_and, and_true, true_and, or_false,
        false_or, or_self, not_false_eq_true]
      try omega
  have hbotF2 : famCnt2 (H - 1) (W - 1) botF2 (s(((a, b, false) : GridVertex), (a, b + 1, false))) = 0 := by
    apply famCnt2_zero
    intro i j
    rw [count_faceEdges]
    apply ite_sum_none
    · simp only [topF1, topF2, botF1, botF2, eastF1, eastF2, southF1, southF2, westF1,
        westF2, northF1, northF2, Sym2.eq_iff, Prod.mk.injEq, Bool.false_eq_true,
        Bool.true_eq_false, and_false, false_and, and_true, true_and, or_false,
        false_or, or_self, not_false_eq_true]
      try omega
    · simp only [topF1, topF2, botF1, botF2, eastF1, eastF2, southF1, southF2, westF1,
        westF2, northF1, northF2, Sym2.eq_iff, Prod.mk.injEq, Bool.false_eq_true,
        Bool.true_eq_false, and_false, false_and, and_true, true_and, or_false,
        false_or, or_self, not_false_eq_true]
      try omega
    · simp only [topF1, topF2, botF1, botF2, eastF1, eastF2, southF1, southF2, westF1,
        westF2, northF1, northF2, Sym2.eq_iff, Prod.mk.injEq, Bool.false_eq_true,
        Bool.true_eq_false, and_false, false_and, and_true, true_and, or_false,
        false_or, or_self, not_false_eq_true]
      try omega
  have heastF1 : famCnt1 (H - 1) (eastF1 (W - 1)) (s(((a, b, false) : GridVertex), (a, b + 1, false))) = 0 := by
    apply famCnt1_zero
    intro i
    rw [count_faceEdges]
    apply ite_sum_none
    · simp only [topF1, topF2, botF1, botF2, eastF1, eastF2, southF1, southF2, westF1,
        westF2, northF1, northF2, Sym2.eq_iff, Prod.mk.injEq, Bool.false_eq_true,
        Bool.true_eq_false, and_false, false_and, and_true, true_and, or_false,
        false_or, or_self, not_false_eq_true]
      try omega
    · simp only [topF1, topF2, botF1, botF2, eastF1, eastF2, southF1, southF2, westF1,
        westF2, northF1, northF2, Sym2.eq_iff, Prod.mk.injEq, Bool.false_eq_true,
        Bool.true_eq_false, and_false, false_and, and_true, true_and, or_false,
        false_or, or_self, not_false_eq_true]
      try omega
    · simp only [topF1, topF2, botF1, botF2, eastF1, eastF2, southF1, southF2, westF1,
        westF2, northF1, northF2, Sym2.eq_iff, Prod.mk.injEq, Bool.false_eq_true,
        Bool.true_eq_false, and_false, false_and, and_true, true_and, or_false,
        false_or, or_self, not_false_eq_true]
      try omega
  have heastF2 : famCnt1 (H - 1) (eastF2 (W - 1)) (s(((a, b, false) : GridVertex), (a, b + 1, false))) = 0 := by
    apply famCnt1_zero
    intro i
    rw [count_faceEdges]
    apply ite_sum_none
    · simp only [topF1, topF2, botF1, botF2, eastF1, eastF2, southF1, southF2, westF1,
        westF2, northF1, northF2, Sym2.eq_iff, Prod.mk.injEq, Bool.false_eq_true,
        Bool.true_eq_false, and_false, false_and, and_true, true_and, or_false,
        false_or, or_self, not_false_eq_true]
      try omega
    · simp only [topF1, topF2, botF1, botF2, eastF1, eastF2, southF1, southF2, westF1,
        westF2, northF1, northF2, Sym2.eq_iff, Prod.mk.injEq, Bool.false_eq_true,
        Bool.true_eq_false, and_false, false_and, and_true, true_and, or_false,
        false_or, or_self, not_false_eq_true]
      try omega
    · simp only [topF1, topF2, botF1, botF2, eastF1, eastF2, southF1, southF2, westF1,
        westF2, northF1, northF2, Sym2.eq_iff, Prod.mk.injEq, Bool.false_eq_true,
        Bool.true_eq_false, and_false, false_and, and_true, true_and, or_false,
        false_or, or_self, not_false_eq_true]
      try omega
  have hsouthF1 : famCnt1 (W - 1) (southF1 (H - 1)) (s(((a, b, false) : GridVertex), (a, b + 1, false))) =
      if (b) < W - 1 ∧ (H - 1 = a) then 1 else 0 := by
    apply famCnt1_eval
    intro i
    rw [count_faceEdges]
    apply ite_sum_slot1
    · simp only [topF1, topF2, botF1, botF2, eastF1, eastF2, southF1, southF2, westF1,
        westF2, northF1, northF2, Sym2.eq_iff, Prod.mk.injEq, Bool.false_eq_true,
        Bool.true_eq_false, and_false, false_and, and_true, true_and, or_false,
        false_or, or_self, not_false_eq_true]
      try omega
    · simp only [topF1, topF2, botF1, botF2, eastF1, eastF2, southF1, southF2, westF1,
        westF2, northF1, northF2, Sym2.eq_iff, Prod.mk.injEq, Bool.false_eq_true,
        Bool.true_eq_false, and_false, false_and, and_true, true_and, or_false,
        false_or, or_self, not_false_eq_true]
      try omega
    · simp only [topF1, topF2, botF1, botF2, eastF1, eastF2, southF1, southF2, westF1,
        westF2, northF1, northF2, Sym2.eq_iff, Prod.mk.injEq, Bool.false_eq_true,
        Bool.true_eq_false, and_false, false_and, and_true, true_and, or_false,
        false_or, or_self, not_false_eq_true]
      try omega
  have hsouthF2 : famCnt1 (W - 1) (southF2 (H - 1)) (s(((a, b, false) : GridVertex), (a, b + 1, false))) = 0 := by
    apply famCnt1_zero
    intro i
    rw [count_faceEdges]
    apply ite_sum_none
    · simp only [topF1, topF2, botF1, botF2, eastF1, eastF2, southF1, southF2, westF1,
        westF2, northF1, northF2, Sym2.eq_iff, Prod.mk.injEq, Bool.false_eq_true,
        Bool.true_eq_false, and_false, false_and, and_true, true_and, or_false,
        false_or, or_self, not_false_eq_true]
      try omega
    · simp only [topF1, topF2, botF1, botF2, eastF1, eastF2, southF1, southF2, westF1,
        westF2, northF1, northF2, Sym2.eq_iff, Prod.mk.injEq, Bool.false_eq_true,
        Bool.true_eq_false, and_false, false_and, and_true, true_and, or_false,
        false_or, or_self, not_false_eq_true]
      try omega
    · simp only [topF1, topF2, botF1, botF2, eastF1, eastF2, southF1, southF2, westF1,
        westF2, northF1, northF2, Sym2.eq_iff, Prod.mk.injEq, Bool.false_eq_true,
        Bool.true_eq_false, and_false, false_and, and_true, true_and, or_false,
        false_or, or_self, not_false_eq_true]
      try omega
  have hwestF1 : famCnt1 (H - 1) (westF1) (s(((a, b, false) : GridVertex), (a, b + 1, false))) = 0 := by
    apply famCnt1_zero
    intro i
    rw [count_faceEdges]
    apply ite_sum_none
    · simp only [topF1, topF2, botF1, botF2, eastF1, eastF2, southF1, southF2, westF1,
        westF2, northF1, northF2, Sym2.eq_iff, Prod.mk.injEq, Bool.false_eq_true,
        Bool.true_eq_false, and_false, false_and, and_true, true_and, or_false,
        false_or, or_self, not_false_eq_true]
      try omega
    · simp only [topF1, topF2, botF1, botF2, eastF1, eastF2, southF1, southF2, westF1,
        westF2, northF1, northF2, Sym2.eq_iff, Prod.mk.injEq, Bool.false_eq_true,
        Bool.true_eq_false, and_false, false_and, and_true, true_and, or_false,
        false_or, or_self, not_false_eq_true]
      try omega
    · simp only [topF1, topF2, botF1, botF2, eastF1, eastF2, southF1, southF2, westF1,
        westF2, northF1, northF2, Sym2.eq_iff, Prod.mk.injEq, Bool.false_eq_true,
        Bool.true_eq_false, and_false, false_and, and_true, true_and, or_false,
        false_or, or_self, not_false_eq_true]
      try omega
  have hwestF2 : famCnt1 (H - 1) (westF2) (s(((a, b, false) : GridVertex), (a, b + 1, false))) = 0 := by
    apply famCnt1_zero
    intro i
    rw [count_faceEdges]
    apply ite_sum_none
    · simp only [topF1, topF2, botF1, botF2, eastF1, eastF2, southF1, southF2, westF1,
        westF2, northF1, northF2, Sym2.eq_iff, Prod.mk.injEq, Bool.false_eq_true,
        Bool.true_eq_false, and_false, false_and, and_true, true_and, or_false,
        false_or, or_self, not_false_eq_true]
      try omega
    · simp only [topF1, topF2, botF1, botF2, eastF1, eastF2, southF1, southF2, westF1,
        westF2, northF1, northF2, Sym2.eq_iff, Prod.mk.injEq, Bool.false_eq_true,
        Bool.true_eq_false, and_false, false_and, and_true, true_and, or_false,
        false_or, or_self, not_false_eq_true]
      try omega
    · simp only [topF1, topF2, botF1, botF2, eastF1, eastF2, southF1, southF2, westF1,
        westF2, northF1, northF2, Sym2.eq_iff, Prod.mk.injEq, Bool.false_eq_true,
        Bool.true_eq_false, and_false, false_and, and_true, true_and, or_false,
        false_or, or_self, not_false_eq_true]
      try omega
  have hnorthF1 : famCnt1 (W - 1) (northF1) (s(((a, b, false) : GridVertex), (a, b + 1, false))) =
      if (b) < W - 1 ∧ (a = 0) then 1 else 0 := by
    apply famCnt1_eval
    intro i
    rw [count_faceEdges]
    apply ite_sum_slot3
    · simp only [topF1, topF2, botF1, botF2, eastF1, eastF2, southF1, southF2, westF1,
        westF2, northF1, northF2, Sym2.eq_iff, Prod.mk.injEq, Bool.false_eq_true,
        Bool.true_eq_false, and_false, false_and, and_true, true_and, or_false,
        false_or, or_self, not_false_eq_true]
      try omega
    · simp only [topF1, topF2, botF1, botF2, eastF1, eastF2, southF1, southF2, westF1,
        westF2, northF1, northF2, Sym2.eq_iff, Prod.mk.injEq, Bool.false_eq_true,
        Bool.true_eq_false, and_false, false_and, and_true, true_and, or_false,
        false_or, or_self, not_false_eq_true]
      try omega
    · simp only [topF1, topF2, botF1, botF2, eastF1, eastF2, southF1, southF2, westF1,
        westF2, northF1, northF2, Sym2.eq_iff, Prod.mk.injEq, Bool.false_eq_true,
        Bool.true_eq_false, and_false, false_and, and_true, true_and, or_false,
        false_or, or_self, not_false_eq_true]
      try omega
  have hnorthF2 : famCnt1 (W - 1) (northF2) (s(((a, b, false) : GridVertex), (a, b + 1, false))) = 0 := by
    apply famCnt1_zero
    intro i
    rw [count_faceEdges]
    apply ite_sum_none
    · simp only [topF1, topF2, botF1, botF2, eastF1, eastF2, southF1, southF2, westF1,
        westF2, northF1, northF2, Sym2.eq_iff, Prod.mk.injEq, Bool.false_eq_true,
        Bool.true_eq_false, and_false, false_and, and_true, true_and, or_false,
        false_or, or_self, not_false_eq_true]
      try omega
    · simp only [topF1, topF2, botF1, botF2, eastF1, eastF2, southF1, southF2, westF1,
        westF2, northF1, northF2, Sym2.eq_iff, Prod.mk.injEq, Bool.false_eq_true,
        Bool.true_eq_false, and_false, false_and, and_true, true_and, or_false,
        false_or, or_self, not_false_eq_true]
      try omega
    · simp only [topF1, topF2, botF1, botF2, eastF1, eastF2, southF1, southF2, westF1,
        westF2, northF1, northF2, Sym2.eq_iff, Prod.mk.injEq, Bool.false_eq_true,
        Bool.true_eq_false, and_false, false_and, and_true, true_and, or_false,
        false_or, or_self, not_false_eq_true]
      try omega
  rw [count_structEdges, htopF1, htopF2, hbotF1, hbotF2, heastF1, heastF2, hsouthF1, hsouthF2, hwestF1, hwestF2, hnorthF1, hnorthF2]
  try simp only [and_true]
  split_ifs <;> omega


set_option maxHeartbeats 4000000 in
theorem cnt_topV (H W : ℕ) (a b : ℕ) (hH : 2 ≤ H) (hW : 2 ≤ W) (ha : a < H - 1) (hb : b ≤ W - 1) :
    (structEdges H W).count (s(((a, b, false) : GridVertex), (a + 1, b, false))) = 2 := by
  have htopF1 : famCnt2 (H - 1) (W - 1) topF1 (s(((a, b, false) : GridVertex), (a + 1, b, false))) =
      if (a) < H - 1 ∧ (b) < W - 1 ∧ (True) then 1 else 0 := by
    apply famCnt2_eval
    intro i j
    rw [count_faceEdges]
    apply ite_sum_slot1
    · simp only [topF1, topF2, botF1, botF2, eastF1, eastF2, southF1, southF2, westF1,
        westF2, northF1, northF2, Sym2.eq_iff, Prod.mk.injEq, Bool.false_eq_true,
        Bool.true_eq_false, and_false, false_and, and_true, true_and, or_false,
        false_or, or_self, not_false_eq_true]
      try omega
    · simp only [topF1, topF2, botF1, botF2, eastF1, eastF2, southF1, southF2, westF1,
        westF2, northF1, northF2, Sym2.eq_iff, Prod.mk.injEq, Bool.false_eq_true,
        Bool.true_eq_false, and_false, false_and, and_true, true_and, or_false,
        false_or, or_self, not_false_eq_true]
      try omega
    · simp only [topF1, topF2, botF1, botF2, eastF1, eastF2, southF1, southF2, westF1,
        westF2, northF1, northF2, Sym2.eq_iff, Prod.mk.injEq, Bool.false_eq_true,
        Bool.true_eq_false, and_false, false_and, and_true, true_and, or_false,
        false_or, or_self, not_false_eq_true]
      try omega
  have htopF2 : famCnt2 (H - 1) (W - 1) topF2 (s(((a, b, false) : GridVertex), (a + 1, b, false))) =
      if (a) < H - 1 ∧ (b - 1) < W - 1 ∧ (1 ≤ b) then 1 else 0 := by
    apply famCnt2_eval
    intro i j
    rw [count_faceEdges]
    apply ite_sum_slot3
    · simp only [topF1, topF2, botF1, botF2, eastF1, eastF2, southF1, southF2, westF1,
        westF2, northF1, northF2, Sym2.eq_iff, Prod.mk.injEq, Bool.false_eq_true,
        Bool.true_eq_false, and_false, false_and, and_true, true_and, or_false,
        false_or, or_self, not_false_eq_true]
      try omega
    · simp only [topF1, topF2, botF1, botF2, eastF1, eastF2, southF1, southF2, westF1,
        westF2, northF1, northF2, Sym2.eq_iff, Prod.mk.injEq, Bool.false_eq_true,
        Bool.true_eq_false, and_false, false_and, and_true, true_and, or_false,
        false_or, or_self, not_false_eq_true]
      try omega
    · simp only [topF1, topF2, botF1, botF2, eastF1, eastF2, southF1, southF2, westF1,
        westF2, northF1, northF2, Sym2.eq_iff, Prod.mk.injEq, Bool.false_eq_true,
        Bool.true_eq_false, and_false, false_and, and_true, true_and, or_false,
        false_or, or_self, not_false_eq_true]
      try omega
  have hbotF1 : famCnt2 (H - 1) (W - 1) botF1 (s(((a, b, false) : GridVertex), (a + 1, b, false))) = 0 := by
    apply famCnt2_zero
    intro i j
    rw [count_faceEdges]
    apply ite_sum_none
    · simp only [topF1, topF2, botF1, botF2, eastF1, eastF2, southF1, southF2, westF1,
        westF2, northF1, northF2, Sym2.eq_iff, Prod.mk.injEq, Bool.false_eq_true,
        Bool.true_eq_false, and_false, false_and, and_true, true_and, or_false,
        false_or, or_self, not_false_eq_true]
      try omega
    · simp only [topF1, topF2, botF1, botF2, eastF1, eastF2, southF1, southF2, westF1,
        westF2, northF1, northF2, Sym2.eq_iff, Prod.mk.injEq, Bool.false_eq_true,
        Bool.true_eq_false, and_false, false_and, and_true, true_and, or_false,
        false_or, or_self, not_false_eq_true]
      try omega
    · simp only [topF1, topF2, botF1, botF2, eastF1, eastF2, southF1, southF2, westF1,
        westF2, northF1, northF2, Sym2.eq_iff, Prod.mk.injEq, Bool.false_eq_true,
        Bool.true_eq_false, and_false, false_and, and_true, true_and, or_false,
        false_or, or_self, not_false_eq_true]
      try omega
  have hbotF2 : famCnt2 (H - 1) (W - 1) botF2 (s(((a, b, false) : GridVertex), (a + 1, b, false))) = 0 := by
    apply famCnt2_zero
    intro i j
    rw [count_faceEdges]
    apply ite_sum_none
    · simp only [topF1, topF2, botF1, botF2, eastF1, eastF2, southF1, southF2, westF1,
        westF2, northF1, northF2, Sym2.eq_iff, Prod.mk.injEq, Bool.false_eq_true,
        Bool.true_eq_false, and_false, false_and, and_true, true_and, or_false,
        false_or, or_self, not_false_eq_true]
      try omega
    · simp only [topF1, topF2, botF1, botF2, eastF1, eastF2, southF1, southF2, westF1,
        westF2, northF1, northF2, Sym2.eq_iff, Prod.mk.injEq, Bool.false_eq_true,
        Bool.true_eq_false, and_false, false_and, and_true, true_and, or_false,
        false_or, or_self, not_false_eq_true]
      try omega
    · simp only [topF1, topF2, botF1, botF2, eastF1, eastF2, southF1, southF2, westF1,
        westF2, northF1, northF2, Sym2.eq_iff, Prod.mk.injEq, Bool.false_eq_true,
        Bool.true_eq_false, and_false, false_and, and_true, true_and, or_false,
        false_or, or_self, not_false_eq_true]
      try omega
  have heastF1 : famCnt1 (H - 1) (eastF1 (W - 1)) (s(((a, b, false) : GridVertex), (a + 1, b, false))) =
      if (a) < H - 1 ∧ (b = W - 1) then 1 else 0 := by
    apply famCnt1_eval
    intro i
    rw [count_faceEdges]
    apply ite_sum_slot3
    · simp only [topF1, topF2, botF1, botF2, eastF1, eastF2, southF1, southF2, westF1,
        westF2, northF1, northF2, Sym2.eq_iff, Prod.mk.injEq, Bool.false_eq_true,
        Bool.true_eq_false, and_false, false_and, and_true, true_and, or_false,
        false_or, or_self, not_false_eq_true]
      try omega
    · simp only [topF1, topF2, botF1, botF2, eastF1, eastF2, southF1, southF2, westF1,
        westF2, northF1, northF2, Sym2.eq_iff, Prod.mk.injEq, Bool.false_eq_true,
        Bool.true_eq_false, and_false, false_and, and_true, true_and, or_false,
        false_or, or_self, not_false_eq_true]
      try omega
    · simp only [topF1, topF2, botF1, botF2, eastF1, eastF2, southF1, southF2, westF1,
        westF2, northF1, northF2, Sym2.eq_iff, Prod.mk.injEq, Bool.false_eq_true,
        Bool.true_eq_false, and_false, false_and, and_true, true_and, or_false,
        false_or, or_self, not_false_eq_true]
      try omega
  have heastF2 : famCnt1 (H - 1) (eastF2 (W - 1)) (s(((a, b, false) : GridVertex), (a + 1, b, false))) = 0 := by
    apply famCnt1_zero
    intro i
    rw [count_faceEdges]
    apply ite_sum_none
    · simp only [topF1, topF2, botF1, botF2, eastF1, eastF2, southF1, southF2, westF1,
        westF2, northF1, northF2, Sym2.eq_iff, Prod.mk.injEq, Bool.false_eq_true,
        Bool.true_eq_false, and_false, false_and, and_true, true_and, or_false,
        false_or, or_self, not_false_eq_true]
      try omega
    · simp only [topF1, topF2, botF1, botF2, eastF1, eastF2, southF1, southF2, westF1,
        westF2, northF1, northF2, Sym2.eq_iff, Prod.mk.injEq, Bool.false_eq_true,
        Bool.true_eq_false, and_false, false_and, and_true, true_and, or_false,
        false_or, or_self, not_false_eq_true]
      try omega
    · simp only [topF1, topF2, botF1, botF2, eastF1, eastF2, southF1, southF2, westF1,
        westF2, northF1, northF2, Sym2.eq_iff, Prod.mk.injEq, Bool.false_eq_true,
        Bool.true_eq_false, and_false, false_and, and_true, true_and, or_false,
        false_or, or_self, not_false_eq_true]
      try omega
  have hsouthF1 : famCnt1 (W - 1) (southF1 (H - 1)) (s(((a, b, false) : GridVertex), (a + 1, b, false))) = 0 := by
    apply famCnt1_zero
    intro i
    rw [count_faceEdges]
    apply ite_sum_none
    · simp only [topF1, topF2, botF1, botF2, eastF1, eastF2, southF1, southF2, westF1,
        westF2, northF1, northF2, Sym2.eq_iff, Prod.mk.injEq, Bool.false_eq_true,
        Bool.true_eq_false, and_false, false_and, and_true, true_and, or_false,
        false_or, or_self, not_false_eq_true]
      try omega
    · simp only [topF1, topF2, botF1, botF2, eastF1, eastF2, southF1, southF2, westF1,
        westF2, northF1, northF2, Sym2.eq_iff, Prod.mk.injEq, Bool.false_eq_true,
        Bool.true_eq_false, and_false, false_and, and_true, true_and, or_false,
        false_or, or_self, not_false_eq_true]
      try omega
    · simp only [topF1, topF2, botF1, botF2, eastF1, eastF2, southF1, southF2, westF1,
        westF2, northF1, northF2, Sym2.eq_iff, Prod.mk.injEq, Bool.false_eq_true,
        Bool.true_eq_false, and_false, false_and, and_true, true_and, or_false,
        false_or, or_self, not_false_eq_true]
      try omega
  have hsouthF2 : famCnt1 (W - 1) (southF2 (H - 1)) (s(((a, b, false) : GridVertex), (a + 1, b, false))) = 0 := by
    apply famCnt1_zero
    intro i
    rw [count_faceEdges]
    apply ite_sum_none
    · simp only [topF1, topF2, botF1, botF2, eastF1, eastF2, southF1, southF2, westF1,
        westF2, northF1, northF2, Sym2.eq_iff, Prod.mk.injEq, Bool.false_eq_true,
        Bool.true_eq_false, and_false, false_and, and_true, true_and, or_false,
        false_or, or_self, not_false_eq_true]
      try omega
    · simp only [topF1, topF2, botF1, botF2, eastF1, eastF2, southF1, southF2, westF1,
        westF2, northF1, northF2, Sym2.eq_iff, Prod.mk.injEq, Bool.false_eq_true,
        Bool.true_eq_false, and_false, false_and, and_true, true_and, or_false,
        false_or, or_self, not_false_eq_true]
      try omega
    · simp only [topF1, topF2, botF1, botF2, eastF1, eastF2, southF1, southF2, westF1,
        westF2, northF1, northF2, Sym2.eq_iff, Prod.mk.injEq, Bool.false_eq_true,
        Bool.true_eq_false, and_false, false_and, and_true, true_and, or_false,
        false_or, or_self, not_false_eq_true]
      try omega
  have hwestF1 : famCnt1 (H - 1) (westF1) (s(((a, b, false) : GridVertex), (a + 1, b, false))) =
      if (a) < H - 1 ∧ (b = 0) then 1 else 0 := by
    apply famCnt1_eval
    intro i
    rw [count_faceEdges]
    apply ite_sum_slot1
    · simp only [topF1, topF2, botF1, botF2, eastF1, eastF2, southF1, southF2, westF1,
        westF2, northF1, northF2, Sym2.eq_iff, Prod.mk.injEq, Bool.false_eq_true,
        Bool.true_eq_false, and_false, false_and, and_true, true_and, or_false,
        false_or, or_self, not_false_eq_true]
      try omega
    · simp only [topF1, topF2, botF1, botF2, eastF1, eastF2, southF1, southF2, westF1,
        westF2, northF1, northF2, Sym2.eq_iff, Prod.mk.injEq, Bool.false_eq_true,
        Bool.true_eq_false, and_false, false_and, and_true, true_and, or_false,
        false_or, or_self, not_false_eq_true]
      try omega
    · simp only [topF1, topF2, botF1, botF2, eastF1, eastF2, southF1, southF2, westF1,
        westF2, northF1, northF2, Sym2.eq_iff, Prod.mk.injEq, Bool.false_eq_true,
        Bool.true_eq_false, and_false, false_and, and_true, true_and, or_false,
        false_or, or_self, not_false_eq_true]
      try omega
  have hwestF2 : famCnt1 (H - 1) (westF2) (s(((a, b, false) : GridVertex), (a + 1, b, false))) = 0 := by
    apply famCnt1_zero
    intro i
    rw [count_faceEdges]
    apply ite_sum_none
    · simp only [topF1, topF2, botF1, botF2, eastF1, eastF2, southF1, southF2, westF1,
        westF2, northF1, northF2, Sym2.eq_iff, Prod.mk.injEq, Bool.false_eq_true,
        Bool.true_eq_false, and_false, false_and, and_true, true_and, or_false,
        false_or, or_self, not_false_eq_true]
      try omega
    · simp only [topF1, topF2, botF1, botF2, eastF1, eastF2, southF1, southF2, westF1,
        westF2, northF1, northF2, Sym2.eq_iff, Prod.mk.injEq, Bool.false_eq_true,
        Bool.true_eq_false, and_false, false_and, and_true, true_and, or_false,
        false_or, or_self, not_false_eq_true]
      try omega
    · simp only [topF1, topF2, botF1, botF2, eastF1, eastF2, southF1, southF2, westF1,
        westF2, northF1, northF2, Sym2.eq_iff, Prod.mk.injEq, Bool.false_eq_true,
        Bool.true_eq_false, and_false, false_and, and_true, true_and, or_false,
        false_or, or_self, not_false_eq_true]
      try omega
  have hnorthF1 : famCnt1 (W - 1) (northF1) (s(((a, b, false) : GridVertex), (a + 1, b, false))) = 0 := by
    apply famCnt1_zero
    intro i
    rw [count_faceEdges]
    apply ite_sum_none
    · simp only [topF1, topF2, botF1, botF2, eastF1, eastF2, southF1, southF2, westF1,
        westF2, northF1, northF2, Sym2.eq_iff, Prod.mk.injEq, Bool.false_eq_true,
        Bool.true_eq_false, and_false, false_and, and_true, true_and, or_false,
        false_or, or_self, not_false_eq_true]
      try omega
    · simp only [topF1, topF2, botF1, botF2, eastF1, eastF2, southF1, southF2, westF1,
        westF2, northF1, northF2, Sym2.eq_iff, Prod.mk.injEq, Bool.false_eq_true,
        Bool.true_eq_false, and_false, false_and, and_true, true_and, or_false,
        false_or, or_self, not_false_eq_true]
      try omega
    · simp only [topF1, topF2, botF1, botF2, eastF1, eastF2, southF1, southF2, westF1,
        westF2, northF1, northF2, Sym2.eq_iff, Prod.mk.injEq, Bool.false_eq_true,
        Bool.true_eq_false, and_false, false_and, and_true, true_and, or_false,
        false_or, or_self, not_false_eq_true]
      try omega
  have hnorthF2 : famCnt1 (W - 1) (northF2) (s(((a, b, false) : GridVertex), (a + 1, b, false))) = 0 := by
    apply famCnt1_zero
    intro i
    rw [count_faceEdges]
    apply ite_sum_none
    · simp only [topF1, topF2, botF1, botF2, eastF1, eastF2, southF1, southF2, westF1,
        westF2, northF1, northF2, Sym2.eq_iff, Prod.mk.injEq, Bool.false_eq_true,
        Bool.true_eq_false, and_false, false_and, and_true, true_and, or_false,
        false_or, or_self, not_false_eq_true]
      try omega
    · simp only [topF1, topF2, botF1, botF2, eastF1, eastF2, southF1, southF2, westF1,
        westF2, northF1, northF2, Sym2.eq_iff, Prod.mk.injEq, Bool.false_eq_true,
        Bool.true_eq_false, and_false, false_and, and_true, true_and, or_false,
        false_or, or_self, not_false_eq_true]
      try omega
    · simp only [topF1, topF2, botF1, botF2, eastF1, eastF2, southF1, southF2, westF1,
        westF2, northF1, northF2, Sym2.eq_iff, Prod.mk.injEq, Bool.false_eq_true,
        Bool.true_eq_false, and_false, false_and, and_true, true_and, or_false,
        false_or, or_self, not_false_eq_true]
      try omega
  rw [count_structEdges, htopF1, htopF2, hbotF1, hbotF2, heastF1, heastF2, hsouthF1, hsouthF2, hwestF1, hwestF2, hnorthF1, hnorthF2]
  try simp only [and_true]
  split_ifs <;> omega


set_option maxHeartbeats 4000000 in
theorem cnt_topD (H W : ℕ) (a b : ℕ) (ha : a < H - 1) (hb : b < W - 1) :
    (structEdges H W).count (s(((a, b + 1, false) : GridVertex), (a + 1, b, false))) = 2 := by
  have htopF1 : famCnt2 (H - 1) (W - 1) topF1 (s(((a, b + 1, false) : GridVertex), (a + 1, b, false))) =
      if (a) < H - 1 ∧ (b) < W - 1 ∧ (True) then 1 else 0 := by
    apply famCnt2_eval
    intro i j
    rw [count_faceEdges]
    apply ite_sum_slot2
    · simp only [topF1, topF2, botF1, botF2, eastF1, eastF2, southF1, southF2, westF1,
        westF2, northF1, northF2, Sym2.eq_iff, Prod.mk.injEq, Bool.false_eq_true,
        Bool.true_eq_false, and_false, false_and, and_true, true_and, or_false,
        false_or, or_self, not_false_eq_true]
      try omega
    · simp only [topF1, topF2, botF1, botF2, eastF1, eastF2, southF1, southF2, westF1,
        westF2, northF1, northF2, Sym2.eq_iff, Prod.mk.injEq, Bool.false_eq_true,
        Bool.true_eq_false, and_false, false_and, and_true, true_and, or_false,
        false_or, or_self, not_false_eq_true]
      try omega
    · simp only [topF1, topF2, botF1, botF2, eastF1, eastF2, southF1, southF2, westF1,
        westF2, northF1, northF2, Sym2.eq_iff, Prod.mk.injEq, Bool.false_eq_true,
        Bool.true_eq_false, and_false, false_and, and_true, true_and, or_false,
        false_or, or_self, not_false_eq_true]
      try omega
  have htopF2 : famCnt2 (H - 1) (W - 1) topF2 (s(((a, b + 1, false) : GridVertex), (a + 1, b, false))) =
      if (a) < H - 1 ∧ (b) < W - 1 ∧ (True) then 1 else 0 := by
    apply famCnt2_eval
    intro i j
    rw [count_faceEdges]
    apply ite_sum_slot1
    · simp only [topF1, topF2, botF1, botF2, eastF1, eastF2, southF1, southF2, westF1,
        westF2, northF1, northF2, Sym2.eq_iff, Prod.mk.injEq, Bool.false_eq_true,
        Bool.true_eq_false, and_false, false_and, and_true, true_and, or_false,
        false_or, or_self, not_false_eq_true]
      try omega
    · simp only [topF1, topF2, botF1, botF2, eastF1, eastF2, southF1, southF2, westF1,
        westF2, northF1, northF2, Sym2.eq_iff, Prod.mk.injEq, Bool.false_eq_true,
        Bool.true_eq_false, and_false, false_and, and_true, true_and, or_false,
        false_or, or_self, not_false_eq_true]
      try omega
    · simp only [topF1, topF2, botF1, botF2, eastF1, eastF2, southF1, southF2, westF1,
        westF2, northF1, northF2, Sym2.eq_iff, Prod.mk.injEq, Bool.false_eq_true,
        Bool.true_eq_false, and_false, false_and, and_true, true_and, or_false,
        false_or, or_self, not_false_eq_true]
      try omega
  have hbotF1 : famCnt2 (H - 1) (W - 1) botF1 (s(((a, b + 1, false) : GridVertex), (a + 1, b, false))) = 0 := by
    apply famCnt2_zero
    intro i j
    rw [count_faceEdges]
    apply ite_sum_none
    · simp only [topF1, topF2, botF1, botF2, eastF1, eastF2, southF1, southF2, westF1,
        westF2, northF1, northF2, Sym2.eq_iff, Prod.mk.injEq, Bool.false_eq_true,
        Bool.true_eq_false, and_false, false_and, and_true, true_and, or_false,
        false_or, or_self, not_false_eq_true]
      try omega
    · simp only [topF1, topF2, botF1, botF2, eastF1, eastF2, southF1, southF2, westF1,
        westF2, northF1, northF2, Sym2.eq_iff, Prod.mk.injEq, Bool.false_eq_true,
        Bool.true_eq_false, and_false, false_and, and_true, true_and, or_false,
        false_or, or_self, not_false_eq_true]
      try omega
    · simp only [topF1, topF2, botF1, botF2, eastF1, eastF2, southF1, southF2, westF1,
        westF2, northF1, northF2, Sym2.eq_iff, Prod.mk.injEq, Bool.false_eq_true,
        Bool.true_eq_false, and_false, false_and, and_true, true_and, or_false,
        false_or, or_self, not_false_eq_true]
      try omega
  have hbotF2 : famCnt2 (H - 1) (W - 1) botF2 (s(((a, b + 1, false) : GridVertex), (a + 1, b, false))) = 0 := by
    apply famCnt2_zero
    intro i j
    rw [count_faceEdges]
    apply ite_sum_none
    · simp only [topF1, topF2, botF1, botF2, eastF1, eastF2, southF1, southF2, westF1,
        westF2, northF1, northF2, Sym2.eq_iff, Prod.mk.injEq, Bool.false_eq_true,
        Bool.true_eq_false, and_false, false_and, and_true, true_and, or_false,
        false_or, or_self, not_false_eq_true]
      try omega
    · simp only [topF1, topF2, botF1, botF2, eastF1, eastF2, southF1, southF2, westF1,
        westF2, northF1, northF2, Sym2.eq_iff, Prod.mk.injEq, Bool.false_eq_true,
        Bool.true_eq_false, and_false, false_and, and_true, true_and, or_false,
        false_or, or_self, not_false_eq_true]
      try omega
    · simp only [topF1, topF2, botF1, botF2, eastF1, eastF2, southF1, southF2, westF1,
        westF2, northF1, northF2, Sym2.eq_iff, Prod.mk.injEq, Bool.false_eq_true,
        Bool.true_eq_false, and_false, false_and, and_true, true_and, or_false,
        false_or, or_self, not_false_eq_true]
      try omega
  have heastF1 : famCnt1 (H - 1) (eastF1 (W - 1)) (s(((a, b + 1, false) : GridVertex), (a + 1, b, false))) = 0 := by
    apply famCnt1_zero
    intro i
    rw [count_faceEdges]
    apply ite_sum_none
    · simp only [topF1, topF2, botF1, botF2, eastF1, eastF2, southF1, southF2, westF1,
        westF2, northF1, northF2, Sym2.eq_iff, Prod.mk.injEq, Bool.false_eq_true,
        Bool.true_eq_false, and_false, false_and, and_true, true_and, or_false,
        false_or, or_self, not_false_eq_true]
      try omega
    · simp only [topF1, topF2, botF1, botF2, eastF1, eastF2, southF1, southF2, westF1,
        westF2, northF1, northF2, Sym2.eq_iff, Prod.mk.injEq, Bool.false_eq_true,
        Bool.true_eq_false, and_false, false_and, and_true, true_and, or_false,
        false_or, or_self, not_false_eq_true]
      try omega
    · simp only [topF1, topF2, botF1, botF2, eastF1, eastF2, southF1, southF2, westF1,
        westF2, northF1, northF2, Sym2.eq_iff, Prod.mk.injEq, Bool.false_eq_true,
        Bool.true_eq_false, and_false, false_and, and_true, true_and, or_false,
        false_or, or_self, not_false_eq_true]
      try omega
  have heastF2 : famCnt1 (H - 1) (eastF2 (W - 1)) (s(((a, b + 1, false) : GridVertex), (a + 1, b, false))) = 0 := by
    apply famCnt1_zero
    intro i
    rw [count_faceEdges]
    apply ite_sum_none
    · simp only [topF1, topF2, botF1, botF2, eastF1, eastF2, southF1, southF2, westF1,
        westF2, northF1, northF2, Sym2.eq_iff, Prod.mk.injEq, Bool.false_eq_true,
        Bool.true_eq_false, and_false, false_and, and_true, true_and, or_false,
        false_or, or_self, not_false_eq_true]
      try omega
    · simp only [topF1, topF2, botF1, botF2, eastF1, eastF2, southF1, southF2, westF1,
        westF2, northF1, northF2, Sym2.eq_iff, Prod.mk.injEq, Bool.false_eq_true,
        Bool.true_eq_false, and_false, false_and, and_true, true_and, or_false,
        false_or, or_self, not_false_eq_true]
      try omega
    · simp only [topF1, topF2, botF1, botF2, eastF1, eastF2, southF1, southF2, westF1,
        westF2, northF1, northF2, Sym2.eq_iff, Prod.mk.injEq, Bool.false_eq_true,
        Bool.true_eq_false, and_false, false_and, and_true, true_and, or_false,
        false_or, or_self, not_false_eq_true]
      try omega
  have hsouthF1 : famCnt1 (W - 1) (southF1 (H - 1)) (s(((a, b + 1, false) : GridVertex), (a + 1, b, false))) = 0 := by
    apply famCnt1_zero
    intro i
    rw [count_faceEdges]
    apply ite_sum_none
    · simp only [topF1, topF2, botF1, botF2, eastF1, eastF2, southF1, southF2, westF1,
        westF2, northF1, northF2, Sym2.eq_iff, Prod.mk.injEq, Bool.false_eq_true,
        Bool.true_eq_false, and_false, false_and, and_true, true_and, or_false,
        false_or, or_self, not_false_eq_true]
      try omega
    · simp only [topF1, topF2, botF1, botF2, eastF1, eastF2, southF1, southF2, westF1,
        westF2, northF1, northF2, Sym2.eq_iff, Prod.mk.injEq, Bool.false_eq_true,
        Bool.true_eq_false, and_false, false_and, and_true, true_and, or_false,
        false_or, or_self, not_false_eq_true]
      try omega
    · simp only [topF1, topF2, botF1, botF2, eastF1, eastF2, southF1, southF2, westF1,
        westF2, northF1, northF2, Sym2.eq_iff, Prod.mk.injEq, Bool.false_eq_true,
        Bool.true_eq_false, and_false, false_and, and_true, true_and, or_false,
        false_or, or_self, not_false_eq_true]
      try omega
  have hsouthF2 : famCnt1 (W - 1) (southF2 (H - 1)) (s(((a, b + 1, false) : GridVertex), (a + 1, b, false))) = 0 := by
    apply famCnt1_zero
    intro i
    rw [count_faceEdges]
    apply ite_sum_none
    · simp only [topF1, topF2, botF1, botF2, eastF1, eastF2, southF1, southF2, westF1,
        westF2, northF1, northF2, Sym2.eq_iff, Prod.mk.injEq, Bool.false_eq_true,
        Bool.true_eq_false, and_false, false_and, and_true, true_and, or_false,
        false_or, or_self, not_false_eq_true]
      try omega
    · simp only [topF1, topF2, botF1, botF2, eastF1, eastF2, southF1, southF2, westF1,
        westF2, northF1, northF2, Sym2.eq_iff, Prod.mk.injEq, Bool.false_eq_true,
        Bool.true_eq_false, and_false, false_and, and_true, true_and, or_false,
        false_or, or_self, not_false_eq_true]
      try omega
    · simp only [topF1, topF2, botF1, botF2, eastF1, eastF2, southF1, southF2, westF1,
        westF2, northF1, northF2, Sym2.eq_iff, Prod.mk.injEq, Bool.false_eq_true,
        Bool.true_eq_false, and_false, false_and, and_true, true_and, or_false,
        false_or, or_self, not_false_eq_true]
      try omega
  have hwestF1 : famCnt1 (H - 1) (westF1) (s(((a, b + 1, false) : GridVertex), (a + 1, b, false))) = 0 := by
    apply famCnt1_zero
    intro i
    rw [count_faceEdges]
    apply ite_sum_none
    · simp only [topF1, topF2, botF1, botF2, eastF1, eastF2, southF1, southF2, westF1,
        westF2, northF1, northF2, Sym2.eq_iff, Prod.mk.injEq, Bool.false_eq_true,
        Bool.true_eq_false, and_false, false_and, and_true, true_and, or_false,
        false_or, or_self, not_false_eq_true]
      try omega
    · simp only [topF1, topF2, botF1, botF2, eastF1, eastF2, southF1, southF2, westF1,
        westF2, northF1, northF2, Sym2.eq_iff, Prod.mk.injEq, Bool.false_eq_true,
        Bool.true_eq_false, and_false, false_and, and_true, true_and, or_false,
        false_or, or_self, not_false_eq_true]
      try omega
    · simp only [topF1, topF2, botF1, botF2, eastF1, eastF2, southF1, southF2, westF1,
        westF2, northF1, northF2, Sym2.eq_iff, Prod.mk.injEq, Bool.false_eq_true,
        Bool.true_eq_false, and_false, false_and, and_true, true_and, or_false,
        false_or, or_self, not_false_eq_true]
      try omega
  have hwestF2 : famCnt1 (H - 1) (westF2) (s(((a, b + 1, false) : GridVertex), (a + 1, b, false))) = 0 := by
    apply famCnt1_zero
    intro i
    rw [count_faceEdges]
    apply ite_sum_none
    · simp only [topF1, topF2, botF1, botF2, eastF1, eastF2, southF1, southF2, westF1,
        westF2, northF1, northF2, Sym2.eq_iff, Prod.mk.injEq, Bool.false_eq_true,
        Bool.true_eq_false, and_false, false_and, and_true, true_and, or_false,
        false_or, or_self, not_false_eq_true]
      try omega
    · simp only [topF1, topF2, botF1, botF2, eastF1, eastF2, southF1, southF2, westF1,
        westF2, northF1, northF2, Sym2.eq_iff, Prod.mk.injEq, Bool.false_eq_true,
        Bool.true_eq_false, and_false, false_and, and_true, true_and, or_false,
        false_or, or_self, not_false_eq_true]
      try omega
    · simp only [topF1, topF2, botF1, botF2, eastF1, eastF2, southF1, southF2, westF1,
        westF2, northF1, northF2, Sym2.eq_iff, Prod.mk.injEq, Bool.false_eq_true,
        Bool.true_eq_false, and_false, false_and, and_true, true_and, or_false,
        false_or, or_self, not_false_eq_true]
      try omega
  have hnorthF1 : famCnt1 (W - 1) (northF1) (s(((a, b + 1, false) : GridVertex), (a + 1, b, false))) = 0 := by
    apply famCnt1_zero
    intro i
    rw [count_faceEdges]
    apply ite_sum_none
    · simp only [topF1, topF2, botF1, botF2, eastF1, eastF2, southF1, southF2, westF1,
        westF2, northF1, northF2, Sym2.eq_iff, Prod.mk.injEq, Bool.false_eq_true,
        Bool.true_eq_false, and_false, false_and, and_true, true_and, or_false,
        false_or, or_self, not_false_eq_true]
      try omega
    · simp only [topF1, topF2, botF1, botF2, eastF1, eastF2, southF1, southF2, westF1,
        westF2, northF1, northF2, Sym2.eq_iff, Prod.mk.injEq, Bool.false_eq_true,
        Bool.true_eq_false, and_false, false_and, and_true, true_and, or_false,
        false_or, or_self, not_false_eq_true]
      try omega
    · simp only [topF1, topF2, botF1, botF2, eastF1, eastF2, southF1, southF2, westF1,
        westF2, northF1, northF2, Sym2.eq_iff, Prod.mk.injEq, Bool.false_eq_true,
        Bool.true_eq_false, and_false, false_and, and_true, true_and, or_false,
        false_or, or_self, not_false_eq_true]
      try omega
  have hnorthF2 : famCnt1 (W - 1) (northF2) (s(((a, b + 1, false) : GridVertex), (a + 1, b, false))) = 0 := by
    apply famCnt1_zero
    intro i
    rw [count_faceEdges]
    apply ite_sum_none
    · simp only [topF1, topF2, botF1, botF2, eastF1, eastF2, southF1, southF2, westF1,
        westF2, northF1, northF2, Sym2.eq_iff, Prod.mk.injEq, Bool.false_eq_true,
        Bool.true_eq_false, and_false, false_and, and_true, true_and, or_false,
        false_or, or_self, not_false_eq_true]
      try omega
    · simp only [topF1, topF2, botF1, botF2, eastF1, eastF2, southF1, southF2, westF1,
        westF2, northF1, northF2, Sym2.eq_iff, Prod.mk.injEq, Bool.false_eq_true,
        Bool.true_eq_false, and_false, false_and, and_true, true_and, or_false,
        false_or, or_self, not_false_eq_true]
      try omega
    · simp only [topF1, topF2, botF1, botF2, eastF1, eastF2, southF1, southF2, westF1,
        westF2, northF1, northF2, Sym2.eq_iff, Prod.mk.injEq, Bool.false_eq_true,
        Bool.true_eq_false, and_false, false_and, and_true, true_and, or_false,
        false_or, or_self, not_false_eq_true]
      try omega
  rw [count_structEdges, htopF1, htopF2, hbotF1, hbotF2, heastF1, heastF2, hsouthF1, hsouthF2, hwestF1, hwestF2, hnorthF1, hnorthF2]
  try simp only [and_true]
  split_ifs <;> omega


set_option maxHeartbeats 4000000 in
theorem cnt_botH (H W : ℕ) (a b : ℕ) (hH : 2 ≤ H) (hW : 2 ≤ W) (ha : a ≤ H - 1) (hb : b < W - 1) :
    (structEdges H W).count (s(((a, b, true) : GridVertex), (a, b + 1, true))) = 2 := by
  have htopF1 : famCnt2 (H - 1) (W - 1) topF1 (s(((a, b, true) : GridVertex), (a, b + 1, true))) = 0 := by
    apply famCnt2_zero
    intro i j
    rw [count_faceEdges]
    apply ite_sum_none
    · simp only [topF1, topF2, botF1, botF2, eastF1, eastF2, southF1, southF2, westF1,
        westF2, northF1, northF2, Sym2.eq_iff, Prod.mk.injEq, Bool.false_eq_true,
        Bool.true_eq_false, and_false, false_and, and_true, true_and, or_false,
        false_or, or_self, not_false_eq_true]
      try omega
    · simp only [topF1, topF2, botF1, botF2, eastF1, eastF2, southF1, southF2, westF1,
        westF2, northF1, northF2, Sym2.eq_iff, Prod.mk.injEq, Bool.false_eq_true,
        Bool.true_eq_false, and_false, false_and, and_true, true_and, or_false,
        false_or, or_self, not_false_eq_true]
      try omega
    · simp only [topF1, topF2, botF1, botF2, eastF1, eastF2, southF1, southF2, westF1,
        westF2, northF1, northF2, Sym2.eq_iff, Prod.mk.injEq, Bool.false_eq_true,
        Bool.true_eq_false, and_false, false_and, and_true, true_and, or_false,
        false_or, or_self, not_false_eq_true]
      try omega
  have htopF2 : famCnt2 (H - 1) (W - 1) topF2 (s(((a, b, true) : GridVertex), (a, b + 1, true))) = 0 := by
    apply famCnt2_zero
    intro i j
    rw [count_faceEdges]
    apply ite_sum_none
    · simp only [topF1, topF2, botF1, botF2, eastF1, eastF2, southF1, southF2, westF1,
        westF2, northF1, northF2, Sym2.eq_iff, Prod.mk.injEq, Bool.false_eq_true,
        Bool.true_eq_false, and_false, false_and, and_true, true_and, or_false,
        false_or, or_self, not_false_eq_true]
      try omega
    · simp only [topF1, topF2, botF1, botF2, eastF1, eastF2, southF1, southF2, westF1,
        westF2, northF1, northF2, Sym2.eq_iff, Prod.mk.injEq, Bool.false_eq_true,
        Bool.true_eq_false, and_false, false_and, and_true, true_and, or_false,
        false_or, or_self, not_false_eq_true]
      try omega
    · simp only [topF1, topF2, botF1, botF2, eastF1, eastF2, southF1, southF2, westF1,
        westF2, northF1, northF2, Sym2.eq_iff, Prod.mk.injEq, Bool.false_eq_true,
        Bool.true_eq_false, and_false, false_and, and_true, true_and, or_false,
        false_or, or_self, not_false_eq_true]
      try omega
  have hbotF1 : famCnt2 (H - 1) (W - 1) botF1 (s(((a, b, true) : GridVertex), (a, b + 1, true))) =
      if (a) < H - 1 ∧ (b) < W - 1 ∧ (True) then 1 else 0 := by
    apply famCnt2_eval
    intro i j
    rw [count_faceEdges]
    apply ite_sum_slot3
    · simp only [topF1, topF2, botF1, botF2, eastF1, eastF2, southF1, southF2, westF1,
        westF2, northF1, northF2, Sym2.eq_iff, Prod.mk.injEq, Bool.false_eq_true,
        Bool.true_eq_false, and_false, false_and, and_true, true_and, or_false,
        false_or, or_self, not_false_eq_true]
      try omega
    · simp only [topF1, topF2, botF1, botF2, eastF1, eastF2, southF1, southF2, westF1,
        westF2, northF1, northF2, Sym2.eq_iff, Prod.mk.injEq, Bool.false_eq_true,
        Bool.true_eq_false, and_false, false_and, and_true, true_and, or_false,
        false_or, or_self, not_false_eq_true]
      try omega
    · simp only [topF1, topF2, botF1, botF2, eastF1, eastF2, southF1, southF2, westF1,
        westF2, northF1, northF2, Sym2.eq_iff, Prod.mk.injEq, Bool.false_eq_true,
        Bool.true_eq_false, and_false, false_and, and_true, true_and, or_false,
        false_or, or_self, not_false_eq_true]
      try omega
  have hbotF2 : famCnt2 (H - 1) (W - 1) botF2 (s(((a, b, true) : GridVertex), (a, b + 1, true))) =
      if (a - 1) < H - 1 ∧ (b) < W - 1 ∧ (1 ≤ a) then 1 else 0 := by
    apply famCnt2_eval
    intro i j
    rw [count_faceEdges]
    apply ite_sum_slot1
    · simp only [topF1, topF2, botF1, botF2, eastF1, eastF2, southF1, southF2, westF1,
        westF2, northF1, northF2, Sym2.eq_iff, Prod.mk.injEq, Bool.false_eq_true,
        Bool.true_eq_false, and_false, false_and, and_true, true_and, or_false,
        false_or, or_self, not_false_eq_true]
      try omega
    · simp only [topF1, topF2, botF1, botF2, eastF1, eastF2, southF1, southF2, westF1,
        westF2, northF1, northF2, Sym2.eq_iff, Prod.mk.injEq, Bool.false_eq_true,
        Bool.true_eq_false, and_false, false_and, and_true, true_and, or_false,
        false_or, or_self, not_false_eq_true]
      try omega
    · simp only [topF1, topF2, botF1, botF2, eastF1, eastF2, southF1, southF2, westF1,
        westF2, northF1, northF2, Sym2.eq_iff, Prod.mk.injEq, Bool.false_eq_true,
        Bool.true_eq_false, and_false, false_and, and_true, true_and, or_false,
        false_or, or_self, not_false_eq_true]
      try omega
  have heastF1 : famCnt1 (H - 1) (eastF1 (W - 1)) (s(((a, b, true) : GridVertex), (a, b + 1, true))) = 0 := by
    apply famCnt1_zero
    intro i
    rw [count_faceEdges]
    apply ite_sum_none
    · simp only [topF1, topF2, botF1, botF2, eastF1, eastF2, southF1, southF2, westF1,
        westF2, northF1, northF2, Sym2.eq_iff, Prod.mk.injEq, Bool.false_eq_true,
        Bool.true_eq_false, and_false, false_and, and_true, true_and, or_false,
        false_or, or_self, not_false_eq_true]
      try omega
    · simp only [topF1, topF2, botF1, botF2, eastF1, eastF2, southF1, southF2, westF1,
        westF2, northF1, northF2, Sym2.eq_iff, Prod.mk.injEq, Bool.false_eq_true,
        Bool.true_eq_false, and_false, false_and, and_true, true_and, or_false,
        false_or, or_self, not_false_eq_true]
      try omega
    · simp only [topF1, topF2, botF1, botF2, eastF1, eastF2, southF1, southF2, westF1,
        westF2, northF1, northF2, Sym2.eq_iff, Prod.mk.injEq, Bool.false_eq_true,
        Bool.true_eq_false, and_false, false_and, and_true, true_and, or_false,
        false_or, or_self, not_false_eq_true]
      try omega
  have heastF2 : famCnt1 (H - 1) (eastF2 (W - 1)) (s(((a, b, true) : GridVertex), (a, b + 1, true))) = 0 := by
    apply famCnt1_zero
    intro i
    rw [count_faceEdges]
    apply ite_sum_none
    · simp only [topF1, topF2, botF1, botF2, eastF1, eastF2, southF1, southF2, westF1,
        westF2, northF1, northF2, Sym2.eq_iff, Prod.mk.injEq, Bool.false_eq_true,
        Bool.true_eq_false, and_false, false_and, and_true, true_and, or_false,
        false_or, or_self, not_false_eq_true]
      try omega
    · simp only [topF1, topF2, botF1, botF2, eastF1, eastF2, southF1, southF2, westF1,
        westF2, northF1, northF2, Sym2.eq_iff, Prod.mk.injEq, Bool.false_eq_true,
        Bool.true_eq_false, and_false, false_and, and_true, true_and, or_false,
        false_or, or_self, not_false_eq_true]
      try omega
    · simp only [topF1, topF2, botF1, botF2, eastF1, eastF2, southF1, southF2, westF1,
        westF2, northF1, northF2, Sym2.eq_iff, Prod.mk.injEq, Bool.false_eq_true,
        Bool.true_eq_false, and_false, false_and, and_true, true_and, or_false,
        false_or, or_self, not_false_eq_true]
      try omega
  have hsouthF1 : famCnt1 (W - 1) (southF1 (H - 1)) (s(((a, b, true) : GridVertex), (a, b + 1, true))) = 0 := by
    apply famCnt1_zero
    intro i
    rw [count_faceEdges]
    apply ite_sum_none
    · simp only [topF1, topF2, botF1, botF2, eastF1, eastF2, southF1, southF2, westF1,
        westF2, northF1, northF2, Sym2.eq_iff, Prod.mk.injEq, Bool.false_eq_true,
        Bool.true_eq_false, and_false, false_and, and_true, true_and, or_false,
        false_or, or_self, not_false_eq_true]
      try omega
    · simp only [topF1, topF2, botF1, botF2, eastF1, eastF2, southF1, southF2, westF1,
        westF2, northF1, northF2, Sym2.eq_iff, Prod.mk.injEq, Bool.false_eq_true,
        Bool.true_eq_false, and_false, false_and, and_true, true_and, or_false,
        false_or, or_self, not_false_eq_true]
      try omega
    · simp only [topF1, topF2, botF1, botF2, eastF1, eastF2, southF1, southF2, westF1,
        westF2, northF1, northF2, Sym2.eq_iff, Prod.mk.injEq, Bool.false_eq_true,
        Bool.true_eq_false, and_false, false_and, and_true, true_and, or_false,
        false_or, or_self, not_false_eq_true]
      try omega
  have hsouthF2 : famCnt1 (W - 1) (southF2 (H - 1)) (s(((a, b, true) : GridVertex), (a, b + 1, true))) =
      if (b) < W - 1 ∧ (H - 1 = a) then 1 else 0 := by
    apply famCnt1_eval
    intro i
    rw [count_faceEdges]
    apply ite_sum_slot2
    · simp only [topF1, topF2, botF1, botF2, eastF1, eastF2, southF1, southF2, westF1,
        westF2, northF1, northF2, Sym2.eq_iff, Prod.mk.injEq, Bool.false_eq_true,
        Bool.true_eq_false, and_false, false_and, and_true, true_and, or_false,
        false_or, or_self, not_false_eq_true]
      try omega
    · simp only [topF1, topF2, botF1, botF2, eastF1, eastF2, southF1, southF2, westF1,
        westF2, northF1, northF2, Sym2.eq_iff, Prod.mk.injEq, Bool.false_eq_true,
        Bool.true_eq_false, and_false, false_and, and_true, true_and, or_false,
        false_or, or_self, not_false_eq_true]
      try omega
    · simp only [topF1, topF2, botF1, botF2, eastF1, eastF2, southF1, southF2, westF1,
        westF2, northF1, northF2, Sym2.eq_iff, Prod.mk.injEq, Bool.false_eq_true,
        Bool.true_eq_false, and_false, false_and, and_true, true_and, or_false,
        false_or, or_self, not_false_eq_true]
      try omega
  have hwestF1 : famCnt1 (H - 1) (westF1) (s(((a, b, true) : GridVertex), (a, b + 1, true))) = 0 := by
    apply famCnt1_zero
    intro i
    rw [count_faceEdges]
    apply ite_sum_none
    · simp only [topF1, topF2, botF1, botF2, eastF1, eastF2, southF1, southF2, westF1,
        westF2, northF1, northF2, Sym2.eq_iff, Prod.mk.injEq, Bool.false_eq_true,
        Bool.true_eq_false, and_false, false_and, and_true, true_and, or_false,
        false_or, or_self, not_false_eq_true]
      try omega
    · simp only [topF1, topF2, botF1, botF2, eastF1, eastF2, southF1, southF2, westF1,
        westF2, northF1, northF2, Sym2.eq_iff, Prod.mk.injEq, Bool.false_eq_true,
        Bool.true_eq_false, and_false, false_and, and_true, true_and, or_false,
        false_or, or_self, not_false_eq_true]
      try omega
    · simp only [topF1, topF2, botF1, botF2, eastF1, eastF2, southF1, southF2, westF1,
        westF2, northF1, northF2, Sym2.eq_iff, Prod.mk.injEq, Bool.false_eq_true,
        Bool.true_eq_false, and_false, false_and, and_true, true_and, or_false,
        false_or, or_self, not_false_eq_true]
      try omega
  have hwestF2 : famCnt1 (H - 1) (westF2) (s(((a, b, true) : GridVertex), (a, b + 1, true))) = 0 := by
    apply famCnt1_zero
    intro i
    rw [count_faceEdges]
    apply ite_sum_none
    · simp only [topF1, topF2, botF1, botF2, eastF1, eastF2, southF1, southF2, westF1,
        westF2, northF1, northF2, Sym2.eq_iff, Prod.mk.injEq, Bool.false_eq_true,
        Bool.true_eq_false, and_false, false_and, and_true, true_and, or_false,
        false_or, or_self, not_false_eq_true]
      try omega
    · simp only [topF1, topF2, botF1, botF2, eastF1, eastF2, southF1, southF2, westF1,
        westF2, northF1, northF2, Sym2.eq_iff, Prod.mk.injEq, Bool.false_eq_true,
        Bool.true_eq_false, and_false, false_and, and_true, true_and, or_false,
        false_or, or_self, not_false_eq_true]
      try omega
    · simp only [topF1, topF2, botF1, botF2, eastF1, eastF2, southF1, southF2, westF1,
        westF2, northF1, northF2, Sym2.eq_iff, Prod.mk.injEq, Bool.false_eq_true,
        Bool.true_eq_false, and_false, false_and, and_true, true_and, or_false,
        false_or, or_self, not_false_eq_true]
      try omega
  have hnorthF1 : famCnt1 (W - 1) (northF1) (s(((a, b, true) : GridVertex), (a, b + 1, true))) = 0 := by
    apply famCnt1_zero
    intro i
    rw [count_faceEdges]
    apply ite_sum_none
    · simp only [topF1, topF2, botF1, botF2, eastF1, eastF2, southF1, southF2, westF1,
        westF2, northF1, northF2, Sym2.eq_iff, Prod.mk.injEq, Bool.false_eq_true,
        Bool.true_eq_false, and_false, false_and, and_true, true_and, or_false,
        false_or, or_self, not_false_eq_true]
      try omega
    · simp only [topF1, topF2, botF1, botF2, eastF1, eastF2, southF1, southF2, westF1,
        westF2, northF1, northF2, Sym2.eq_iff, Prod.mk.injEq, Bool.false_eq_true,
        Bool.true_eq_false, and_false, false_and, and_true, true_and, or_false,
        false_or, or_self, not_false_eq_true]
      try omega
    · simp only [topF1, topF2, botF1, botF2, eastF1, eastF2, southF1, southF2, westF1,
        westF2, northF1, northF2, Sym2.eq_iff, Prod.mk.injEq, Bool.false_eq_true,
        Bool.true_eq_false, and_false, false_and, and_true, true_and, or_false,
        false_or, or_self, not_false_eq_true]
      try omega
  have hnorthF2 : famCnt1 (W - 1) (northF2) (s(((a, b, true) : GridVertex), (a, b + 1, true))) =
      if (b) < W - 1 ∧ (a = 0) then 1 else 0 := by
    apply famCnt1_eval
    intro i
    rw [count_faceEdges]
    apply ite_sum_slot2
    · simp only [topF1, topF2, botF1, botF2, eastF1, eastF2, southF1, southF2, westF1,
        westF2, northF1, northF2, Sym2.eq_iff, Prod.mk.injEq, Bool.false_eq_true,
        Bool.true_eq_false, and_false, false_and, and_true, true_and, or_false,
        false_or, or_self, not_false_eq_true]
      try omega
    · simp only [topF1, topF2, botF1, botF2, eastF1, eastF2, southF1, southF2, westF1,
        westF2, northF1, northF2, Sym2.eq_iff, Prod.mk.injEq, Bool.false_eq_true,
        Bool.true_eq_false, and_false, false_and, and_true, true_and, or_false,
        false_or, or_self, not_false_eq_true]
      try omega
    · simp only [topF1, topF2, botF1, botF2, eastF1, eastF2, southF1, southF2, westF1,
        westF2, northF1, northF2, Sym2.eq_iff, Prod.mk.injEq, Bool.false_eq_true,
        Bool.true_eq_false, and_false, false_and, and_true, true_and, or_false,
        false_or, or_self, not_false_eq_true]
      try omega
  rw [count_structEdges, htopF1, htopF2, hbotF1, hbotF2, heastF1, heastF2, hsouthF1, hsouthF2, hwestF1, hwestF2, hnorthF1, hnorthF2]
  try simp only [and_true]
  split_ifs <;> omega


set_option maxHeartbeats 4000000 in
theorem cnt_botV (H W : ℕ) (a b : ℕ) (hH : 2 ≤ H) (hW : 2 ≤ W) (ha : a < H - 1) (hb : b ≤ W - 1) :
    (structEdges H W).count (s(((a, b, true) : GridVertex), (a + 1, b, true))) = 2 := by
  have htopF1 : famCnt2 (H - 1) (W - 1) topF1 (s(((a, b, true) : GridVertex), (a + 1, b, true))) = 0 := by
    apply famCnt2_zero
    intro i j
    rw [count_faceEdges]
    apply ite_sum_none
    · simp only [topF1, topF2, botF1, botF2, eastF1, eastF2, southF1, southF2, westF1,
        westF2, northF1, northF2, Sym2.eq_iff, Prod.mk.injEq, Bool.false_eq_true,
        Bool.true_eq_false, and_false, false_and, and_true, true_and, or_false,
        false_or, or_self, not_false_eq_true]
      try omega
    · simp only [topF1, topF2, botF1, botF2, eastF1, eastF2, southF1, southF2, westF1,
        westF2, northF1, northF2, Sym2.eq_iff, Prod.mk.injEq, Bool.false_eq_true,
        Bool.true_eq_false, and_false, false_and, and_true, true_and, or_false,
        false_or, or_self, not_false_eq_true]
      try omega
    · simp only [topF1, topF2, botF1, botF2, eastF1, eastF2, southF1, southF2, westF1,
        westF2, northF1, northF2, Sym2.eq_iff, Prod.mk.injEq, Bool.false_eq_true,
        Bool.true_eq_false, and_false, false_and, and_true, true_and, or_false,
        false_or, or_self, not_false_eq_true]
      try omega
  have htopF2 : famCnt2 (H - 1) (W - 1) topF2 (s(((a, b, true) : GridVertex), (a + 1, b, true))) = 0 := by
    apply famCnt2_zero
    intro i j
    rw [count_faceEdges]
    apply ite_sum_none
    · simp only [topF1, topF2, botF1, botF2, eastF1, eastF2, southF1, southF2, westF1,
        westF2, northF1, northF2, Sym2.eq_iff, Prod.mk.injEq, Bool.false_eq_true,
        Bool.true_eq_false, and_false, false_and, and_true, true_and, or_false,
        false_or, or_self, not_false_eq_true]
      try omega
    · simp only [topF1, topF2, botF1, botF2, eastF1, eastF2, southF1, southF2, westF1,
        westF2, northF1, northF2, Sym2.eq_iff, Prod.mk.injEq, Bool.false_eq_true,
        Bool.true_eq_false, and_false, false_and, and_true, true_and, or_false,
        false_or, or_self, not_false_eq_true]
      try omega
    · simp only [topF1, topF2, botF1, botF2, eastF1, eastF2, southF1, southF2, westF1,
        westF2, northF1, northF2, Sym2.eq_iff, Prod.mk.injEq, Bool.false_eq_true,
        Bool.true_eq_false, and_false, false_and, and_true, true_and, or_false,
        false_or, or_self, not_false_eq_true]
      try omega
  have hbotF1 : famCnt2 (H - 1) (W - 1) botF1 (s(((a, b, true) : GridVertex), (a + 1, b, true))) =
      if (a) < H - 1 ∧ (b) < W - 1 ∧ (True) then 1 else 0 := by
    apply famCnt2_eval
    intro i j
    rw [count_faceEdges]
    apply ite_sum_slot2
    · simp only [topF1, topF2, botF1, botF2, eastF1, eastF2, southF1, southF2, westF1,
        westF2, northF1, northF2, Sym2.eq_iff, Prod.mk.injEq, Bool.false_eq_true,
        Bool.true_eq_false, and_false, false_and, and_true, true_and, or_false,
        false_or, or_self, not_false_eq_true]
      try omega
    · simp only [topF1, topF2, botF1, botF2, eastF1, eastF2, southF1, southF2, westF1,
        westF2, northF1, northF2, Sym2.eq_iff, Prod.mk.injEq, Bool.false_eq_true,
        Bool.true_eq_false, and_false, false_and, and_true, true_and, or_false,
        false_or, or_self, not_false_eq_true]
      try omega
    · simp only [topF1, topF2, botF1, botF2, eastF1, eastF2, southF1, southF2, westF1,
        westF2, northF1, northF2, Sym2.eq_iff, Prod.mk.injEq, Bool.false_eq_true,
        Bool.true_eq_false, and_false, false_and, and_true, true_and, or_false,
        false_or, or_self, not_false_eq_true]
      try omega
  have hbotF2 : famCnt2 (H - 1) (W - 1) botF2 (s(((a, b, true) : GridVertex), (a + 1, b, true))) =
      if (a) < H - 1 ∧ (b - 1) < W - 1 ∧ (1 ≤ b) then 1 else 0 := by
    apply famCnt2_eval
    intro i j
    rw [count_faceEdges]
    apply ite_sum_slot3
    · simp only [topF1, topF2, botF1, botF2, eastF1, eastF2, southF1, southF2, westF1,
        westF2, northF1, northF2, Sym2.eq_iff, Prod.mk.injEq, Bool.false_eq_true,
        Bool.true_eq_false, and_false, false_and, and_true, true_and, or_false,
        false_or, or_self, not_false_eq_true]
      try omega
    · simp only [topF1, topF2, botF1, botF2, eastF1, eastF2, southF1, southF2, westF1,
        westF2, northF1, northF2, Sym2.eq_iff, Prod.mk.injEq, Bool.false_eq_true,
        Bool.true_eq_false, and_false, false_and, and_true, true_and, or_false,
        false_or, or_self, not_false_eq_true]
      try omega
    · simp only [topF1, topF2, botF1, botF2, eastF1, eastF2, southF1, southF2, westF1,
        westF2, northF1, northF2, Sym2.eq_iff, Prod.mk.injEq, Bool.false_eq_true,
        Bool.true_eq_false, and_false, false_and, and_true, true_and, or_false,
        false_or, or_self, not_false_eq_true]
      try omega
  have heastF1 : famCnt1 (H - 1) (eastF1 (W - 1)) (s(((a, b, true) : GridVertex), (a + 1, b, true))) = 0 := by
    apply famCnt1_zero
    intro i
    rw [count_faceEdges]
    apply ite_sum_none
    · simp only [topF1, topF2, botF1, botF2, eastF1, eastF2, southF1, southF2, westF1,
        westF2, northF1, northF2, Sym2.eq_iff, Prod.mk.injEq, Bool.false_eq_true,
        Bool.true_eq_false, and_false, false_and, and_true, true_and, or_false,
        false_or, or_self, not_false_eq_true]
      try omega
    · simp only [topF1, topF2, botF1, botF2, eastF1, eastF2, southF1, southF2, westF1,
        westF2, northF1, northF2, Sym2.eq_iff, Prod.mk.injEq, Bool.false_eq_true,
        Bool.true_eq_false, and_false, false_and, and_true, true_and, or_false,
        false_or, or_self, not_false_eq_true]
      try omega
    · simp only [topF1, topF2, botF1, botF2, eastF1, eastF2, southF1, southF2, westF1,
        westF2, northF1, northF2, Sym2.eq_iff, Prod.mk.injEq, Bool.false_eq_true,
        Bool.true_eq_false, and_false, false_and, and_true, true_and, or_false,
        false_or, or_self, not_false_eq_true]
      try omega
  have heastF2 : famCnt1 (H - 1) (eastF2 (W - 1)) (s(((a, b, true) : GridVertex), (a + 1, b, true))) =
      if (a) < H - 1 ∧ (b = W - 1) then 1 else 0 := by
    apply famCnt1_eval
    intro i
    rw [count_faceEdges]
    apply ite_sum_slot2
    · simp only [topF1, topF2, botF1, botF2, eastF1, eastF2, southF1, southF2, westF1,
        westF2, northF1, northF2, Sym2.eq_iff, Prod.mk.injEq, Bool.false_eq_true,
        Bool.true_eq_false, and_false, false_and, and_true, true_and, or_false,
        false_or, or_self, not_false_eq_true]
      try omega
    · simp only [topF1, topF2, botF1, botF2, eastF1, eastF2, southF1, southF2, westF1,
        westF2, northF1, northF2, Sym2.eq_iff, Prod.mk.injEq, Bool.false_eq_true,
        Bool.true_eq_false, and_false, false_and, and_true, true_and, or_false,
        false_or, or_self, not_false_eq_true]
      try omega
    · simp only [topF1, topF2, botF1, botF2, eastF1, eastF2, southF1, southF2, westF1,
        westF2, northF1, northF2, Sym2.eq_iff, Prod.mk.injEq, Bool.false_eq_true,
        Bool.true_eq_false, and_false, false_and, and_true, true_and, or_false,
        false_or, or_self, not_false_eq_true]
      try omega
  have hsouthF1 : famCnt1 (W - 1) (southF1 (H - 1)) (s(((a, b, true) : GridVertex), (a + 1, b, true))) = 0 := by
    apply famCnt1_zero
    intro i
    rw [count_faceEdges]
    apply ite_sum_none
    · simp only [topF1, topF2, botF1, botF2, eastF1, eastF2, southF1, southF2, westF1,
        westF2, northF1, northF2, Sym2.eq_iff, Prod.mk.injEq, Bool.false_eq_true,
        Bool.true_eq_false, and_false, false_and, and_true, true_and, or_false,
        false_or, or_self, not_false_eq_true]
      try omega
    · simp only [topF1, topF2, botF1, botF2, eastF1, eastF2, southF1, southF2, westF1,
        westF2, northF1, northF2, Sym2.eq_iff, Prod.mk.injEq, Bool.false_eq_true,
        Bool.true_eq_false, and_false, false_and, and_true, true_and, or_false,
        false_or, or_self, not_false_eq_true]
      try omega
    · simp only [topF1, topF2, botF1, botF2, eastF1, eastF2, southF1, southF2, westF1,
        westF2, northF1, northF2, Sym2.eq_iff, Prod.mk.injEq, Bool.false_eq_true,
        Bool.true_eq_false, and_false, false_and, and_true, true_and, or_false,
        false_or, or_self, not_false_eq_true]
      try omega
  have hsouthF2 : famCnt1 (W - 1) (southF2 (H - 1)) (s(((a, b, true) : GridVertex), (a + 1, b, true))) = 0 := by
    apply famCnt1_zero
    intro i
    rw [count_faceEdges]
    apply ite_sum_none
    · simp only [topF1, topF2, botF1, botF2, eastF1, eastF2, southF1, southF2, westF1,
        westF2, northF1, northF2, Sym2.eq_iff, Prod.mk.injEq, Bool.false_eq_true,
        Bool.true_eq_false, and_false, false_and, and_true, true_and, or_false,
        false_or, or_self, not_false_eq_true]
      try omega
    · simp only [topF1, topF2, botF1, botF2, eastF1, eastF2, southF1, southF2, westF1,
        westF2, northF1, northF2, Sym2.eq_iff, Prod.mk.injEq, Bool.false_eq_true,
        Bool.true_eq_false, and_false, false_and, and_true, true_and, or_false,
        false_or, or_self, not_false_eq_true]
      try omega
    · simp only [topF1, topF2, botF1, botF2, eastF1, eastF2, southF1, southF2, westF1,
        westF2, northF1, northF2, Sym2.eq_iff, Prod.mk.injEq, Bool.false_eq_true,
        Bool.true_eq_false, and_false, false_and, and_true, true_and, or_false,
        false_or, or_self, not_false_eq_true]
      try omega
  have hwestF1 : famCnt1 (H - 1) (westF1) (s(((a, b, true) : GridVertex), (a + 1, b, true))) = 0 := by
    apply famCnt1_zero
    intro i
    rw [count_faceEdges]
    apply ite_sum_none
    · simp only [topF1, topF2, botF1, botF2, eastF1, eastF2, southF1, southF2, westF1,
        westF2, northF1, northF2, Sym2.eq_iff, Prod.mk.injEq, Bool.false_eq_true,
        Bool.true_eq_false, and_false, false_and, and_true, true_and, or_false,
        false_or, or_self, not_false_eq_true]
      try omega
    · simp only [topF1, topF2, botF1, botF2, eastF1, eastF2, southF1, southF2, westF1,
        westF2, northF1, northF2, Sym2.eq_iff, Prod.mk.injEq, Bool.false_eq_true,
        Bool.true_eq_false, and_false, false_and, and_true, true_and, or_false,
        false_or, or_self, not_false_eq_true]
      try omega
    · simp only [topF1, topF2, botF1, botF2, eastF1, eastF2, southF1, southF2, westF1,
        westF2, northF1, northF2, Sym2.eq_iff, Prod.mk.injEq, Bool.false_eq_true,
        Bool.true_eq_false, and_false, false_and, and_true, true_and, or_false,
        false_or, or_self, not_false_eq_true]
      try omega
  have hwestF2 : famCnt1 (H - 1) (westF2) (s(((a, b, true) : GridVertex), (a + 1, b, true))) =
      if (a) < H - 1 ∧ (b = 0) then 1 else 0 := by
    apply famCnt1_eval
    intro i
    rw [count_faceEdges]
    apply ite_sum_slot2
    · simp only [topF1, topF2, botF1, botF2, eastF1, eastF2, southF1, southF2, westF1,
        westF2, northF1, northF2, Sym2.eq_iff, Prod.mk.injEq, Bool.false_eq_true,
        Bool.true_eq_false, and_false, false_and, and_true, true_and, or_false,
        false_or, or_self, not_false_eq_true]
      try omega
    · simp only [topF1, topF2, botF1, botF2, eastF1, eastF2, southF1, southF2, westF1,
        westF2, northF1, northF2, Sym2.eq_iff, Prod.mk.injEq, Bool.false_eq_true,
        Bool.true_eq_false, and_false, false_and, and_true, true_and, or_false,
        false_or, or_self, not_false_eq_true]
      try omega
    · simp only [topF1, topF2, botF1, botF2, eastF1, eastF2, southF1, southF2, westF1,
        westF2, northF1, northF2, Sym2.eq_iff, Prod.mk.injEq, Bool.false_eq_true,
        Bool.true_eq_false, and_false, false_and, and_true, true_and, or_false,
        false_or, or_self, not_false_eq_true]
      try omega
  have hnorthF1 : famCnt1 (W - 1) (northF1) (s(((a, b, true) : GridVertex), (a + 1, b, true))) = 0 := by
    apply famCnt1_zero
    intro i
    rw [count_faceEdges]
    apply ite_sum_none
    · simp only [topF1, topF2, botF1, botF2, eastF1, eastF2, southF1, southF2, westF1,
        westF2, northF1, northF2, Sym2.eq_iff, Prod.mk.injEq, Bool.false_eq_true,
        Bool.true_eq_false, and_false, false_and, and_true, true_and, or_false,
        false_or, or_self, not_false_eq_true]
      try omega
    · simp only [topF1, topF2, botF1, botF2, eastF1, eastF2, southF1, southF2, westF1,
        westF2, northF1, northF2, Sym2.eq_iff, Prod.mk.injEq, Bool.false_eq_true,
        Bool.true_eq_false, and_false, false_and, and_true, true_and, or_false,
        false_or, or_self, not_false_eq_true]
      try omega
    · simp only [topF1, topF2, botF1, botF2, eastF1, eastF2, southF1, southF2, westF1,
        westF2, northF1, northF2, Sym2.eq_iff, Prod.mk.injEq, Bool.false_eq_true,
        Bool.true_eq_false, and_false, false_and, and_true, true_and, or_false,
        false_or, or_self, not_false_eq_true]
      try omega
  have hnorthF2 : famCnt1 (W - 1) (northF2) (s(((a, b, true) : GridVertex), (a + 1, b, true))) = 0 := by
    apply famCnt1_zero
    intro i
    rw [count_faceEdges]
    apply ite_sum_none
    · simp only [topF1, topF2, botF1, botF2, eastF1, eastF2, southF1, southF2, westF1,
        westF2, northF1, northF2, Sym2.eq_iff, Prod.mk.injEq, Bool.false_eq_true,
        Bool.true_eq_false, and_false, false_and, and_true, true_and, or_false,
        false_or, or_self, not_false_eq_true]
      try omega
    · simp only [topF1, topF2, botF1, botF2, eastF1, eastF2, southF1, southF2, westF1,
        westF2, northF1, northF2, Sym2.eq_iff, Prod.mk.injEq, Bool.false_eq_true,
        Bool.true_eq_false, and_false, false_and, and_true, true_and, or_false,
        false_or, or_self, not_false_eq_true]
      try omega
    · simp only [topF1, topF2, botF1, botF2, eastF1, eastF2, southF1, southF2, westF1,
        westF2, northF1, northF2, Sym2.eq_iff, Prod.mk.injEq, Bool.false_eq_true,
        Bool.true_eq_false, and_false, false_and, and_true, true_and, or_false,
        false_or, or_self, not_false_eq_true]
      try omega
  rw [count_structEdges, htopF1, htopF2, hbotF1, hbotF2, heastF1, heastF2, hsouthF1, hsouthF2, hwestF1, hwestF2, hnorthF1, hnorthF2]
  try simp only [and_true]
  split_ifs <;> omega


set_option maxHeartbeats 4000000 in
theorem cnt_botD (H W : ℕ) (a b : ℕ) (ha : a < H - 1) (hb : b < W - 1) :
    (structEdges H W).count (s(((a, b + 1, true) : GridVertex), (a + 1, b, true))) = 2 := by
  have htopF1 : famCnt2 (H - 1) (W - 1) topF1 (s(((a, b + 1, true) : GridVertex), (a + 1, b, true))) = 0 := by
    apply famCnt2_zero
    intro i j
    rw [count_faceEdges]
    apply ite_sum_none
    · simp only [topF1, topF2, botF1, botF2, eastF1, eastF2, southF1, southF2, westF1,
        westF2, northF1, northF2, Sym2.eq_iff, Prod.mk.injEq, Bool.false_eq_true,
        Bool.true_eq_false, and_false, false_and, and_true, true_and, or_false,
        false_or, or_self, not_false_eq_true]
      try omega
    · simp only [topF1, topF2, botF1, botF2, eastF1, eastF2, southF1, southF2, westF1,
        westF2, northF1, northF2, Sym2.eq_iff, Prod.mk.injEq, Bool.false_eq_true,
        Bool.true_eq_false, and_false, false_and, and_true, true_and, or_false,
        false_or, or_self, not_false_eq_true]
      try omega
    · simp only [topF1, topF2, botF1, botF2, eastF1, eastF2, southF1, southF2, westF1,
        westF2, northF1, northF2, Sym2.eq_iff, Prod.mk.injEq, Bool.false_eq_true,
        Bool.true_eq_false, and_false, false_and, and_true, true_and, or_false,
        false_or, or_self, not_false_eq_true]
      try omega
  have htopF2 : famCnt2 (H - 1) (W - 1) topF2 (s(((a, b + 1, true) : GridVertex), (a + 1, b, true))) = 0 := by
    apply famCnt2_zero
    intro i j
    rw [count_faceEdges]
    apply ite_sum_none
    · simp only [topF1, topF2, botF1, botF2, eastF1, eastF2, southF1, southF2, westF1,
        westF2, northF1, northF2, Sym2.eq_iff, Prod.mk.injEq, Bool.false_eq_true,
        Bool.true_eq_false, and_false, false_and, and_true, true_and, or_false,
        false_or, or_self, not_false_eq_true]
      try omega
    · simp only [topF1, topF2, botF1, botF2, eastF1, eastF2, southF1, southF2, westF1,
        westF2, northF1, northF2, Sym2.eq_iff, Prod.mk.injEq, Bool.false_eq_true,
        Bool.true_eq_false, and_false, false_and, and_true, true_and, or_false,
        false_or, or_self, not_false_eq_true]
      try omega
    · simp only [topF1, topF2, botF1, botF2, eastF1, eastF2, southF1, southF2, westF1,
        westF2, northF1, northF2, Sym2.eq_iff, Prod.mk.injEq, Bool.false_eq_true,
        Bool.true_eq_false, and_false, false_and, and_true, true_and, or_false,
        false_or, or_self, not_false_eq_true]
      try omega
  have hbotF1 : famCnt2 (H - 1) (W - 1) botF1 (s(((a, b + 1, true) : GridVertex), (a + 1, b, true))) =
      if (a) < H - 1 ∧ (b) < W - 1 ∧ (True) then 1 else 0 := by
    apply famCnt2_eval
    intro i j
    rw [count_faceEdges]
    apply ite_sum_slot1
    · simp only [topF1, topF2, botF1, botF2, eastF1, eastF2, southF1, southF2, westF1,
        westF2, northF1, northF2, Sym2.eq_iff, Prod.mk.injEq, Bool.false_eq_true,
        Bool.true_eq_false, and_false, false_and, and_true, true_and, or_false,
        false_or, or_self, not_false_eq_true]
      try omega
    · simp only [topF1, topF2, botF1, botF2, eastF1, eastF2, southF1, southF2, westF1,
        westF2, northF1, northF2, Sym2.eq_iff, Prod.mk.injEq, Bool.false_eq_true,
        Bool.true_eq_false, and_false, false_and, and_true, true_and, or_false,
        false_or, or_self, not_false_eq_true]
      try omega
    · simp only [topF1, topF2, botF1, botF2, eastF1, eastF2, southF1, southF2, westF1,
        westF2, northF1, northF2, Sym2.eq_iff, Prod.mk.injEq, Bool.false_eq_true,
        Bool.true_eq_false, and_false, false_and, and_true, true_and, or_false,
        false_or, or_self, not_false_eq_true]
      try omega
  have hbotF2 : famCnt2 (H - 1) (W - 1) botF2 (s(((a, b + 1, true) : GridVertex), (a + 1, b, true))) =
      if (a) < H - 1 ∧ (b) < W - 1 ∧ (True) then 1 else 0 := by
    apply famCnt2_eval
    intro i j
    rw [count_faceEdges]
    apply ite_sum_slot2
    · simp only [topF1, topF2, botF1, botF2, eastF1, eastF2, southF1, southF2, westF1,
        westF2, northF1, northF2, Sym2.eq_iff, Prod.mk.injEq, Bool.false_eq_true,
        Bool.true_eq_false, and_false, false_and, and_true, true_and, or_false,
        false_or, or_self, not_false_eq_true]
      try omega
    · simp only [topF1, topF2, botF1, botF2, eastF1, eastF2, southF1, southF2, westF1,
        westF2, northF1, northF2, Sym2.eq_iff, Prod.mk.injEq, Bool.false_eq_true,
        Bool.true_eq_false, and_false, false_and, and_true, true_and, or_false,
        false_or, or_self, not_false_eq_true]
      try omega
    · simp only [topF1, topF2, botF1, botF2, eastF1, eastF2, southF1, southF2, westF1,
        westF2, northF1, northF2, Sym2.eq_iff, Prod.mk.injEq, Bool.false_eq_true,
        Bool.true_eq_false, and_false, false_and, and_true, true_and, or_false,
        false_or, or_self, not_false_eq_true]
      try omega
  have heastF1 : famCnt1 (H - 1) (eastF1 (W - 1)) (s(((a, b + 1, true) : GridVertex), (a + 1, b, true))) = 0 := by
    apply famCnt1_zero
    intro i
    rw [count_faceEdges]
    apply ite_sum_none
    · simp only [topF1, topF2, botF1, botF2, eastF1, eastF2, southF1, southF2, westF1,
        westF2, northF1, northF2, Sym2.eq_iff, Prod.mk.injEq, Bool.false_eq_true,
        Bool.true_eq_false, and_false, false_and, and_true, true_and, or_false,
        false_or, or_self, not_false_eq_true]
      try omega
    · simp only [topF1, topF2, botF1, botF2, eastF1, eastF2, southF1, southF2, westF1,
        westF2, northF1, northF2, Sym2.eq_iff, Prod.mk.injEq, Bool.false_eq_true,
        Bool.true_eq_false, and_false, false_and, and_true, true_and, or_false,
        false_or, or_self, not_false_eq_true]
      try omega
    · simp only [topF1, topF2, botF1, botF2, eastF1, eastF2, southF1, southF2, westF1,
        westF2, northF1, northF2, Sym2.eq_iff, Prod.mk.injEq, Bool.false_eq_true,
        Bool.true_eq_false, and_false, false_and, and_true, true_and, or_false,
        false_or, or_self, not_false_eq_true]
      try omega
  have heastF2 : famCnt1 (H - 1) (eastF2 (W - 1)) (s(((a, b + 1, true) : GridVertex), (a + 1, b, true))) = 0 := by
    apply famCnt1_zero
    intro i
    rw [count_faceEdges]
    apply ite_sum_none
    · simp only [topF1, topF2, botF1, botF2, eastF1, eastF2, southF1, southF2, westF1,
        westF2, northF1, northF2, Sym2.eq_iff, Prod.mk.injEq, Bool.false_eq_true,
        Bool.true_eq_false, and_false, false_and, and_true, true_and, or_false,
        false_or, or_self, not_false_eq_true]
      try omega
    · simp only [topF1, topF2, botF1, botF2, eastF1, eastF2, southF1, southF2, westF1,
        westF2, northF1, northF2, Sym2.eq_iff, Prod.mk.injEq, Bool.false_eq_true,
        Bool.true_eq_false, and_false, false_and, and_true, true_and, or_false,
        false_or, or_self, not_false_eq_true]
      try omega
    · simp only [topF1, topF2, botF1, botF2, eastF1, eastF2, southF1, southF2, westF1,
        westF2, northF1, northF2, Sym2.eq_iff, Prod.mk.injEq, Bool.false_eq_true,
        Bool.true_eq_false, and_false, false_and, and_true, true_and, or_false,
        false_or, or_self, not_false_eq_true]
      try omega
  have hsouthF1 : famCnt1 (W - 1) (southF1 (H - 1)) (s(((a, b + 1, true) : GridVertex), (a + 1, b, true))) = 0 := by
    apply famCnt1_zero
    intro i
    rw [count_faceEdges]
    apply ite_sum_none
    · simp only [topF1, topF2, botF1, botF2, eastF1, eastF2, southF1, southF2, westF1,
        westF2, northF1, northF2, Sym2.eq_iff, Prod.mk.injEq, Bool.false_eq_true,
        Bool.true_eq_false, and_false, false_and, and_true, true_and, or_false,
        false_or, or_self, not_false_eq_true]
      try omega
    · simp only [topF1, topF2, botF1, botF2, eastF1, eastF2, southF1, southF2, westF1,
        westF2, northF1, northF2, Sym2.eq_iff, Prod.mk.injEq, Bool.false_eq_true,
        Bool.true_eq_false, and_false, false_and, and_true, true_and, or_false,
        false_or, or_self, not_false_eq_true]
      try omega
    · simp only [topF1, topF2, botF1, botF2, eastF1, eastF2, southF1, southF2, westF1,
        westF2, northF1, northF2, Sym2.eq_iff, Prod.mk.injEq, Bool.false_eq_true,
        Bool.true_eq_false, and_false, false_and, and_true, true_and, or_false,
        false_or, or_self, not_false_eq_true]
      try omega
  have hsouthF2 : famCnt1 (W - 1) (southF2 (H - 1)) (s(((a, b + 1, true) : GridVertex), (a + 1, b, true))) = 0 := by
    apply famCnt1_zero
    intro i
    rw [count_faceEdges]
    apply ite_sum_none
    · simp only [topF1, topF2, botF1, botF2, eastF1, eastF2, southF1, southF2, westF1,
        westF2, northF1, northF2, Sym2.eq_iff, Prod.mk.injEq, Bool.false_eq_true,
        Bool.true_eq_false, and_false, false_and, and_true, true_and, or_false,
        false_or, or_self, not_false_eq_true]
      try omega
    · simp only [topF1, topF2, botF1, botF2, eastF1, eastF2, southF1, southF2, westF1,
        westF2, northF1, northF2, Sym2.eq_iff, Prod.mk.injEq, Bool.false_eq_true,
        Bool.true_eq_false, and_false, false_and, and_true, true_and, or_false,
        false_or, or_self, not_false_eq_true]
      try omega
    · simp only [topF1, topF2, botF1, botF2, eastF1, eastF2, southF1, southF2, westF1,
        westF2, northF1, northF2, Sym2.eq_iff, Prod.mk.injEq, Bool.false_eq_true,
        Bool.true_eq_false, and_false, false_and, and_true, true_and, or_false,
        false_or, or_self, not_false_eq_true]
      try omega
  have hwestF1 : famCnt1 (H - 1) (westF1) (s(((a, b + 1, true) : GridVertex), (a + 1, b, true))) = 0 := by
    apply famCnt1_zero
    intro i
    rw [count_faceEdges]
    apply ite_sum_none
    · simp only [topF1, topF2, botF1, botF2, eastF1, eastF2, southF1, southF2, westF1,
        westF2, northF1, northF2, Sym2.eq_iff, Prod.mk.injEq, Bool.false_eq_true,
        Bool.true_eq_false, and_false, false_and, and_true, true_and, or_false,
        false_or, or_self, not_false_eq_true]
      try omega
    · simp only [topF1, topF2, botF1, botF2, eastF1, eastF2, southF1, southF2, westF1,
        westF2, northF1, northF2, Sym2.eq_iff, Prod.mk.injEq, Bool.false_eq_true,
        Bool.true_eq_false, and_false, false_and, and_true, true_and, or_false,
        false_or, or_self, not_false_eq_true]
      try omega
    · simp only [topF1, topF2, botF1, botF2, eastF1, eastF2, southF1, southF2, westF1,
        westF2, northF1, northF2, Sym2.eq_iff, Prod.mk.injEq, Bool.false_eq_true,
        Bool.true_eq_false, and_false, false_and, and_true, true_and, or_false,
        false_or, or_self, not_false_eq_true]
      try omega
  have hwestF2 : famCnt1 (H - 1) (westF2) (s(((a, b + 1, true) : GridVertex), (a + 1, b, true))) = 0 := by
    apply famCnt1_zero
    intro i
    rw [count_faceEdges]
    apply ite_sum_none
    · simp only [topF1, topF2, botF1, botF2, eastF1, eastF2, southF1, southF2, westF1,
        westF2, northF1, northF2, Sym2.eq_iff, Prod.mk.injEq, Bool.false_eq_true,
        Bool.true_eq_false, and_false, false_and, and_true, true_and, or_false,
        false_or, or_self, not_false_eq_true]
      try omega
    · simp only [topF1, topF2, botF1, botF2, eastF1, eastF2, southF1, southF2, westF1,
        westF2, northF1, northF2, Sym2.eq_iff, Prod.mk.injEq, Bool.false_eq_true,
        Bool.true_eq_false, and_false, false_and, and_true, true_and, or_false,
        false_or, or_self, not_false_eq_true]
      try omega
    · simp only [topF1, topF2, botF1, botF2, eastF1, eastF2, southF1, southF2, westF1,
        westF2, northF1, northF2, Sym2.eq_iff, Prod.mk.injEq, Bool.false_eq_true,
        Bool.true_eq_false, and_false, false_and, and_true, true_and, or_false,
        false_or, or_self, not_false_eq_true]
      try omega
  have hnorthF1 : famCnt1 (W - 1) (northF1) (s(((a, b + 1, true) : GridVertex), (a + 1, b, true))) = 0 := by
    apply famCnt1_zero
    intro i
    rw [count_faceEdges]
    apply ite_sum_none
    · simp only [topF1, topF2, botF1, botF2, eastF1, eastF2, southF1, southF2, westF1,
        westF2, northF1, northF2, Sym2.eq_iff, Prod.mk.injEq, Bool.false_eq_true,
        Bool.true_eq_false, and_false, false_and, and_true, true_and, or_false,
        false_or, or_self, not_false_eq_true]
      try omega
    · simp only [topF1, topF2, botF1, botF2, eastF1, eastF2, southF1, southF2, westF1,
        westF2, northF1, northF2, Sym2.eq_iff, Prod.mk.injEq, Bool.false_eq_true,
        Bool.true_eq_false, and_false, false_and, and_true, true_and, or_false,
        false_or, or_self, not_false_eq_true]
      try omega
    · simp only [topF1, topF2, botF1, botF2, eastF1, eastF2, southF1, southF2, westF1,
        westF2, northF1, northF2, Sym2.eq_iff, Prod.mk.injEq, Bool.false_eq_true,
        Bool.true_eq_false, and_false, false_and, and_true, true_and, or_false,
        false_or, or_self, not_false_eq_true]
      try omega
  have hnorthF2 : famCnt1 (W - 1) (northF2) (s(((a, b + 1, true) : GridVertex), (a + 1, b, true))) = 0 := by
    apply famCnt1_zero
    intro i
    rw [count_faceEdges]
    apply ite_sum_none
    · simp only [topF1, topF2, botF1, botF2, eastF1, eastF2, southF1, southF2, westF1,
        westF2, northF1, northF2, Sym2.eq_iff, Prod.mk.injEq, Bool.false_eq_true,
        Bool.true_eq_false, and_false, false_and, and_true, true_and, or_false,
        false_or, or_self, not_false_eq_true]
      try omega
    · simp only [topF1, topF2, botF1, botF2, eastF1, eastF2, southF1, southF2, westF1,
        westF2, northF1, northF2, Sym2.eq_iff, Prod.mk.injEq, Bool.false_eq_true,
        Bool.true_eq_false, and_false, false_and, and_true, true_and, or_false,
        false_or, or_self, not_false_eq_true]
      try omega
    · simp only [topF1, topF2, botF1, botF2, eastF1, eastF2, southF1, southF2, westF1,
        westF2, northF1, northF2, Sym2.eq_iff, Prod.mk.injEq, Bool.false_eq_true,
        Bool.true_eq_false, and_false, false_and, and_true, true_and, or_false,
        false_or, or_self, not_false_eq_true]
      try omega
  rw [count_structEdges, htopF1, htopF2, hbotF1, hbotF2, heastF1, heastF2, hsouthF1, hsouthF2, hwestF1, hwestF2, hnorthF1, hnorthF2]
  try simp only [and_true]
  split_ifs <;> omega


set_option maxHeartbeats 4000000 in
theorem cnt_pillar (H W : ℕ) (a b : ℕ) (hH : 2 ≤ H) (hW : 2 ≤ W) (ha : a ≤ H - 1) (hb : b ≤ W - 1)
    (hbd : b = 0 ∨ b = W - 1 ∨ a = 0 ∨ a = H - 1) :
    (structEdges H W).count (s(((a, b, false) : GridVertex), (a, b, true))) = 2 := by
  have htopF1 : famCnt2 (H - 1) (W - 1) topF1 (s(((a, b, false) : GridVertex), (a, b, true))) = 0 := by
    apply famCnt2_zero
    intro i j
    rw [count_faceEdges]
    apply ite_sum_none
    · simp only [topF1, topF2, botF1, botF2, eastF1, eastF2, southF1, southF2, westF1,
        westF2, northF1, northF2, Sym2.eq_iff, Prod.mk.injEq, Bool.false_eq_true,
        Bool.true_eq_false, and_false, false_and, and_true, true_and, or_false,
        false_or, or_self, not_false_eq_true]
      try omega
    · simp only [topF1, topF2, botF1, botF2, eastF1, eastF2, southF1, southF2, westF1,
        westF2, northF1, northF2, Sym2.eq_iff, Prod.mk.injEq, Bool.false_eq_true,
        Bool.true_eq_false, and_false, false_and, and_true, true_and, or_false,
        false_or, or_self, not_false_eq_true]
      try omega
    · simp only [topF1, topF2, botF1, botF2, eastF1, eastF2, southF1, southF2, westF1,
        westF2, northF1, northF2, Sym2.eq_iff, Prod.mk.injEq, Bool.false_eq_true,
        Bool.true_eq_false, and_false, false_and, and_true, true_and, or_false,
        false_or, or_self, not_false_eq_true]
      try omega
  have htopF2 : famCnt2 (H - 1) (W - 1) topF2 (s(((a, b, false) : GridVertex), (a, b, true))) = 0 := by
    apply famCnt2_zero
    intro i j
    rw [count_faceEdges]
    apply ite_sum_none
    · simp only [topF1, topF2, botF1, botF2, eastF1, eastF2, southF1, southF2, westF1,
        westF2, northF1, northF2, Sym2.eq_iff, Prod.mk.injEq, Bool.false_eq_true,
        Bool.true_eq_false, and_false, false_and, and_true, true_and, or_false,
        false_or, or_self, not_false_eq_true]
      try omega
    · simp only [topF1, topF2, botF1, botF2, eastF1, eastF2, southF1, southF2, westF1,
        westF2, northF1, northF2, Sym2.eq_iff, Prod.mk.injEq, Bool.false_eq_true,
        Bool.true_eq_false, and_false, false_and, and_true, true_and, or_false,
        false_or, or_self, not_false_eq_true]
      try omega
    · simp only [topF1, topF2, botF1, botF2, eastF1, eastF2, southF1, southF2, westF1,
        westF2, northF1, northF2, Sym2.eq_iff, Prod.mk.injEq, Bool.false_eq_true,
        Bool.true_eq_false, and_false, false_and, and_true, true_and, or_false,
        false_or, or_self, not_false_eq_true]
      try omega
  have hbotF1 : famCnt2 (H - 1) (W - 1) botF1 (s(((a, b, false) : GridVertex), (a, b, true))) = 0 := by
    apply famCnt2_zero
    intro i j
    rw [count_faceEdges]
    apply ite_sum_none
    · simp only [topF1, topF2, botF1, botF2, eastF1, eastF2, southF1, southF2, westF1,
        westF2, northF1, northF2, Sym2.eq_iff, Prod.mk.injEq, Bool.false_eq_true,
        Bool.true_eq_false, and_false, false_and, and_true, true_and, or_false,
        false_or, or_self, not_false_eq_true]
      try omega
    · simp only [topF1, topF2, botF1, botF2, eastF1, eastF2, southF1, southF2, westF1,
        westF2, northF1, northF2, Sym2.eq_iff, Prod.mk.injEq, Bool.false_eq_true,
        Bool.true_eq_false, and_false, false_and, and_true, true_and, or_false,
        false_or, or_self, not_false_eq_true]
      try omega
    · simp only [topF1, topF2, botF1, botF2, eastF1, eastF2, southF1, southF2, westF1,
        westF2, northF1, northF2, Sym2.eq_iff, Prod.mk.injEq, Bool.false_eq_true,
        Bool.true_eq_false, and_false, false_and, and_true, true_and, or_false,
        false_or, or_self, not_false_eq_true]
      try omega
  have hbotF2 : famCnt2 (H - 1) (W - 1) botF2 (s(((a, b, false) : GridVertex), (a, b, true))) = 0 := by
    apply famCnt2_zero
    intro i j
    rw [count_faceEdges]
    apply ite_sum_none
    · simp only [topF1, topF2, botF1, botF2, eastF1, eastF2, southF1, southF2, westF1,
        westF2, northF1, northF2, Sym2.eq_iff, Prod.mk.injEq, Bool.false_eq_true,
        Bool.true_eq_false, and_false, false_and, and_true, true_and, or_false,
        false_or, or_self, not_false_eq_true]
      try omega
    · simp only [topF1, topF2, botF1, botF2, eastF1, eastF2, southF1, southF2, westF1,
        westF2, northF1, northF2, Sym2.eq_iff, Prod.mk.injEq, Bool.false_eq_true,
        Bool.true_eq_false, and_false, false_and, and_true, true_and, or_false,
        false_or, or_self, not_false_eq_true]
      try omega
    · simp only [topF1, topF2, botF1, botF2, eastF1, eastF2, southF1, southF2, westF1,
        westF2, northF1, northF2, Sym2.eq_iff, Prod.mk.injEq, Bool.false_eq_true,
        Bool.true_eq_false, and_false, false_and, and_true, true_and, or_false,
        false_or, or_self, not_false_eq_true]
      try omega
  have heastF1 : famCnt1 (H - 1) (eastF1 (W - 1)) (s(((a, b, false) : GridVertex), (a, b, true))) =
      if (a) < H - 1 ∧ (b = W - 1) then 1 else 0 := by
    apply famCnt1_eval
    intro i
    rw [count_faceEdges]
    apply ite_sum_slot1
    · simp only [topF1, topF2, botF1, botF2, eastF1, eastF2, southF1, southF2, westF1,
        westF2, northF1, northF2, Sym2.eq_iff, Prod.mk.injEq, Bool.false_eq_true,
        Bool.true_eq_false, and_false, false_and, and_true, true_and, or_false,
        false_or, or_self, not_false_eq_true]
      try omega
    · simp only [topF1, topF2, botF1, botF2, eastF1, eastF2, southF1, southF2, westF1,
        westF2, northF1, northF2, Sym2.eq_iff, Prod.mk.injEq, Bool.false_eq_true,
        Bool.true_eq_false, and_false, false_and, and_true, true_and, or_false,
        false_or, or_self, not_false_eq_true]
      try omega
    · simp only [topF1, topF2, botF1, botF2, eastF1, eastF2, southF1, southF2, westF1,
        westF2, northF1, northF2, Sym2.eq_iff, Prod.mk.injEq, Bool.false_eq_true,
        Bool.true_eq_false, and_false, false_and, and_true, true_and, or_false,
        false_or, or_self, not_false_eq_true]
      try omega
  have heastF2 : famCnt1 (H - 1) (eastF2 (W - 1)) (s(((a, b, false) : GridVertex), (a, b, true))) =
      if (a - 1) < H - 1 ∧ (b = W - 1 ∧ 1 ≤ a) then 1 else 0 := by
    apply famCnt1_eval
    intro i
    rw [count_faceEdges]
    apply ite_sum_slot3
    · simp only [topF1, topF2, botF1, botF2, eastF1, eastF2, southF1, southF2, westF1,
        westF2, northF1, northF2, Sym2.eq_iff, Prod.mk.injEq, Bool.false_eq_true,
        Bool.true_eq_false, and_false, false_and, and_true, true_and, or_false,
        false_or, or_self, not_false_eq_true]
      try omega
    · simp only [topF1, topF2, botF1, botF2, eastF1, eastF2, southF1, southF2, westF1,
        westF2, northF1, northF2, Sym2.eq_iff, Prod.mk.injEq, Bool.false_eq_true,
        Bool.true_eq_false, and_false, false_and, and_true, true_and, or_false,
        false_or, or_self, not_false_eq_true]
      try omega
    · simp only [topF1, topF2, botF1, botF2, eastF1, eastF2, southF1, southF2, westF1,
        westF2, northF1, northF2, Sym2.eq_iff, Prod.mk.injEq, Bool.false_eq_true,
        Bool.true_eq_false, and_false, false_and, and_true, true_and, or_false,
        false_or, or_self, not_false_eq_true]
      try omega
  have hsouthF1 : famCnt1 (W - 1) (southF1 (H - 1)) (s(((a, b, false) : GridVertex), (a, b, true))) =
      if (b) < W - 1 ∧ (H - 1 = a) then 1 else 0 := by
    apply famCnt1_eval
    intro i
    rw [count_faceEdges]
    apply ite_sum_slot3
    · simp only [topF1, topF2, botF1, botF2, eastF1, eastF2, southF1, southF2, westF1,
        westF2, northF1, northF2, Sym2.eq_iff, Prod.mk.injEq, Bool.false_eq_true,
        Bool.true_eq_false, and_false, false_and, and_true, true_and, or_false,
        false_or, or_self, not_false_eq_true]
      try omega
    · simp only [topF1, topF2, botF1, botF2, eastF1, eastF2, southF1, southF2, westF1,
        westF2, northF1, northF2, Sym2.eq_iff, Prod.mk.injEq, Bool.false_eq_true,
        Bool.true_eq_false, and_false, false_and, and_true, true_and, or_false,
        false_or, or_self, not_false_eq_true]
      try omega
    · simp only [topF1, topF2, botF1, botF2, eastF1, eastF2, southF1, southF2, westF1,
        westF2, northF1, northF2, Sym2.eq_iff, Prod.mk.injEq, Bool.false_eq_true,
        Bool.true_eq_false, and_false, false_and, and_true, true_and, or_false,
        false_or, or_self, not_false_eq_true]
      try omega
  have hsouthF2 : famCnt1 (W - 1) (southF2 (H - 1)) (s(((a, b, false) : GridVertex), (a, b, true))) =
      if (b - 1) < W - 1 ∧ (H - 1 = a ∧ 1 ≤ b) then 1 else 0 := by
    apply famCnt1_eval
    intro i
    rw [count_faceEdges]
    apply ite_sum_slot1
    · simp only [topF1, topF2, botF1, botF2, eastF1, eastF2, southF1, southF2, westF1,
        westF2, northF1, northF2, Sym2.eq_iff, Prod.mk.injEq, Bool.false_eq_true,
        Bool.true_eq_false, and_false, false_and, and_true, true_and, or_false,
        false_or, or_self, not_false_eq_true]
      try omega
    · simp only [topF1, topF2, botF1, botF2, eastF1, eastF2, southF1, southF2, westF1,
        westF2, northF1, northF2, Sym2.eq_iff, Prod.mk.injEq, Bool.false_eq_true,
        Bool.true_eq_false, and_false, false_and, and_true, true_and, or_false,
        false_or, or_self, not_false_eq_true]
      try omega
    · simp only [topF1, topF2, botF1, botF2, eastF1, eastF2, southF1, southF2, westF1,
        westF2, northF1, northF2, Sym2.eq_iff, Prod.mk.injEq, Bool.false_eq_true,
        Bool.true_eq_false, and_false, false_and, and_true, true_and, or_false,
        false_or, or_self, not_false_eq_true]
      try omega
  have hwestF1 : famCnt1 (H - 1) (westF1) (s(((a, b, false) : GridVertex), (a, b, true))) =
      if (a) < H - 1 ∧ (b = 0) then 1 else 0 := by
    apply famCnt1_eval
    intro i
    rw [count_faceEdges]
    apply ite_sum_slot3
    · simp only [topF1, topF2, botF1, botF2, eastF1, eastF2, southF1, southF2, westF1,
        westF2, northF1, northF2, Sym2.eq_iff, Prod.mk.injEq, Bool.false_eq_true,
        Bool.true_eq_false, and_false, false_and, and_true, true_and, or_false,
        false_or, or_self, not_false_eq_true]
      try omega
    · simp only [topF1, topF2, botF1, botF2, eastF1, eastF2, southF1, southF2, westF1,
        westF2, northF1, northF2, Sym2.eq_iff, Prod.mk.injEq, Bool.false_eq_true,
        Bool.true_eq_false, and_false, false_and, and_true, true_and, or_false,
        false_or, or_self, not_false_eq_true]
      try omega
    · simp only [topF1, topF2, botF1, botF2, eastF1, eastF2, southF1, southF2, westF1,
        westF2, northF1, northF2, Sym2.eq_iff, Prod.mk.injEq, Bool.false_eq_true,
        Bool.true_eq_false, and_false, false_and, and_true, true_and, or_false,
        false_or, or_self, not_false_eq_true]
      try omega
  have hwestF2 : famCnt1 (H - 1) (westF2) (s(((a, b, false) : GridVertex), (a, b, true))) =
      if (a - 1) < H - 1 ∧ (b = 0 ∧ 1 ≤ a) then 1 else 0 := by
    apply famCnt1_eval
    intro i
    rw [count_faceEdges]
    apply ite_sum_slot1
    · simp only [topF1, topF2, botF1, botF2, eastF1, eastF2, southF1, southF2, westF1,
        westF2, northF1, northF2, Sym2.eq_iff, Prod.mk.injEq, Bool.false_eq_true,
        Bool.true_eq_false, and_false, false_and, and_true, true_and, or_false,
        false_or, or_self, not_false_eq_true]
      try omega
    · simp only [topF1, topF2, botF1, botF2, eastF1, eastF2, southF1, southF2, westF1,
        westF2, northF1, northF2, Sym2.eq_iff, Prod.mk.injEq, Bool.false_eq_true,
        Bool.true_eq_false, and_false, false_and, and_true, true_and, or_false,
        false_or, or_self, not_false_eq_true]
      try omega
    · simp only [topF1, topF2, botF1, botF2, eastF1, eastF2, southF1, southF2, westF1,
        westF2, northF1, northF2, Sym2.eq_iff, Prod.mk.injEq, Bool.false_eq_true,
        Bool.true_eq_false, and_false, false_and, and_true, true_and, or_false,
        false_or, or_self, not_false_eq_true]
      try omega
  have hnorthF1 : famCnt1 (W - 1) (northF1) (s(((a, b, false) : GridVertex), (a, b, true))) =
      if (b) < W - 1 ∧ (a = 0) then 1 else 0 := by
    apply famCnt1_eval
    intro i
    rw [count_faceEdges]
    apply ite_sum_slot1
    · simp only [topF1, topF2, botF1, botF2, eastF1, eastF2, southF1, southF2, westF1,
        westF2, northF1, northF2, Sym2.eq_iff, Prod.mk.injEq, Bool.false_eq_true,
        Bool.true_eq_false, and_false, false_and, and_true, true_and, or_false,
        false_or, or_self, not_false_eq_true]
      try omega
    · simp only [topF1, topF2, botF1, botF2, eastF1, eastF2, southF1, southF2, westF1,
        westF2, northF1, northF2, Sym2.eq_iff, Prod.mk.injEq, Bool.false_eq_true,
        Bool.true_eq_false, and_false, false_and, and_true, true_and, or_false,
        false_or, or_self, not_false_eq_true]
      try omega
    · simp only [topF1, topF2, botF1, botF2, eastF1, eastF2, southF1, southF2, westF1,
        westF2, northF1, northF2, Sym2.eq_iff, Prod.mk.injEq, Bool.false_eq_true,
        Bool.true_eq_false, and_false, false_and, and_true, true_and, or_false,
        false_or, or_self, not_false_eq_true]
      try omega
  have hnorthF2 : famCnt1 (W - 1) (northF2) (s(((a, b, false) : GridVertex), (a, b, true))) =
      if (b - 1) < W - 1 ∧ (a = 0 ∧ 1 ≤ b) then 1 else 0 := by
    apply famCnt1_eval
    intro i
    rw [count_faceEdges]
    apply ite_sum_slot3
    · simp only [topF1, topF2, botF1, botF2, eastF1, eastF2, southF1, southF2, westF1,
        westF2, northF1, northF2, Sym2.eq_iff, Prod.mk.injEq, Bool.false_eq_true,
        Bool.true_eq_false, and_false, false_and, and_true, true_and, or_false,
        false_or, or_self, not_false_eq_true]
      try omega
    · simp only [topF1, topF2, botF1, botF2, eastF1, eastF2, southF1, southF2, westF1,
        westF2, northF1, northF2, Sym2.eq_iff, Prod.mk.injEq, Bool.false_eq_true,
        Bool.true_eq_false, and_false, false_and, and_true, true_and, or_false,
        false_or, or_self, not_false_eq_true]
      try omega
    · simp only [topF1, topF2, botF1, botF2, eastF1, eastF2, southF1, southF2, westF1,
        westF2, northF1, northF2, Sym2.eq_iff, Prod.mk.injEq, Bool.false_eq_true,
        Bool.true_eq_false, and_false, false_and, and_true, true_and, or_false,
        false_or, or_self, not_false_eq_true]
      try omega
  rw [count_structEdges, htopF1, htopF2, hbotF1, hbotF2, heastF1, heastF2, hsouthF1, hsouthF2, hwestF1, hwestF2, hnorthF1, hnorthF2]
  try simp only [and_true]
  split_ifs <;> omega


set_option maxHeartbeats 4000000 in
theorem cnt_diagE (H W : ℕ) (a : ℕ) (hW : 2 ≤ W) (ha : a < H - 1) :
    (structEdges H W).count (s(((a + 1, W - 1, false) : GridVertex), (a, W - 1, true))) = 2 := by
  have htopF1 : famCnt2 (H - 1) (W - 1) topF1 (s(((a + 1, W - 1, false) : GridVertex), (a, W - 1, true))) = 0 := by
    apply famCnt2_zero
    intro i j
    rw [count_faceEdges]
    apply ite_sum_none
    · simp only [topF1, topF2, botF1, botF2, eastF1, eastF2, southF1, southF2, westF1,
        westF2, northF1, northF2, Sym2.eq_iff, Prod.mk.injEq, Bool.false_eq_true,
        Bool.true_eq_false, and_false, false_and, and_true, true_and, or_false,
        false_or, or_self, not_false_eq_true]
      try omega
    · simp only [topF1, topF2, botF1, botF2, eastF1, eastF2, southF1, southF2, westF1,
        westF2, northF1, northF2, Sym2.eq_iff, Prod.mk.injEq, Bool.false_eq_true,
        Bool.true_eq_false, and_false, false_and, and_true, true_and, or_false,
        false_or, or_self, not_false_eq_true]
      try omega
    · simp only [topF1, topF2, botF1, botF2, eastF1, eastF2, southF1, southF2, westF1,
        westF2, northF1, northF2, Sym2.eq_iff, Prod.mk.injEq, Bool.false_eq_true,
        Bool.true_eq_false, and_false, false_and, and_true, true_and, or_false,
        false_or, or_self, not_false_eq_true]
      try omega
  have htopF2 : famCnt2 (H - 1) (W - 1) topF2 (s(((a + 1, W - 1, false) : GridVertex), (a, W - 1, true))) = 0 := by
    apply famCnt2_zero
    intro i j
    rw [count_faceEdges]
    apply ite_sum_none
    · simp only [topF1, topF2, botF1, botF2, eastF1, eastF2, southF1, southF2, westF1,
        westF2, northF1, northF2, Sym2.eq_iff, Prod.mk.injEq, Bool.false_eq_true,
        Bool.true_eq_false, and_false, false_and, and_true, true_and, or_false,
        false_or, or_self, not_false_eq_true]
      try omega
    · simp only [topF1, topF2, botF1, botF2, eastF1, eastF2, southF1, southF2, westF1,
        westF2, northF1, northF2, Sym2.eq_iff, Prod.mk.injEq, Bool.false_eq_true,
        Bool.true_eq_false, and_false, false_and, and_true, true_and, or_false,
        false_or, or_self, not_false_eq_true]
      try omega
    · simp only [topF1, topF2, botF1, botF2, eastF1, eastF2, southF1, southF2, westF1,
        westF2, northF1, northF2, Sym2.eq_iff, Prod.mk.injEq, Bool.false_eq_true,
        Bool.true_eq_false, and_false, false_and, and_true, true_and, or_false,
        false_or, or_self, not_false_eq_true]
      try omega
  have hbotF1 : famCnt2 (H - 1) (W - 1) botF1 (s(((a + 1, W - 1, false) : GridVertex), (a, W - 1, true))) = 0 := by
    apply famCnt2_zero
    intro i j
    rw [count_faceEdges]
    apply ite_sum_none
    · simp only [topF1, topF2, botF1, botF2, eastF1, eastF2, southF1, southF2, westF1,
        westF2, northF1, northF2, Sym2.eq_iff, Prod.mk.injEq, Bool.false_eq_true,
        Bool.true_eq_false, and_false, false_and, and_true, true_and, or_false,
        false_or, or_self, not_false_eq_true]
      try omega
    · simp only [topF1, topF2, botF1, botF2, eastF1, eastF2, southF1, southF2, westF1,
        westF2, northF1, northF2, Sym2.eq_iff, Prod.mk.injEq, Bool.false_eq_true,
        Bool.true_eq_false, and_false, false_and, and_true, true_and, or_false,
        false_or, or_self, not_false_eq_true]
      try omega
    · simp only [topF1, topF2, botF1, botF2, eastF1, eastF2, southF1, southF2, westF1,
        westF2, northF1, northF2, Sym2.eq_iff, Prod.mk.injEq, Bool.false_eq_true,
        Bool.true_eq_false, and_false, false_and, and_true, true_and, or_false,
        false_or, or_self, not_false_eq_true]
      try omega
  have hbotF2 : famCnt2 (H - 1) (W - 1) botF2 (s(((a + 1, W - 1, false) : GridVertex), (a, W - 1, true))) = 0 := by
    apply famCnt2_zero
    intro i j
    rw [count_faceEdges]
    apply ite_sum_none
    · simp only [topF1, topF2, botF1, botF2, eastF1, eastF2, southF1, southF2, westF1,
        westF2, northF1, northF2, Sym2.eq_iff, Prod.mk.injEq, Bool.false_eq_true,
        Bool.true_eq_false, and_false, false_and, and_true, true_and, or_false,
        false_or, or_self, not_false_eq_true]
      try omega
    · simp only [topF1, topF2, botF1, botF2, eastF1, eastF2, southF1, southF2, westF1,
        westF2, northF1, northF2, Sym2.eq_iff, Prod.mk.injEq, Bool.false_eq_true,
        Bool.true_eq_false, and_false, false_and, and_true, true_and, or_false,
        false_or, or_self, not_false_eq_true]
      try omega
    · simp only [topF1, topF2, botF1, botF2, eastF1, eastF2, southF1, southF2, westF1,
        westF2, northF1, northF2, Sym2.eq_iff, Prod.mk.injEq, Bool.false_eq_true,
        Bool.true_eq_false, and_false, false_and, and_true, true_and, or_false,
        false_or, or_self, not_false_eq_true]
      try omega
  have heastF1 : famCnt1 (H - 1) (eastF1 (W - 1)) (s(((a + 1, W - 1, false) : GridVertex), (a, W - 1, true))) =
      if (a) < H - 1 ∧ (True) then 1 else 0 := by
    apply famCnt1_eval
    intro i
    rw [count_faceEdges]
    apply ite_sum_slot2
    · simp only [topF1, topF2, botF1, botF2, eastF1, eastF2, southF1, southF2, westF1,
        westF2, northF1, northF2, Sym2.eq_iff, Prod.mk.injEq, Bool.false_eq_true,
        Bool.true_eq_false, and_false, false_and, and_true, true_and, or_false,
        false_or, or_self, not_false_eq_true]
      try omega
    · simp only [topF1, topF2, botF1, botF2, eastF1, eastF2, southF1, southF2, westF1,
        westF2, northF1, northF2, Sym2.eq_iff, Prod.mk.injEq, Bool.false_eq_true,
        Bool.true_eq_false, and_false, false_and, and_true, true_and, or_false,
        false_or, or_self, not_false_eq_true]
      try omega
    · simp only [topF1, topF2, botF1, botF2, eastF1, eastF2, southF1, southF2, westF1,
        westF2, northF1, northF2, Sym2.eq_iff, Prod.mk.injEq, Bool.false_eq_true,
        Bool.true_eq_false, and_false, false_and, and_true, true_and, or_false,
        false_or, or_self, not_false_eq_true]
      try omega
  have heastF2 : famCnt1 (H - 1) (eastF2 (W - 1)) (s(((a + 1, W - 1, false) : GridVertex), (a, W - 1, true))) =
      if (a) < H - 1 ∧ (True) then 1 else 0 := by
    apply famCnt1_eval
    intro i
    rw [count_faceEdges]
    apply ite_sum_slot1
    · simp only [topF1, topF2, botF1, botF2, eastF1, eastF2, southF1, southF2, westF1,
        westF2, northF1, northF2, Sym2.eq_iff, Prod.mk.injEq, Bool.false_eq_true,
        Bool.true_eq_false, and_false, false_and, and_true, true_and, or_false,
        false_or, or_self, not_false_eq_true]
      try omega
    · simp only [topF1, topF2, botF1, botF2, eastF1, eastF2, southF1, southF2, westF1,
        westF2, northF1, northF2, Sym2.eq_iff, Prod.mk.injEq, Bool.false_eq_true,
        Bool.true_eq_false, and_false, false_and, and_true, true_and, or_false,
        false_or, or_self, not_false_eq_true]
      try omega
    · simp only [topF1, topF2, botF1, botF2, eastF1, eastF2, southF1, southF2, westF1,
        westF2, northF1, northF2, Sym2.eq_iff, Prod.mk.injEq, Bool.false_eq_true,
        Bool.true_eq_false, and_false, false_and, and_true, true_and, or_false,
        false_or, or_self, not_false_eq_true]
      try omega
  have hsouthF1 : famCnt1 (W - 1) (southF1 (H - 1)) (s(((a + 1, W - 1, false) : GridVertex), (a, W - 1, true))) = 0 := by
    apply famCnt1_zero
    intro i
    rw [count_faceEdges]
    apply ite_sum_none
    · simp only [topF1, topF2, botF1, botF2, eastF1, eastF2, southF1, southF2, westF1,
        westF2, northF1, northF2, Sym2.eq_iff, Prod.mk.injEq, Bool.false_eq_true,
        Bool.true_eq_false, and_false, false_and, and_true, true_and, or_false,
        false_or, or_self, not_false_eq_true]
      try omega
    · simp only [topF1, topF2, botF1, botF2, eastF1, eastF2, southF1, southF2, westF1,
        westF2, northF1, northF2, Sym2.eq_iff, Prod.mk.injEq, Bool.false_eq_true,
        Bool.true_eq_false, and_false, false_and, and_true, true_and, or_false,
        false_or, or_self, not_false_eq_true]
      try omega
    · simp only [topF1, topF2, botF1, botF2, eastF1, eastF2, southF1, southF2, westF1,
        westF2, northF1, northF2, Sym2.eq_iff, Prod.mk.injEq, Bool.false_eq_true,
        Bool.true_eq_false, and_false, false_and, and_true, true_and, or_false,
        false_or, or_self, not_false_eq_true]
      try omega
  have hsouthF2 : famCnt1 (W - 1) (southF2 (H - 1)) (s(((a + 1, W - 1, false) : GridVertex), (a, W - 1, true))) = 0 := by
    apply famCnt1_zero
    intro i
    rw [count_faceEdges]
    apply ite_sum_none
    · simp only [topF1, topF2, botF1, botF2, eastF1, eastF2, southF1, southF2, westF1,
        westF2, northF1, northF2, Sym2.eq_iff, Prod.mk.injEq, Bool.false_eq_true,
        Bool.true_eq_false, and_false, false_and, and_true, true_and, or_false,
        false_or, or_self, not_false_eq_true]
      try omega
    · simp only [topF1, topF2, botF1, botF2, eastF1, eastF2, southF1, southF2, westF1,
        westF2, northF1, northF2, Sym2.eq_iff, Prod.mk.injEq, Bool.false_eq_true,
        Bool.true_eq_false, and_false, false_and, and_true, true_and, or_false,
        false_or, or_self, not_false_eq_true]
      try omega
    · simp only [topF1, topF2, botF1, botF2, eastF1, eastF2, southF1, southF2, westF1,
        westF2, northF1, northF2, Sym2.eq_iff, Prod.mk.injEq, Bool.false_eq_true,
        Bool.true_eq_false, and_false, false_and, and_true, true_and, or_false,
        false_or, or_self, not_false_eq_true]
      try omega
  have hwestF1 : famCnt1 (H - 1) (westF1) (s(((a + 1, W - 1, false) : GridVertex), (a, W - 1, true))) = 0 := by
    apply famCnt1_zero
    intro i
    rw [count_faceEdges]
    apply ite_sum_none
    · simp only [topF1, topF2, botF1, botF2, eastF1, eastF2, southF1, southF2, westF1,
        westF2, northF1, northF2, Sym2.eq_iff, Prod.mk.injEq, Bool.false_eq_true,
        Bool.true_eq_false, and_false, false_and, and_true, true_and, or_false,
        false_or, or_self, not_false_eq_true]
      try omega
    · simp only [topF1, topF2, botF1, botF2, eastF1, eastF2, southF1, southF2, westF1,
        westF2, northF1, northF2, Sym2.eq_iff, Prod.mk.injEq, Bool.false_eq_true,
        Bool.true_eq_false, and_false, false_and, and_true, true_and, or_false,
        false_or, or_self, not_false_eq_true]
      try omega
    · simp only [topF1, topF2, botF1, botF2, eastF1, eastF2, southF1, southF2, westF1,
        westF2, northF1, northF2, Sym2.eq_iff, Prod.mk.injEq, Bool.false_eq_true,
        Bool.true_eq_false, and_false, false_and, and_true, true_and, or_false,
        false_or, or_self, not_false_eq_true]
      try omega
  have hwestF2 : famCnt1 (H - 1) (westF2) (s(((a + 1, W - 1, false) : GridVertex), (a, W - 1, true))) = 0 := by
    apply famCnt1_zero
    intro i
    rw [count_faceEdges]
    apply ite_sum_none
    · simp only [topF1, topF2, botF1, botF2, eastF1, eastF2, southF1, southF2, westF1,
        westF2, northF1, northF2, Sym2.eq_iff, Prod.mk.injEq, Bool.false_eq_true,
        Bool.true_eq_false, and_false, false_and, and_true, true_and, or_false,
        false_or, or_self, not_false_eq_true]
      try omega
    · simp only [topF1, topF2, botF1, botF2, eastF1, eastF2, southF1, southF2, westF1,
        westF2, northF1, northF2, Sym2.eq_iff, Prod.mk.injEq, Bool.false_eq_true,
        Bool.true_eq_false, and_false, false_and, and_true, true_and, or_false,
        false_or, or_self, not_false_eq_true]
      try omega
    · simp only [topF1, topF2, botF1, botF2, eastF1, eastF2, southF1, southF2, westF1,
        westF2, northF1, northF2, Sym2.eq_iff, Prod.mk.injEq, Bool.false_eq_true,
        Bool.true_eq_false, and_false, false_and, and_true, true_and, or_false,
        false_or, or_self, not_false_eq_true]
      try omega
  have hnorthF1 : famCnt1 (W - 1) (northF1) (s(((a + 1, W - 1, false) : GridVertex), (a, W - 1, true))) = 0 := by
    apply famCnt1_zero
    intro i
    rw [count_faceEdges]
    apply ite_sum_none
    · simp only [topF1, topF2, botF1, botF2, eastF1, eastF2, southF1, southF2, westF1,
        westF2, northF1, northF2, Sym2.eq_iff, Prod.mk.injEq, Bool.false_eq_true,
        Bool.true_eq_false, and_false, false_and, and_true, true_and, or_false,
        false_or, or_self, not_false_eq_true]
      try omega
    · simp only [topF1, topF2, botF1, botF2, eastF1, eastF2, southF1, southF2, westF1,
        westF2, northF1, northF2, Sym2.eq_iff, Prod.mk.injEq, Bool.false_eq_true,
        Bool.true_eq_false, and_false, false_and, and_true, true_and, or_false,
        false_or, or_self, not_false_eq_true]
      try omega
    · simp only [topF1, topF2, botF1, botF2, eastF1, eastF2, southF1, southF2, westF1,
        westF2, northF1, northF2, Sym2.eq_iff, Prod.mk.injEq, Bool.false_eq_true,
        Bool.true_eq_false, and_false, false_and, and_true, true_and, or_false,
        false_or, or_self, not_false_eq_true]
      try omega
  have hnorthF2 : famCnt1 (W - 1) (northF2) (s(((a + 1, W - 1, false) : GridVertex), (a, W - 1, true))) = 0 := by
    apply famCnt1_zero
    intro i
    rw [count_faceEdges]
    apply ite_sum_none
    · simp only [topF1, topF2, botF1, botF2, eastF1, eastF2, southF1, southF2, westF1,
        westF2, northF1, northF2, Sym2.eq_iff, Prod.mk.injEq, Bool.false_eq_true,
        Bool.true_eq_false, and_false, false_and, and_true, true_and, or_false,
        false_or, or_self, not_false_eq_true]
      try omega
    · simp only [topF1, topF2, botF1, botF2, eastF1, eastF2, southF1, southF2, westF1,
        westF2, northF1, northF2, Sym2.eq_iff, Prod.mk.injEq, Bool.false_eq_true,
        Bool.true_eq_false, and_false, false_and, and_true, true_and, or_false,
        false_or, or_self, not_false_eq_true]
      try omega
    · simp only [topF1, topF2, botF1, botF2, eastF1, eastF2, southF1, southF2, westF1,
        westF2, northF1, northF2, Sym2.eq_iff, Prod.mk.injEq, Bool.false_eq_true,
        Bool.true_eq_false, and_false, false_and, and_true, true_and, or_false,
        false_or, or_self, not_false_eq_true]
      try omega
  rw [count_structEdges, htopF1, htopF2, hbotF1, hbotF2, heastF1, heastF2, hsouthF1, hsouthF2, hwestF1, hwestF2, hnorthF1, hnorthF2]
  try simp only [and_true]
  split_ifs <;> omega


set_option maxHeartbeats 4000000 in
theorem cnt_diagS (H W : ℕ) (b : ℕ) (hH : 2 ≤ H) (hb : b < W - 1) :
    (structEdges H W).count (s(((H - 1, b + 1, false) : GridVertex), (H - 1, b, true))) = 2 := by
  have htopF1 : famCnt2 (H - 1) (W - 1) topF1 (s(((H - 1, b + 1, false) : GridVertex), (H - 1, b, true))) = 0 := by
    apply famCnt2_zero
    intro i j
    rw [count_faceEdges]
    apply ite_sum_none
    · simp only [topF1, topF2, botF1, botF2, eastF1, eastF2, southF1, southF2, westF1,
        westF2, northF1, northF2, Sym2.eq_iff, Prod.mk.injEq, Bool.false_eq_true,
        Bool.true_eq_false, and_false, false_and, and_true, true_and, or_false,
        false_or, or_self, not_false_eq_true]
      try omega
    · simp only [topF1, topF2, botF1, botF2, eastF1, eastF2, southF1, southF2, westF1,
        westF2, northF1, northF2, Sym2.eq_iff, Prod.mk.injEq, Bool.false_eq_true,
        Bool.true_eq_false, and_false, false_and, and_true, true_and, or_false,
        false_or, or_self, not_false_eq_true]
      try omega
    · simp only [topF1, topF2, botF1, botF2, eastF1, eastF2, southF1, southF2, westF1,
        westF2, northF1, northF2, Sym2.eq_iff, Prod.mk.injEq, Bool.false_eq_true,
        Bool.true_eq_false, and_false, false_and, and_true, true_and, or_false,
        false_or, or_self, not_false_eq_true]
      try omega
  have htopF2 : famCnt2 (H - 1) (W - 1) topF2 (s(((H - 1, b + 1, false) : GridVertex), (H - 1, b, true))) = 0 := by
    apply famCnt2_zero
    intro i j
    rw [count_faceEdges]
    apply ite_sum_none
    · simp only [topF1, topF2, botF1, botF2, eastF1, eastF2, southF1, southF2, westF1,
        westF2, northF1, northF2, Sym2.eq_iff, Prod.mk.injEq, Bool.false_eq_true,
        Bool.true_eq_false, and_false, false_and, and_true, true_and, or_false,
        false_or, or_self, not_false_eq_true]
      try omega
    · simp only [topF1, topF2, botF1, botF2, eastF1, eastF2, southF1, southF2, westF1,
        westF2, northF1, northF2, Sym2.eq_iff, Prod.mk.injEq, Bool.false_eq_true,
        Bool.true_eq_false, and_false, false_and, and_true, true_and, or_false,
        false_or, or_self, not_false_eq_true]
      try omega
    · simp only [topF1, topF2, botF1, botF2, eastF1, eastF2, southF1, southF2, westF1,
        westF2, northF1, northF2, Sym2.eq_iff, Prod.mk.injEq, Bool.false_eq_true,
        Bool.true_eq_false, and_false, false_and, and_true, true_and, or_false,
        false_or, or_self, not_false_eq_true]
      try omega
  have hbotF1 : famCnt2 (H - 1) (W - 1) botF1 (s(((H - 1, b + 1, false) : GridVertex), (H - 1, b, true))) = 0 := by
    apply famCnt2_zero
    intro i j
    rw [count_faceEdges]
    apply ite_sum_none
    · simp only [topF1, topF2, botF1, botF2, eastF1, eastF2, southF1, southF2, westF1,
        westF2, northF1, northF2, Sym2.eq_iff, Prod.mk.injEq, Bool.false_eq_true,
        Bool.true_eq_false, and_false, false_and, and_true, true_and, or_false,
        false_or, or_self, not_false_eq_true]
      try omega
    · simp only [topF1, topF2, botF1, botF2, eastF1, eastF2, southF1, southF2, westF1,
        westF2, northF1, northF2, Sym2.eq_iff, Prod.mk.injEq, Bool.false_eq_true,
        Bool.true_eq_false, and_false, false_and, and_true, true_and, or_false,
        false_or, or_self, not_false_eq_true]
      try omega
    · simp only [topF1, topF2, botF1, botF2, eastF1, eastF2, southF1, southF2, westF1,
        westF2, northF1, northF2, Sym2.eq_iff, Prod.mk.injEq, Bool.false_eq_true,
        Bool.true_eq_false, and_false, false_and, and_true, true_and, or_false,
        false_or, or_self, not_false_eq_true]
      try omega
  have hbotF2 : famCnt2 (H - 1) (W - 1) botF2 (s(((H - 1, b + 1, false) : GridVertex), (H - 1, b, true))) = 0 := by
    apply famCnt2_zero
    intro i j
    rw [count_faceEdges]
    apply ite_sum_none
    · simp only [topF1, topF2, botF1, botF2, eastF1, eastF2, southF1, southF2, westF1,
        westF2, northF1, northF2, Sym2.eq_iff, Prod.mk.injEq, Bool.false_eq_true,
        Bool.true_eq_false, and_false, false_and, and_true, true_and, or_false,
        false_or, or_self, not_false_eq_true]
      try omega
    · simp only [topF1, topF2, botF1, botF2, eastF1, eastF2, southF1, southF2, westF1,
        westF2, northF1, northF2, Sym2.eq_iff, Prod.mk.injEq, Bool.false_eq_true,
        Bool.true_eq_false, and_false, false_and, and_true, true_and, or_false,
        false_or, or_self, not_false_eq_true]
      try omega
    · simp only [topF1, topF2, botF1, botF2, eastF1, eastF2, southF1, southF2, westF1,
        westF2, northF1, northF2, Sym2.eq_iff, Prod.mk.injEq, Bool.false_eq_true,
        Bool.true_eq_false, and_false, false_and, and_true, true_and, or_false,
        false_or, or_self, not_false_eq_true]
      try omega
  have heastF1 : famCnt1 (H - 1) (eastF1 (W - 1)) (s(((H - 1, b + 1, false) : GridVertex), (H - 1, b, true))) = 0 := by
    apply famCnt1_zero
    intro i
    rw [count_faceEdges]
    apply ite_sum_none
    · simp only [topF1, topF2, botF1, botF2, eastF1, eastF2, southF1, southF2, westF1,
        westF2, northF1, northF2, Sym2.eq_iff, Prod.mk.injEq, Bool.false_eq_true,
        Bool.true_eq_false, and_false, false_and, and_true, true_and, or_false,
        false_or, or_self, not_false_eq_true]
      try omega
    · simp only [topF1, topF2, botF1, botF2, eastF1, eastF2, southF1, southF2, westF1,
        westF2, northF1, northF2, Sym2.eq_iff, Prod.mk.injEq, Bool.false_eq_true,
        Bool.true_eq_false, and_false, false_and, and_true, true_and, or_false,
        false_or, or_self, not_false_eq_true]
      try omega
    · simp only [topF1, topF2, botF1, botF2, eastF1, eastF2, southF1, southF2, westF1,
        westF2, northF1, northF2, Sym2.eq_iff, Prod.mk.injEq, Bool.false_eq_true,
        Bool.true_eq_false, and_false, false_and, and_true, true_and, or_false,
        false_or, or_self, not_false_eq_true]
      try omega
  have heastF2 : famCnt1 (H - 1) (eastF2 (W - 1)) (s(((H - 1, b + 1, false) : GridVertex), (H - 1, b, true))) = 0 := by
    apply famCnt1_zero
    intro i
    rw [count_faceEdges]
    apply ite_sum_none
    · simp only [topF1, topF2, botF1, botF2, eastF1, eastF2, southF1, southF2, westF1,
        westF2, northF1, northF2, Sym2.eq_iff, Prod.mk.injEq, Bool.false_eq_true,
        Bool.true_eq_false, and_false, false_and, and_true, true_and, or_false,
        false_or, or_self, not_false_eq_true]
      try omega
    · simp only [topF1, topF2, botF1, botF2, eastF1, eastF2, southF1, southF2, westF1,
        westF2, northF1, northF2, Sym2.eq_iff, Prod.mk.injEq, Bool.false_eq_true,
        Bool.true_eq_false, and_false, false_and, and_true, true_and, or_false,
        false_or, or_self, not_false_eq_true]
      try omega
    · simp only [topF1, topF2, botF1, botF2, eastF1, eastF2, southF1, southF2, westF1,
        westF2, northF1, northF2, Sym2.eq_iff, Prod.mk.injEq, Bool.false_eq_true,
        Bool.true_eq_false, and_false, false_and, and_true, true_and, or_false,
        false_or, or_self, not_false_eq_true]
      try omega
  have hsouthF1 : famCnt1 (W - 1) (southF1 (H - 1)) (s(((H - 1, b + 1, false) : GridVertex), (H - 1, b, true))) =
      if (b) < W - 1 ∧ (True) then 1 else 0 := by
    apply famCnt1_eval
    intro i
    rw [count_faceEdges]
    apply ite_sum_slot2
    · simp only [topF1, topF2, botF1, botF2, eastF1, eastF2, southF1, southF2, westF1,
        westF2, northF1, northF2, Sym2.eq_iff, Prod.mk.injEq, Bool.false_eq_true,
        Bool.true_eq_false, and_false, false_and, and_true, true_and, or_false,
        false_or, or_self, not_false_eq_true]
      try omega
    · simp only [topF1, topF2, botF1, botF2, eastF1, eastF2, southF1, southF2, westF1,
        westF2, northF1, northF2, Sym2.eq_iff, Prod.mk.injEq, Bool.false_eq_true,
        Bool.true_eq_false, and_false, false_and, and_true, true_and, or_false,
        false_or, or_self, not_false_eq_true]
      try omega
    · simp only [topF1, topF2, botF1, botF2, eastF1, eastF2, southF1, southF2, westF1,
        westF2, northF1, northF2, Sym2.eq_iff, Prod.mk.injEq, Bool.false_eq_true,
        Bool.true_eq_false, and_false, false_and, and_true, true_and, or_false,
        false_or, or_self, not_false_eq_true]
      try omega
  have hsouthF2 : famCnt1 (W - 1) (southF2 (H - 1)) (s(((H - 1, b + 1, false) : GridVertex), (H - 1, b, true))) =
      if (b) < W - 1 ∧ (True) then 1 else 0 := by
    apply famCnt1_eval
    intro i
    rw [count_faceEdges]
    apply ite_sum_slot3
    · simp only [topF1, topF2, botF1, botF2, eastF1, eastF2, southF1, southF2, westF1,
        westF2, northF1, northF2, Sym2.eq_iff, Prod.mk.injEq, Bool.false_eq_true,
        Bool.true_eq_false, and_false, false_and, and_true, true_and, or_false,
        false_or, or_self, not_false_eq_true]
      try omega
    · simp only [topF1, topF2, botF1, botF2, eastF1, eastF2, southF1, southF2, westF1,
        westF2, northF1, northF2, Sym2.eq_iff, Prod.mk.injEq, Bool.false_eq_true,
        Bool.true_eq_false, and_false, false_and, and_true, true_and, or_false,
        false_or, or_self, not_false_eq_true]
      try omega
    · simp only [topF1, topF2, botF1, botF2, eastF1, eastF2, southF1, southF2, westF1,
        westF2, northF1, northF2, Sym2.eq_iff, Prod.mk.injEq, Bool.false_eq_true,
        Bool.true_eq_false, and_false, false_and, and_true, true_and, or_false,
        false_or, or_self, not_false_eq_true]
      try omega
  have hwestF1 : famCnt1 (H - 1) (westF1) (s(((H - 1, b + 1, false) : GridVertex), (H - 1, b, true))) = 0 := by
    apply famCnt1_zero
    intro i
    rw [count_faceEdges]
    apply ite_sum_none
    · simp only [topF1, topF2, botF1, botF2, eastF1, eastF2, southF1, southF2, westF1,
        westF2, northF1, northF2, Sym2.eq_iff, Prod.mk.injEq, Bool.false_eq_true,
        Bool.true_eq_false, and_false, false_and, and_true, true_and, or_false,
        false_or, or_self, not_false_eq_true]
      try omega
    · simp only [topF1, topF2, botF1, botF2, eastF1, eastF2, southF1, southF2, westF1,
        westF2, northF1, northF2, Sym2.eq_iff, Prod.mk.injEq, Bool.false_eq_true,
        Bool.true_eq_false, and_false, false_and, and_true, true_and, or_false,
        false_or, or_self, not_false_eq_true]
      try omega
    · simp only [topF1, topF2, botF1, botF2, eastF1, eastF2, southF1, southF2, westF1,
        westF2, northF1, northF2, Sym2.eq_iff, Prod.mk.injEq, Bool.false_eq_true,
        Bool.true_eq_false, and_false, false_and, and_true, true_and, or_false,
        false_or, or_self, not_false_eq_true]
      try omega
  have hwestF2 : famCnt1 (H - 1) (westF2) (s(((H - 1, b + 1, false) : GridVertex), (H - 1, b, true))) = 0 := by
    apply famCnt1_zero
    intro i
    rw [count_faceEdges]
    apply ite_sum_none
    · simp only [topF1, topF2, botF1, botF2, eastF1, eastF2, southF1, southF2, westF1,
        westF2, northF1, northF2, Sym2.eq_iff, Prod.mk.injEq, Bool.false_eq_true,
        Bool.true_eq_false, and_false, false_and, and_true, true_and, or_false,
        false_or, or_self, not_false_eq_true]
      try omega
    · simp only [topF1, topF2, botF1, botF2, eastF1, eastF2, southF1, southF2, westF1,
        westF2, northF1, northF2, Sym2.eq_iff, Prod.mk.injEq, Bool.false_eq_true,
        Bool.true_eq_false, and_false, false_and, and_true, true_and, or_false,
        false_or, or_self, not_false_eq_true]
      try omega
    · simp only [topF1, topF2, botF1, botF2, eastF1, eastF2, southF1, southF2, westF1,
        westF2, northF1, northF2, Sym2.eq_iff, Prod.mk.injEq, Bool.false_eq_true,
        Bool.true_eq_false, and_false, false_and, and_true, true_and, or_false,
        false_or, or_self, not_false_eq_true]
      try omega
  have hnorthF1 : famCnt1 (W - 1) (northF1) (s(((H - 1, b + 1, false) : GridVertex), (H - 1, b, true))) = 0 := by
    apply famCnt1_zero
    intro i
    rw [count_faceEdges]
    apply ite_sum_none
    · simp only [topF1, topF2, botF1, botF2, eastF1, eastF2, southF1, southF2, westF1,
        westF2, northF1, northF2, Sym2.eq_iff, Prod.mk.injEq, Bool.false_eq_true,
        Bool.true_eq_false, and_false, false_and, and_true, true_and, or_false,
        false_or, or_self, not_false_eq_true]
      try omega
    · simp only [topF1, topF2, botF1, botF2, eastF1, eastF2, southF1, southF2, westF1,
        westF2, northF1, northF2, Sym2.eq_iff, Prod.mk.injEq, Bool.false_eq_true,
        Bool.true_eq_false, and_false, false_and, and_true, true_and, or_false,
        false_or, or_self, not_false_eq_true]
      try omega
    · simp only [topF1, topF2, botF1, botF2, eastF1, eastF2, southF1, southF2, westF1,
        westF2, northF1, northF2, Sym2.eq_iff, Prod.mk.injEq, Bool.false_eq_true,
        Bool.true_eq_false, and_false, false_and, and_true, true_and, or_false,
        false_or, or_self, not_false_eq_true]
      try omega
  have hnorthF2 : famCnt1 (W - 1) (northF2) (s(((H - 1, b + 1, false) : GridVertex), (H - 1, b, true))) = 0 := by
    apply famCnt1_zero
    intro i
    rw [count_faceEdges]
    apply ite_sum_none
    · simp only [topF1, topF2, botF1, botF2, eastF1, eastF2, southF1, southF2, westF1,
        westF2, northF1, northF2, Sym2.eq_iff, Prod.mk.injEq, Bool.false_eq_true,
        Bool.true_eq_false, and_false, false_and, and_true, true_and, or_false,
        false_or, or_self, not_false_eq_true]
      try omega
    · simp only [topF1, topF2, botF1, botF2, eastF1, eastF2, southF1, southF2, westF1,
        westF2, northF1, northF2, Sym2.eq_iff, Prod.mk.injEq, Bool.false_eq_true,
        Bool.true_eq_false, and_false, false_and, and_true, true_and, or_false,
        false_or, or_self, not_false_eq_true]
      try omega
    · simp only [topF1, topF2, botF1, botF2, eastF1, eastF2, southF1, southF2, westF1,
        westF2, northF1, northF2, Sym2.eq_iff, Prod.mk.injEq, Bool.false_eq_true,
        Bool.true_eq_false, and_false, false_and, and_true, true_and, or_false,
        false_or, or_self, not_false_eq_true]
      try omega
  rw [count_structEdges, htopF1, htopF2, hbotF1, hbotF2, heastF1, heastF2, hsouthF1, hsouthF2, hwestF1, hwestF2, hnorthF1, hnorthF2]
  try simp only [and_true]
  split_ifs <;> omega


set_option maxHeartbeats 4000000 in
theorem cnt_diagW (H W : ℕ) (a : ℕ) (hW : 2 ≤ W) (ha : a < H - 1) :
    (structEdges H W).count (s(((a + 1, 0, false) : GridVertex), (a, 0, true))) = 2 := by
  have htopF1 : famCnt2 (H - 1) (W - 1) topF1 (s(((a + 1, 0, false) : GridVertex), (a, 0, true))) = 0 := by
    apply famCnt2_zero
    intro i j
    rw [count_faceEdges]
    apply ite_sum_none
    · simp only [topF1, topF2, botF1, botF2, eastF1, eastF2, southF1, southF2, westF1,
        westF2, northF1, northF2, Sym2.eq_iff, Prod.mk.injEq, Bool.false_eq_true,
        Bool.true_eq_false, and_false, false_and, and_true, true_and, or_false,
        false_or, or_self, not_false_eq_true]
      try omega
    · simp only [topF1, topF2, botF1, botF2, eastF1, eastF2, southF1, southF2, westF1,
        westF2, northF1, northF2, Sym2.eq_iff, Prod.mk.injEq, Bool.false_eq_true,
        Bool.true_eq_false, and_false, false_and, and_true, true_and, or_false,
        false_or, or_self, not_false_eq_true]
      try omega
    · simp only [topF1, topF2, botF1, botF2, eastF1, eastF2, southF1, southF2, westF1,
        westF2, northF1, northF2, Sym2.eq_iff, Prod.mk.injEq, Bool.false_eq_true,
        Bool.true_eq_false, and_false, false_and, and_true, true_and, or_false,
        false_or, or_self, not_false_eq_true]
      try omega
  have htopF2 : famCnt2 (H - 1) (W - 1) topF2 (s(((a + 1, 0, false) : GridVertex), (a, 0, true))) = 0 := by
    apply famCnt2_zero
    intro i j
    rw [count_faceEdges]
    apply ite_sum_none
    · simp only [topF1, topF2, botF1, botF2, eastF1, eastF2, southF1, southF2, westF1,
        westF2, northF1, northF2, Sym2.eq_iff, Prod.mk.injEq, Bool.false_eq_true,
        Bool.true_eq_false, and_false, false_and, and_true, true_and, or_false,
        false_or, or_self, not_false_eq_true]
      try omega
    · simp only [topF1, topF2, botF1, botF2, eastF1, eastF2, southF1, southF2, westF1,
        westF2, northF1, northF2, Sym2.eq_iff, Prod.mk.injEq, Bool.false_eq_true,
        Bool.true_eq_false, and_false, false_and, and_true, true_and, or_false,
        false_or, or_self, not_false_eq_true]
      try omega
    · simp only [topF1, topF2, botF1, botF2, eastF1, eastF2, southF1, southF2, westF1,
        westF2, northF1, northF2, Sym2.eq_iff, Prod.mk.injEq, Bool.false_eq_true,
        Bool.true_eq_false, and_false, false_and, and_true, true_and, or_false,
        false_or, or_self, not_false_eq_true]
      try omega
  have hbotF1 : famCnt2 (H - 1) (W - 1) botF1 (s(((a + 1, 0, false) : GridVertex), (a, 0, true))) = 0 := by
    apply famCnt2_zero
    intro i j
    rw [count_faceEdges]
    apply ite_sum_none
    · simp only [topF1, topF2, botF1, botF2, eastF1, eastF2, southF1, southF2, westF1,
        westF2, northF1, northF2, Sym2.eq_iff, Prod.mk.injEq, Bool.false_eq_true,
        Bool.true_eq_false, and_false, false_and, and_true, true_and, or_false,
        false_or, or_self, not_false_eq_true]
      try omega
    · simp only [topF1, topF2, botF1, botF2, eastF1, eastF2, southF1, southF2, westF1,
        westF2, northF1, northF2, Sym2.eq_iff, Prod.mk.injEq, Bool.false_eq_true,
        Bool.true_eq_false, and_false, false_and, and_true, true_and, or_false,
        false_or, or_self, not_false_eq_true]
      try omega
    · simp only [topF1, topF2, botF1, botF2, eastF1, eastF2, southF1, southF2, westF1,
        westF2, northF1, northF2, Sym2.eq_iff, Prod.mk.injEq, Bool.false_eq_true,
        Bool.true_eq_false, and_false, false_and, and_true, true_and, or_false,
        false_or, or_self, not_false_eq_true]
      try omega
  have hbotF2 : famCnt2 (H - 1) (W - 1) botF2 (s(((a + 1, 0, false) : GridVertex), (a, 0, true))) = 0 := by
    apply famCnt2_zero
    intro i j
    rw [count_faceEdges]
    apply ite_sum_none
    · simp only [topF1, topF2, botF1, botF2, eastF1, eastF2, southF1, southF2, westF1,
        westF2, northF1, northF2, Sym2.eq_iff, Prod.mk.injEq, Bool.false_eq_true,
        Bool.true_eq_false, and_false, false_and, and_true, true_and, or_false,
        false_or, or_self, not_false_eq_true]
      try omega
    · simp only [topF1, topF2, botF1, botF2, eastF1, eastF2, southF1, southF2, westF1,
        westF2, northF1, northF2, Sym2.eq_iff, Prod.mk.injEq, Bool.false_eq_true,
        Bool.true_eq_false, and_false, false_and, and_true, true_and, or_false,
        false_or, or_self, not_false_eq_true]
      try omega
    · simp only [topF1, topF2, botF1, botF2, eastF1, eastF2, southF1, southF2, westF1,
        westF2, northF1, northF2, Sym2.eq_iff, Prod.mk.injEq, Bool.false_eq_true,
        Bool.true_eq_false, and_false, false_and, and_true, true_and, or_false,
        false_or, or_self, not_false_eq_true]
      try omega
  have heastF1 : famCnt1 (H - 1) (eastF1 (W - 1)) (s(((a + 1, 0, false) : GridVertex), (a, 0, true))) = 0 := by
    apply famCnt1_zero
    intro i
    rw [count_faceEdges]
    apply ite_sum_none
    · simp only [topF1, topF2, botF1, botF2, eastF1, eastF2, southF1, southF2, westF1,
        westF2, northF1, northF2, Sym2.eq_iff, Prod.mk.injEq, Bool.false_eq_true,
        Bool.true_eq_false, and_false, false_and, and_true, true_and, or_false,
        false_or, or_self, not_false_eq_true]
      try omega
    · simp only [topF1, topF2, botF1, botF2, eastF1, eastF2, southF1, southF2, westF1,
        westF2, northF1, northF2, Sym2.eq_iff, Prod.mk.injEq, Bool.false_eq_true,
        Bool.true_eq_false, and_false, false_and, and_true, true_and, or_false,
        false_or, or_self, not_false_eq_true]
      try omega
    · simp only [topF1, topF2, botF1, botF2, eastF1, eastF2, southF1, southF2, westF1,
        westF2, northF1, northF2, Sym2.eq_iff, Prod.mk.injEq, Bool.false_eq_true,
        Bool.true_eq_false, and_false, false_and, and_true, true_and, or_false,
        false_or, or_self, not_false_eq_true]
      try omega
  have heastF2 : famCnt1 (H - 1) (eastF2 (W - 1)) (s(((a + 1, 0, false) : GridVertex), (a, 0, true))) = 0 := by
    apply famCnt1_zero
    intro i
    rw [count_faceEdges]
    apply ite_sum_none
    · simp only [topF1, topF2, botF1, botF2, eastF1, eastF2, southF1, southF2, westF1,
        westF2, northF1, northF2, Sym2.eq_iff, Prod.mk.injEq, Bool.false_eq_true,
        Bool.true_eq_false, and_false, false_and, and_true, true_and, or_false,
        false_or, or_self, not_false_eq_true]
      try omega
    · simp only [topF1, topF2, botF1, botF2, eastF1, eastF2, southF1, southF2, westF1,
        westF2, northF1, northF2, Sym2.eq_iff, Prod.mk.injEq, Bool.false_eq_true,
        Bool.true_eq_false, and_false, false_and, and_true, true_and, or_false,
        false_or, or_self, not_false_eq_true]
      try omega
    · simp only [topF1, topF2, botF1, botF2, eastF1, eastF2, southF1, southF2, westF1,
        westF2, northF1, northF2, Sym2.eq_iff, Prod.mk.injEq, Bool.false_eq_true,
        Bool.true_eq_false, and_false, false_and, and_true, true_and, or_false,
        false_or, or_self, not_false_eq_true]
      try omega
  have hsouthF1 : famCnt1 (W - 1) (southF1 (H - 1)) (s(((a + 1, 0, false) : GridVertex), (a, 0, true))) = 0 := by
    apply famCnt1_zero
    intro i
    rw [count_faceEdges]
    apply ite_sum_none
    · simp only [topF1, topF2, botF1, botF2, eastF1, eastF2, southF1, southF2, westF1,
        westF2, northF1, northF2, Sym2.eq_iff, Prod.mk.injEq, Bool.false_eq_true,
        Bool.true_eq_false, and_false, false_and, and_true, true_and, or_false,
        false_or, or_self, not_false_eq_true]
      try omega
    · simp only [topF1, topF2, botF1, botF2, eastF1, eastF2, southF1, southF2, westF1,
        westF2, northF1, northF2, Sym2.eq_iff, Prod.mk.injEq, Bool.false_eq_true,
        Bool.true_eq_false, and_false, false_and, and_true, true_and, or_false,
        false_or, or_self, not_false_eq_true]
      try omega
    · simp only [topF1, topF2, botF1, botF2, eastF1, eastF2, southF1, southF2, westF1,
        westF2, northF1, northF2, Sym2.eq_iff, Prod.mk.injEq, Bool.false_eq_true,
        Bool.true_eq_false, and_false, false_and, and_true, true_and, or_false,
        false_or, or_self, not_false_eq_true]
      try omega
  have hsouthF2 : famCnt1 (W - 1) (southF2 (H - 1)) (s(((a + 1, 0, false) : GridVertex), (a, 0, true))) = 0 := by
    apply famCnt1_zero
    intro i
    rw [count_faceEdges]
    apply ite_sum_none
    · simp only [topF1, topF2, botF1, botF2, eastF1, eastF2, southF1, southF2, westF1,
        westF2, northF1, northF2, Sym2.eq_iff, Prod.mk.injEq, Bool.false_eq_true,
        Bool.true_eq_false, and_false, false_and, and_true, true_and, or_false,
        false_or, or_self, not_false_eq_true]
      try omega
    · simp only [topF1, topF2, botF1, botF2, eastF1, eastF2, southF1, southF2, westF1,
        westF2, northF1, northF2, Sym2.eq_iff, Prod.mk.injEq, Bool.false_eq_true,
        Bool.true_eq_false, and_false, false_and, and_true, true_and, or_false,
        false_or, or_self, not_false_eq_true]
      try omega
    · simp only [topF1, topF2, botF1, botF2, eastF1, eastF2, southF1, southF2, westF1,
        westF2, northF1, northF2, Sym2.eq_iff, Prod.mk.injEq, Bool.false_eq_true,
        Bool.true_eq_false, and_false, false_and, and_true, true_and, or_false,
        false_or, or_self, not_false_eq_true]
      try omega
  have hwestF1 : famCnt1 (H - 1) (westF1) (s(((a + 1, 0, false) : GridVertex), (a, 0, true))) =
      if (a) < H - 1 ∧ (True) then 1 else 0 := by
    apply famCnt1_eval
    intro i
    rw [count_faceEdges]
    apply ite_sum_slot2
    · simp only [topF1, topF2, botF1, botF2, eastF1, eastF2, southF1, southF2, westF1,
        westF2, northF1, northF2, Sym2.eq_iff, Prod.mk.injEq, Bool.false_eq_true,
        Bool.true_eq_false, and_false, false_and, and_true, true_and, or_false,
        false_or, or_self, not_false_eq_true]
      try omega
    · simp only [topF1, topF2, botF1, botF2, eastF1, eastF2, southF1, southF2, westF1,
        westF2, northF1, northF2, Sym2.eq_iff, Prod.mk.injEq, Bool.false_eq_true,
        Bool.true_eq_false, and_false, false_and, and_true, true_and, or_false,
        false_or, or_self, not_false_eq_true]
      try omega
    · simp only [topF1, topF2, botF1, botF2, eastF1, eastF2, southF1, southF2, westF1,
        westF2, northF1, northF2, Sym2.eq_iff, Prod.mk.injEq, Bool.false_eq_true,
        Bool.true_eq_false, and_false, false_and, and_true, true_and, or_false,
        false_or, or_self, not_false_eq_true]
      try omega
  have hwestF2 : famCnt1 (H - 1) (westF2) (s(((a + 1, 0, false) : GridVertex), (a, 0, true))) =
      if (a) < H - 1 ∧ (True) then 1 else 0 := by
    apply famCnt1_eval
    intro i
    rw [count_faceEdges]
    apply ite_sum_slot3
    · simp only [topF1, topF2, botF1, botF2, eastF1, eastF2, southF1, southF2, westF1,
        westF2, northF1, northF2, Sym2.eq_iff, Prod.mk.injEq, Bool.false_eq_true,
        Bool.true_eq_false, and_false, false_and, and_true, true_and, or_false,
        false_or, or_self, not_false_eq_true]
      try omega
    · simp only [topF1, topF2, botF1, botF2, eastF1, eastF2, southF1, southF2, westF1,
        westF2, northF1, northF2, Sym2.eq_iff, Prod.mk.injEq, Bool.false_eq_true,
        Bool.true_eq_false, and_false, false_and, and_true, true_and, or_false,
        false_or, or_self, not_false_eq_true]
      try omega
    · simp only [topF1, topF2, botF1, botF2, eastF1, eastF2, southF1, southF2, westF1,
        westF2, northF1, northF2, Sym2.eq_iff, Prod.mk.injEq, Bool.false_eq_true,
        Bool.true_eq_false, and_false, false_and, and_true, true_and, or_false,
        false_or, or_self, not_false_eq_true]
      try omega
  have hnorthF1 : famCnt1 (W - 1) (northF1) (s(((a + 1, 0, false) : GridVertex), (a, 0, true))) = 0 := by
    apply famCnt1_zero
    intro i
    rw [count_faceEdges]
    apply ite_sum_none
    · simp only [topF1, topF2, botF1, botF2, eastF1, eastF2, southF1, southF2, westF1,
        westF2, northF1, northF2, Sym2.eq_iff, Prod.mk.injEq, Bool.false_eq_true,
        Bool.true_eq_false, and_false, false_and, and_true, true_and, or_false,
        false_or, or_self, not_false_eq_true]
      try omega
    · simp only [topF1, topF2, botF1, botF2, eastF1, eastF2, southF1, southF2, westF1,
        westF2, northF1, northF2, Sym2.eq_iff, Prod.mk.injEq, Bool.false_eq_true,
        Bool.true_eq_false, and_false, false_and, and_true, true_and, or_false,
        false_or, or_self, not_false_eq_true]
      try omega
    · simp only [topF1, topF2, botF1, botF2, eastF1, eastF2, southF1, southF2, westF1,
        westF2, northF1, northF2, Sym2.eq_iff, Prod.mk.injEq, Bool.false_eq_true,
        Bool.true_eq_false, and_false, false_and, and_true, true_and, or_false,
        false_or, or_self, not_false_eq_true]
      try omega
  have hnorthF2 : famCnt1 (W - 1) (northF2) (s(((a + 1, 0, false) : GridVertex), (a, 0, true))) = 0 := by
    apply famCnt1_zero
    intro i
    rw [count_faceEdges]
    apply ite_sum_none
    · simp only [topF1, topF2, botF1, botF2, eastF1, eastF2, southF1, southF2, westF1,
        westF2, northF1, northF2, Sym2.eq_iff, Prod.mk.injEq, Bool.false_eq_true,
        Bool.true_eq_false, and_false, false_and, and_true, true_and, or_false,
        false_or, or_self, not_false_eq_true]
      try omega
    · simp only [topF1, topF2, botF1, botF2, eastF1, eastF2, southF1, southF2, westF1,
        westF2, northF1, northF2, Sym2.eq_iff, Prod.mk.injEq, Bool.false_eq_true,
        Bool.true_eq_false, and_false, false_and, and_true, true_and, or_false,
        false_or, or_self, not_false_eq_true]
      try omega
    · simp only [topF1, topF2, botF1, botF2, eastF1, eastF2, southF1, southF2, westF1,
        westF2, northF1, northF2, Sym2.eq_iff, Prod.mk.injEq, Bool.false_eq_true,
        Bool.true_eq_false, and_false, false_and, and_true, true_and, or_false,
        false_or, or_self, not_false_eq_true]
      try omega
  rw [count_structEdges, htopF1, htopF2, hbotF1, hbotF2, heastF1, heastF2, hsouthF1, hsouthF2, hwestF1, hwestF2, hnorthF1, hnorthF2]
  try simp only [and_true]
  split_ifs <;> omega


set_option maxHeartbeats 4000000 in
theorem cnt_diagN (H W : ℕ) (b : ℕ) (hH : 2 ≤ H) (hb : b < W - 1) :
    (structEdges H W).count (s(((0, b + 1, false) : GridVertex), (0, b, true))) = 2 := by
  have htopF1 : famCnt2 (H - 1) (W - 1) topF1 (s(((0, b + 1, false) : GridVertex), (0, b, true))) = 0 := by
    apply famCnt2_zero
    intro i j
    rw [count_faceEdges]
    apply ite_sum_none
    · simp only [topF1, topF2, botF1, botF2, eastF1, eastF2, southF1, southF2, westF1,
        westF2, northF1, northF2, Sym2.eq_iff, Prod.mk.injEq, Bool.false_eq_true,
        Bool.true_eq_false, and_false, false_and, and_true, true_and, or_false,
        false_or, or_self, not_false_eq_true]
      try omega
    · simp only [topF1, topF2, botF1, botF2, eastF1, eastF2, southF1, southF2, westF1,
        westF2, northF1, northF2, Sym2.eq_iff, Prod.mk.injEq, Bool.false_eq_true,
        Bool.true_eq_false, and_false, false_and, and_true, true_and, or_false,
        false_or, or_self, not_false_eq_true]
      try omega
    · simp only [topF1, topF2, botF1, botF2, eastF1, eastF2, southF1, southF2, westF1,
        westF2, northF1, northF2, Sym2.eq_iff, Prod.mk.injEq, Bool.false_eq_true,
        Bool.true_eq_false, and_false, false_and, and_true, true_and, or_false,
        false_or, or_self, not_false_eq_true]
      try omega
  have htopF2 : famCnt2 (H - 1) (W - 1) topF2 (s(((0, b + 1, false) : GridVertex), (0, b, true))) = 0 := by
    apply famCnt2_zero
    intro i j
    rw [count_faceEdges]
    apply ite_sum_none
    · simp only [topF1, topF2, botF1, botF2, eastF1, eastF2, southF1, southF2, westF1,
        westF2, northF1, northF2, Sym2.eq_iff, Prod.mk.injEq, Bool.false_eq_true,
        Bool.true_eq_false, and_false, false_and, and_true, true_and, or_false,
        false_or, or_self, not_false_eq_true]
      try omega
    · simp only [topF1, topF2, botF1, botF2, eastF1, eastF2, southF1, southF2, westF1,
        westF2, northF1, northF2, Sym2.eq_iff, Prod.mk.injEq, Bool.false_eq_true,
        Bool.true_eq_false, and_false, false_and, and_true, true_and, or_false,
        false_or, or_self, not_false_eq_true]
      try omega
    · simp only [topF1, topF2, botF1, botF2, eastF1, eastF2, southF1, southF2, westF1,
        westF2, northF1, northF2, Sym2.eq_iff, Prod.mk.injEq, Bool.false_eq_true,
        Bool.true_eq_false, and_false, false_and, and_true, true_and, or_false,
        false_or, or_self, not_false_eq_true]
      try omega
  have hbotF1 : famCnt2 (H - 1) (W - 1) botF1 (s(((0, b + 1, false) : GridVertex), (0, b, true))) = 0 := by
    apply famCnt2_zero
    intro i j
    rw [count_faceEdges]
    apply ite_sum_none
    · simp only [topF1, topF2, botF1, botF2, eastF1, eastF2, southF1, southF2, westF1,
        westF2, northF1, northF2, Sym2.eq_iff, Prod.mk.injEq, Bool.false_eq_true,
        Bool.true_eq_false, and_false, false_and, and_true, true_and, or_false,
        false_or, or_self, not_false_eq_true]
      try omega
    · simp only [topF1, topF2, botF1, botF2, eastF1, eastF2, southF1, southF2, westF1,
        westF2, northF1, northF2, Sym2.eq_iff, Prod.mk.injEq, Bool.false_eq_true,
        Bool.true_eq_false, and_false, false_and, and_true, true_and, or_false,
        false_or, or_self, not_false_eq_true]
      try omega
    · simp only [topF1, topF2, botF1, botF2, eastF1, eastF2, southF1, southF2, westF1,
        westF2, northF1, northF2, Sym2.eq_iff, Prod.mk.injEq, Bool.false_eq_true,
        Bool.true_eq_false, and_false, false_and, and_true, true_and, or_false,
        false_or, or_self, not_false_eq_true]
      try omega
  have hbotF2 : famCnt2 (H - 1) (W - 1) botF2 (s(((0, b + 1, false) : GridVertex), (0, b, true))) = 0 := by
    apply famCnt2_zero
    intro i j
    rw [count_faceEdges]
    apply ite_sum_none
    · simp only [topF1, topF2, botF1, botF2, eastF1, eastF2, southF1, southF2, westF1,
        westF2, northF1, northF2, Sym2.eq_iff, Prod.mk.injEq, Bool.false_eq_true,
        Bool.true_eq_false, and_false, false_and, and_true, true_and, or_false,
        false_or, or_self, not_false_eq_true]
      try omega
    · simp only [topF1, topF2, botF1, botF2, eastF1, eastF2, southF1, southF2, westF1,
        westF2, northF1, northF2, Sym2.eq_iff, Prod.mk.injEq, Bool.false_eq_true,
        Bool.true_eq_false, and_false, false_and, and_true, true_and, or_false,
        false_or, or_self, not_false_eq_true]
      try omega
    · simp only [topF1, topF2, botF1, botF2, eastF1, eastF2, southF1, southF2, westF1,
        westF2, northF1, northF2, Sym2.eq_iff, Prod.mk.injEq, Bool.false_eq_true,
        Bool.true_eq_false, and_false, false_and, and_true, true_and, or_false,
        false_or, or_self, not_false_eq_true]
      try omega
  have heastF1 : famCnt1 (H - 1) (eastF1 (W - 1)) (s(((0, b + 1, false) : GridVertex), (0, b, true))) = 0 := by
    apply famCnt1_zero
    intro i
    rw [count_faceEdges]
    apply ite_sum_none
    · simp only [topF1, topF2, botF1, botF2, eastF1, eastF2, southF1, southF2, westF1,
        westF2, northF1, northF2, Sym2.eq_iff, Prod.mk.injEq, Bool.false_eq_true,
        Bool.true_eq_false, and_false, false_and, and_true, true_and, or_false,
        false_or, or_self, not_false_eq_true]
      try omega
    · simp only [topF1, topF2, botF1, botF2, eastF1, eastF2, southF1, southF2, westF1,
        westF2, northF1, northF2, Sym2.eq_iff, Prod.mk.injEq, Bool.false_eq_true,
        Bool.true_eq_false, and_false, false_and, and_true, true_and, or_false,
        false_or, or_self, not_false_eq_true]
      try omega
    · simp only [topF1, topF2, botF1, botF2, eastF1, eastF2, southF1, southF2, westF1,
        westF2, northF1, northF2, Sym2.eq_iff, Prod.mk.injEq, Bool.false_eq_true,
        Bool.true_eq_false, and_false, false_and, and_true, true_and, or_false,
        false_or, or_self, not_false_eq_true]
      try omega
  have heastF2 : famCnt1 (H - 1) (eastF2 (W - 1)) (s(((0, b + 1, false) : GridVertex), (0, b, true))) = 0 := by
    apply famCnt1_zero
    intro i
    rw [count_faceEdges]
    apply ite_sum_none
    · simp only [topF1, topF2, botF1, botF2, eastF1, eastF2, southF1, southF2, westF1,
        westF2, northF1, northF2, Sym2.eq_iff, Prod.mk.injEq, Bool.false_eq_true,
        Bool.true_eq_false, and_false, false_and, and_true, true_and, or_false,
        false_or, or_self, not_false_eq_true]
      try omega
    · simp only [topF1, topF2, botF1, botF2, eastF1, eastF2, southF1, southF2, westF1,
        westF2, northF1, northF2, Sym2.eq_iff, Prod.mk.injEq, Bool.false_eq_true,
        Bool.true_eq_false, and_false, false_and, and_true, true_and, or_false,
        false_or, or_self, not_false_eq_true]
      try omega
    · simp only [topF1, topF2, botF1, botF2, eastF1, eastF2, southF1, southF2, westF1,
        westF2, northF1, northF2, Sym2.eq_iff, Prod.mk.injEq, Bool.false_eq_true,
        Bool.true_eq_false, and_false, false_and, and_true, true_and, or_false,
        false_or, or_self, not_false_eq_true]
      try omega
  have hsouthF1 : famCnt1 (W - 1) (southF1 (H - 1)) (s(((0, b + 1, false) : GridVertex), (0, b, true))) = 0 := by
    apply famCnt1_zero
    intro i
    rw [count_faceEdges]
    apply ite_sum_none
    · simp only [topF1, topF2, botF1, botF2, eastF1, eastF2, southF1, southF2, westF1,
        westF2, northF1, northF2, Sym2.eq_iff, Prod.mk.injEq, Bool.false_eq_true,
        Bool.true_eq_false, and_false, false_and, and_true, true_and, or_false,
        false_or, or_self, not_false_eq_true]
      try omega
    · simp only [topF1, topF2, botF1, botF2, eastF1, eastF2, southF1, southF2, westF1,
        westF2, northF1, northF2, Sym2.eq_iff, Prod.mk.injEq, Bool.false_eq_true,
        Bool.true_eq_false, and_false, false_and, and_true, true_and, or_false,
        false_or, or_self, not_false_eq_true]
      try omega
    · simp only [topF1, topF2, botF1, botF2, eastF1, eastF2, southF1, southF2, westF1,
        westF2, northF1, northF2, Sym2.eq_iff, Prod.mk.injEq, Bool.false_eq_true,
        Bool.true_eq_false, and_false, false_and, and_true, true_and, or_false,
        false_or, or_self, not_false_eq_true]
      try omega
  have hsouthF2 : famCnt1 (W - 1) (southF2 (H - 1)) (s(((0, b + 1, false) : GridVertex), (0, b, true))) = 0 := by
    apply famCnt1_zero
    intro i
    rw [count_faceEdges]
    apply ite_sum_none
    · simp only [topF1, topF2, botF1, botF2, eastF1, eastF2, southF1, southF2, westF1,
        westF2, northF1, northF2, Sym2.eq_iff, Prod.mk.injEq, Bool.false_eq_true,
        Bool.true_eq_false, and_false, false_and, and_true, true_and, or_false,
        false_or, or_self, not_false_eq_true]
      try omega
    · simp only [topF1, topF2, botF1, botF2, eastF1, eastF2, southF1, southF2, westF1,
        westF2, northF1, northF2, Sym2.eq_iff, Prod.mk.injEq, Bool.false_eq_true,
        Bool.true_eq_false, and_false, false_and, and_true, true_and, or_false,
        false_or, or_self, not_false_eq_true]
      try omega
    · simp only [topF1, topF2, botF1, botF2, eastF1, eastF2, southF1, southF2, westF1,
        westF2, northF1, northF2, Sym2.eq_iff, Prod.mk.injEq, Bool.false_eq_true,
        Bool.true_eq_false, and_false, false_and, and_true, true_and, or_false,
        false_or, or_self, not_false_eq_true]
      try omega
  have hwestF1 : famCnt1 (H - 1) (westF1) (s(((0, b + 1, false) : GridVertex), (0, b, true))) = 0 := by
    apply famCnt1_zero
    intro i
    rw [count_faceEdges]
    apply ite_sum_none
    · simp only [topF1, topF2, botF1, botF2, eastF1, eastF2, southF1, southF2, westF1,
        westF2, northF1, northF2, Sym2.eq_iff, Prod.mk.injEq, Bool.false_eq_true,
        Bool.true_eq_false, and_false, false_and, and_true, true_and, or_false,
        false_or, or_self, not_false_eq_true]
      try omega
    · simp only [topF1, topF2, botF1, botF2, eastF1, eastF2, southF1, southF2, westF1,
        westF2, northF1, northF2, Sym2.eq_iff, Prod.mk.injEq, Bool.false_eq_true,
        Bool.true_eq_false, and_false, false_and, and_true, true_and, or_false,
        false_or, or_self, not_false_eq_true]
      try omega
    · simp only [topF1, topF2, botF1, botF2, eastF1, eastF2, southF1, southF2, westF1,
        westF2, northF1, northF2, Sym2.eq_iff, Prod.mk.injEq, Bool.false_eq_true,
        Bool.true_eq_false, and_false, false_and, and_true, true_and, or_false,
        false_or, or_self, not_false_eq_true]
      try omega
  have hwestF2 : famCnt1 (H - 1) (westF2) (s(((0, b + 1, false) : GridVertex), (0, b, true))) = 0 := by
    apply famCnt1_zero
    intro i
    rw [count_faceEdges]
    apply ite_sum_none
    · simp only [topF1, topF2, botF1, botF2, eastF1, eastF2, southF1, southF2, westF1,
        westF2, northF1, northF2, Sym2.eq_iff, Prod.mk.injEq, Bool.false_eq_true,
        Bool.true_eq_false, and_false, false_and, and_true, true_and, or_false,
        false_or, or_self, not_false_eq_true]
      try omega
    · simp only [topF1, topF2, botF1, botF2, eastF1, eastF2, southF1, southF2, westF1,
        westF2, northF1, northF2, Sym2.eq_iff, Prod.mk.injEq, Bool.false_eq_true,
        Bool.true_eq_false, and_false, false_and, and_true, true_and, or_false,
        false_or, or_self, not_false_eq_true]
      try omega
    · simp only [topF1, topF2, botF1, botF2, eastF1, eastF2, southF1, southF2, westF1,
        westF2, northF1, northF2, Sym2.eq_iff, Prod.mk.injEq, Bool.false_eq_true,
        Bool.true_eq_false, and_false, false_and, and_true, true_and, or_false,
        false_or, or_self, not_false_eq_true]
      try omega
  have hnorthF1 : famCnt1 (W - 1) (northF1) (s(((0, b + 1, false) : GridVertex), (0, b, true))) =
      if (b) < W - 1 ∧ (True) then 1 else 0 := by
    apply famCnt1_eval
    intro i
    rw [count_faceEdges]
    apply ite_sum_slot2
    · simp only [topF1, topF2, botF1, botF2, eastF1, eastF2, southF1, southF2, westF1,
        westF2, northF1, northF2, Sym2.eq_iff, Prod.mk.injEq, Bool.false_eq_true,
        Bool.true_eq_false, and_false, false_and, and_true, true_and, or_false,
        false_or, or_self, not_false_eq_true]
      try omega
    · simp only [topF1, topF2, botF1, botF2, eastF1, eastF2, southF1, southF2, westF1,
        westF2, northF1, northF2, Sym2.eq_iff, Prod.mk.injEq, Bool.false_eq_true,
        Bool.true_eq_false, and_false, false_and, and_true, true_and, or_false,
        false_or, or_self, not_false_eq_true]
      try omega
    · simp only [topF1, topF2, botF1, botF2, eastF1, eastF2, southF1, southF2, westF1,
        westF2, northF1, northF2, Sym2.eq_iff, Prod.mk.injEq, Bool.false_eq_true,
        Bool.true_eq_false, and_false, false_and, and_true, true_and, or_false,
        false_or, or_self, not_false_eq_true]
      try omega
  have hnorthF2 : famCnt1 (W - 1) (northF2) (s(((0, b + 1, false) : GridVertex), (0, b, true))) =
      if (b) < W - 1 ∧ (True) then 1 else 0 := by
    apply famCnt1_eval
    intro i
    rw [count_faceEdges]
    apply ite_sum_slot1
    · simp only [topF1, topF2, botF1, botF2, eastF1, eastF2, southF1, southF2, westF1,
        westF2, northF1, northF2, Sym2.eq_iff, Prod.mk.injEq, Bool.false_eq_true,
        Bool.true_eq_false, and_false, false_and, and_true, true_and, or_false,
        false_or, or_self, not_false_eq_true]
      try omega
    · simp only [topF1, topF2, botF1, botF2, eastF1, eastF2, southF1, southF2, westF1,
        westF2, northF1, northF2, Sym2.eq_iff, Prod.mk.injEq, Bool.false_eq_true,
        Bool.true_eq_false, and_false, false_and, and_true, true_and, or_false,
        false_or, or_self, not_false_eq_true]
      try omega
    · simp only [topF1, topF2, botF1, botF2, eastF1, eastF2, southF1, southF2, westF1,
        westF2, northF1, northF2, Sym2.eq_iff, Prod.mk.injEq, Bool.false_eq_true,
        Bool.true_eq_false, and_false, false_and, and_true, true_and, or_false,
        false_or, or_self, not_false_eq_true]
      try omega
  rw [count_structEdges, htopF1, htopF2, hbotF1, hbotF2, heastF1, heastF2, hsouthF1, hsouthF2, hwestF1, hwestF2, hnorthF1, hnorthF2]
  try simp only [and_true]
  split_ifs <;> omega



/-- Every undirected edge occurring in the terrain mesh face list occurs in
exactly two faces (grid-structured form). -/
theorem structEdges_count_eq_two (H W : ℕ) (hH : 2 ≤ H) (hW : 2 ≤ W) :
    ∀ e ∈ structEdges H W, (structEdges H W).count e = 2 := by
  intro e he
  rw [structEdges, structFaces] at he
  simp only [List.flatMap_append, List.mem_append] at he
  rcases he with ((((hA | hB) | hC) | hD) | hE) | hF
  · rcases List.mem_flatMap.1 hA with ⟨f, hf, hef⟩
    rcases List.mem_flatMap.1 hf with ⟨i, hi, hfi⟩
    rcases List.mem_flatMap.1 hfi with ⟨j, hj, hfj⟩
    replace hi := List.mem_range.1 hi
    replace hj := List.mem_range.1 hj
    simp only [List.mem_cons, List.not_mem_nil, or_false] at hfj
    rcases hfj with rfl | rfl
    · simp only [faceEdges, topF1, List.mem_cons, List.not_mem_nil, or_false] at hef
      rcases hef with rfl | rfl | rfl
      · exact cnt_topV H W i j hH hW hi (by omega)
      · rw [Sym2.eq_swap]
        exact cnt_topD H W i j hi hj
      · rw [Sym2.eq_swap]
        exact cnt_topH H W i j hH hW (by omega) hj
    · simp only [faceEdges, topF2, List.mem_cons, List.not_mem_nil, or_false] at hef
      rcases hef with rfl | rfl | rfl
      · exact cnt_topD H W i j hi hj
      · exact cnt_topH H W (i + 1) j hH hW (by omega) hj
      · rw [Sym2.eq_swap]
        exact cnt_topV H W i (j + 1) hH hW hi (by omega)
  · rcases List.mem_flatMap.1 hB with ⟨f, hf, hef⟩
    rcases List.mem_flatMap.1 hf with ⟨i, hi, hfi⟩
    rcases List.mem_flatMap.1 hfi with ⟨j, hj, hfj⟩
    replace hi := List.mem_range.1 hi
    replace hj := List.mem_range.1 hj
    simp only [List.mem_cons, List.not_mem_nil, or_false] at hfj
    rcases hfj with rfl | rfl
    · simp only [faceEdges, botF1, List.mem_cons, List.not_mem_nil, or_false] at hef
      rcases hef with rfl | rfl | rfl
      · exact cnt_botD H W i j hi hj
      · rw [Sym2.eq_swap]
        exact cnt_botV H W i j hH hW hi (by omega)
      · exact cnt_botH H W i j hH hW (by omega) hj
    · simp only [faceEdges, botF2, List.mem_cons, List.not_mem_nil, or_false] at hef
      rcases hef with rfl | rfl | rfl
      · rw [Sym2.eq_swap]
        exact cnt_botH H W (i + 1) j hH hW (by omega) hj
      · rw [Sym2.eq_swap]
        exact cnt_botD H W i j hi hj
      · exact cnt_botV H W i (j + 1) hH hW hi (by omega)
  · rcases List.mem_flatMap.1 hC with ⟨f, hf, hef⟩
    rcases List.mem_flatMap.1 hf with ⟨i, hi, hfi⟩
    replace hi := List.mem_range.1 hi
    simp only [List.mem_cons, List.not_mem_nil, or_false] at hfi
    rcases hfi with rfl | rfl
    · simp only [faceEdges, eastF1, List.mem_cons, List.not_mem_nil, or_false] at hef
      rcases hef with rfl | rfl | rfl
      · exact cnt_pillar H W i (W - 1) hH hW (by omega) (by omega)
          (Or.inr (Or.inl rfl))
      · rw [Sym2.eq_swap]
        exact cnt_diagE H W i hW hi
      · rw [Sym2.eq_swap]
        exact cnt_topV H W i (W - 1) hH hW hi (by omega)
    · simp only [faceEdges, eastF2, List.mem_cons, List.not_mem_nil, or_false] at hef
      rcases hef with rfl | rfl | rfl
      · exact cnt_diagE H W i hW hi
      · exact cnt_botV H W i (W - 1) hH hW hi (by omega)
      · rw [Sym2.eq_swap]
        exact cnt_pillar H W (i + 1) (W - 1) hH hW (by omega) (by omega)
          (Or.inr (Or.inl rfl))
  · rcases List.mem_flatMap.1 hD with ⟨f, hf, hef⟩
    rcases List.mem_flatMap.1 hf with ⟨j, hj, hfj⟩
    replace hj := List.mem_range.1 hj
    simp only [List.mem_cons, List.not_mem_nil, or_false] at hfj
    rcases hfj with rfl | rfl
    · simp only [faceEdges, southF1, List.mem_cons, List.not_mem_nil, or_false] at hef
      rcases hef with rfl | rfl | rfl
      · exact cnt_topH H W (H - 1) j hH hW (le_refl _) hj
      · exact cnt_diagS H W j hH hj
      · rw [Sym2.eq_swap]
        exact cnt_pillar H W (H - 1) j hH hW (le_refl _) (by omega)
          (Or.inr (Or.inr (Or.inr rfl)))
    · simp only [faceEdges, southF2, List.mem_cons, List.not_mem_nil, or_false] at hef
      rcases hef with rfl | rfl | rfl
      · exact cnt_pillar H W (H - 1) (j + 1) hH hW (le_refl _) (by omega)
          (Or.inr (Or.inr (Or.inr rfl)))
      · rw [Sym2.eq_swap]
        exact cnt_botH H W (H - 1) j hH hW (le_refl _) hj
      · rw [Sym2.eq_swap]
        exact cnt_diagS H W j hH hj
  · rcases List.mem_flatMap.1 hE with ⟨f, hf, hef⟩
    rcases List.mem_flatMap.1 hf with ⟨i, hi, hfi⟩
    replace hi := List.mem_range.1 hi
    simp only [List.mem_cons, List.not_mem_nil, or_false] at hfi
    rcases hfi with rfl | rfl
    · simp only [faceEdges, westF1, List.mem_cons, List.not_mem_nil, or_false] at hef
      rcases hef with rfl | rfl | rfl
      · exact cnt_topV H W i 0 hH hW hi (by omega)
      · exact cnt_diagW H W i hW hi
      · rw [Sym2.eq_swap]
        exact cnt_pillar H W i 0 hH hW (by omega) (by omega) (Or.inl rfl)
    · simp only [faceEdges, westF2, List.mem_cons, List.not_mem_nil, or_false] at hef
      rcases hef with rfl | rfl | rfl
      · exact cnt_pillar H W (i + 1) 0 hH hW (by omega) (by omega) (Or.inl rfl)
      · rw [Sym2.eq_swap]
        exact cnt_botV H W i 0 hH hW hi (by omega)
      · rw [Sym2.eq_swap]
        exact cnt_diagW H W i hW hi
  · rcases List.mem_flatMap.1 hF with ⟨f, hf, hef⟩
    rcases List.mem_flatMap.1 hf with ⟨j, hj, hfj⟩
    replace hj := List.mem_range.1 hj
    simp only [List.mem_cons, List.not_mem_nil, or_false] at hfj
    rcases hfj with rfl | rfl
    · simp only [faceEdges, northF1, List.mem_cons, List.not_mem_nil, or_false] at hef
      rcases hef with rfl | rfl | rfl
      · exact cnt_pillar H W 0 j hH hW (by omega) (by omega)
          (Or.inr (Or.inr (Or.inl rfl)))
      · rw [Sym2.eq_swap]
        exact cnt_diagN H W j hH hj
      · rw [Sym2.eq_swap]
        exact cnt_topH H W 0 j hH hW (by omega) hj
    · simp only [faceEdges, northF2, List.mem_cons, List.not_mem_nil, or_false] at hef
      rcases hef with rfl | rfl | rfl
      · exact cnt_diagN H W j hH hj
      · exact cnt_botH H W 0 j hH hW (by omega) hj
      · rw [Sym2.eq_swap]
        exact cnt_pillar H W 0 (j + 1) hH hW (by omega) (by omega)
          (Or.inr (Or.inr (Or.inl rfl)))

/-- The faces of create_terrain_mesh in flat NumPy vertex indices, built in
source order with idx = i·W + j and the base block offset len(vertices) =
H·W: top faces [idx, idx+W, idx+1] and [idx+1, idx+W, idx+W+1] per cell;
bottom faces are the top faces reversed (faces[:, ::-1]) plus the offset;
then the four wall strips exactly as the four loops of the source emit
them. -/
def flatTerrainFaces (H W : ℕ) : List (ℕ × ℕ × ℕ) :=
  ((List.range (H - 1)).flatMap fun i => (List.range (W - 1)).flatMap fun j =>
    [(i * W + j, i * W + j + W, i * W + j + 1),
     (i * W + j + 1, i * W + j + W, i * W + j + W + 1)]) ++
  ((List.range (H - 1)).flatMap fun i => (List.range (W - 1)).flatMap fun j =>
    [(i * W + j + 1 + H * W, i * W + j + W + H * W, i * W + j + H * W),
     (i * W + j + W + 1 + H * W, i * W + j + W + H * W, i * W + j + 1 + H * W)]) ++
  ((List.range (H - 1)).flatMap fun i =>
    [(i * W + (W - 1), i * W + (W - 1) + H * W, (i + 1) * W + (W - 1)),
     ((i + 1) * W + (W - 1), i * W + (W - 1) + H * W, (i + 1) * W + (W - 1) + H * W)]) ++
  ((List.range (W - 1)).flatMap fun j =>
    [((H - 1) * W + j, (H - 1) * W + j + 1, (H - 1) * W + j + H * W),
     ((H - 1) * W + j + 1, (H - 1) * W + j + 1 + H * W, (H - 1) * W + j + H * W)]) ++
  ((List.range (H - 1)).flatMap fun i =>
    [(i * W, (i + 1) * W, i * W + H * W),
     ((i + 1) * W, (i + 1) * W + H * W, i * W + H * W)]) ++
  ((List.range (W - 1)).flatMap fun j =>
    [(j, j + H * W, j + 1),
     (j + 1, j + H * W, j + 1 + H * W)])

/-- Flat NumPy index of a grid-structured vertex. -/
def encV (H W : ℕ) (v : GridVertex) : ℕ :=
  (if v.2.2 then H * W else 0) + v.1 * W + v.2.1

/-- Flat-index form of a grid-structured face. -/
def encF (H W : ℕ) (f : GridFace) : ℕ × ℕ × ℕ :=
  (encV H W f.1, encV H W f.2.1, encV H W f.2.2)

theorem flatTerrainFaces_eq_map (H W : ℕ) :
    flatTerrainFaces H W = (structFaces H W).map (encF H W) := by
  rw [flatTerrainFaces, structFaces]
  simp only [List.map_append, List.map_flatMap]
  congr 1
  congr 1
  congr 1
  congr 1
  congr 1
  · congr 1
    funext i
    congr 1
    funext j
    simp only [List.map_cons, List.map_nil, encF, encV, if_true, Bool.false_eq_true, if_false, topF1, topF2]
    ring_nf
    try rfl
  · congr 1
    funext i
    congr 1
    funext j
    simp only [List.map_cons, List.map_nil, encF, encV, if_true, Bool.false_eq_true, if_false, botF1, botF2]
    ring_nf
    try rfl
  · congr 1
    funext i
    simp only [List.map_cons, List.map_nil, encF, encV, if_true, Bool.false_eq_true, if_false, eastF1, eastF2]
    ring_nf
    try rfl
  · congr 1
    funext j
    simp only [List.map_cons, List.map_nil, encF, encV, if_true, Bool.false_eq_true, if_false, southF1, southF2]
    ring_nf
    try rfl
  · congr 1
    funext i
    simp only [List.map_cons, List.map_nil, encF, encV, if_true, Bool.false_eq_true, if_false, westF1, westF2]
    ring_nf
    try rfl
  · congr 1
    funext j
    simp only [List.map_cons, List.map_nil, encF, encV, if_true, Bool.false_eq_true, if_false, northF1, northF2]
    ring_nf
    try rfl

/-! ## The full terrain mesh builder (mesh_builder.create_terrain_mesh) -/

/-- numpy max of a nonempty array, as a fold of max over head and tail. -/
def np_max {K : Type _} [LinearOrder K] (x : K) (xs : List K) : K := xs.foldl max x

/-- min of a list with a default for the empty list (never reached on the
paths modelled here: numpy would raise on an empty reduction). -/
def list_min {K : Type _} [LinearOrder K] (d : K) : List K → K
  | [] => d
  | x :: xs => np_min x xs

/-- max of a list with a default for the empty list. -/
def list_max {K : Type _} [LinearOrder K] (d : K) : List K → K
  | [] => d
  | x :: xs => np_max x xs

/-- ravel() of an H×W grid: all entries in row-major order. -/
def flatten_grid {K : Type _} (H W : ℕ) (G : ℕ → ℕ → K) : List K :=
  (List.range H).flatMap fun i => (List.range W).map fun j => G i j

/-- The top-surface vertex list of create_terrain_mesh (source lines 57-63):
vertices.append([terrain_e[i, j], terrain_n[i, j], terrain_u[i, j]]) for
i in range(height), j in range(width). -/
def terrainVertices {K : Type _} (H W : ℕ) (E N U : ℕ → ℕ → K) : List (K × K × K) :=
  (List.range H).flatMap fun i => (List.range W).map fun j => (E i j, N i j, U i j)

/-- A triangle mesh as trimesh.Trimesh receives it: a vertex array and a face
array of vertex-index triples.  The source passes process=True, which merges
coincident vertices; on vertex lists without duplicates that step is the
identity, so the raw arrays are kept here. -/
structure Trimesh (K : Type _) where
  vertices : List (K × K × K)
  faces : List (ℕ × ℕ × ℕ)

/-- The ways create_terrain_mesh can fail.  DegenerateGrid is the error kind
named by the specification; the source only ever raises plain numpy errors:
ValueError (empty-array reduction in distances.min() or terrain_u.min()) and
IndexError (faces[:, ::-1] on the 1-dimensional empty face array produced
when height < 2 or width < 2). -/
inductive MeshError where
  | DegenerateGrid : MeshError
  | NumpyValueError : MeshError
  | NumpyIndexError : MeshError
deriving DecidableEq

/-- Whether the optional route argument triple was supplied with an empty
east or north array (making the carve loop's distances.min() raise). -/
def route_empty {K : Type _} : Option (List K × List K × List K) → Bool
  | none => false
  | some (re, rn, _) => re.isEmpty || rn.isEmpty

/-- Shallow embedding of mesh_builder.create_terrain_mesh (lines 35-146).
Failure points, in source execution order: (1) if a route is supplied with an
empty east or north array and the grid has at least one cell, the carve
loop's distances.min() raises ValueError on the first cell; (2) if the grid
has no cells, terrain_u.min() raises ValueError; (3) if height < 2 or
width < 2 the face list is empty, so np.array(faces) is 1-dimensional and
faces[:, ::-1] raises IndexError.  Otherwise the mesh is the top-surface
vertices (over the carved elevation grid) followed by the same vertices
projected down to base_z = min(carved U) - base_height, with the face list
flatTerrainFaces (top, bottom, and four wall strips in source order).
np.sqrt is the parameter sqrtF.  The in-place mutation of the caller's
terrain_u array is modelled separately by terrain_u_after_create. -/
def create_terrain_mesh {K : Type _} [LinearOrderedField K] (sqrtF : K → K)
    (H W : ℕ) (E N U : ℕ → ℕ → K) (base_height : K)
    (route? : Option (List K × List K × List K))
    (route_width route_depth : K) : Except MeshError (Trimesh K) :=
  if route_empty route? = true ∧ 1 ≤ H ∧ 1 ≤ W then .error .NumpyValueError
  else if H * W = 0 then .error .NumpyValueError
  else if H < 2 ∨ W < 2 then .error .NumpyIndexError
  else
    let U' : ℕ → ℕ → K :=
      match route? with
      | none => U
      | some (re, rn, _) => carve_u sqrtF re rn route_width route_depth E N U
    let top := terrainVertices H W E N U'
    let base_z := list_min 0 (flatten_grid H W U') - base_height
    .ok ⟨top ++ top.map (fun v => (v.1, v.2.1, base_z)), flatTerrainFaces H W⟩

theorem terrainVertices_length {K : Type _} (H W : ℕ) (E N U : ℕ → ℕ → K) :
    (terrainVertices H W E N U).length = H * W := by
  rw [terrainVertices, length_flatMap_const _ _ W (fun a _ => by
    rw [List.length_map, List.length_range]), List.length_range]

/-! ## Edge counting for the flat face list -/

/-- The three undirected edges of a flat-index triangular face. -/
def faceEdgesN (f : ℕ × ℕ × ℕ) : List (Sym2 ℕ) :=
  [s(f.1, f.2.1), s(f.2.1, f.2.2), s(f.2.2, f.1)]

/-- The three directed edges of a flat-index triangular face, in winding
order. -/
def dirEdgesN (f : ℕ × ℕ × ℕ) : List (ℕ × ℕ) :=
  [(f.1, f.2.1), (f.2.1, f.2.2), (f.2.2, f.1)]

/-- All undirected edges of the terrain face list, with multiplicity. -/
def flatEdges (H W : ℕ) : List (Sym2 ℕ) := (flatTerrainFaces H W).flatMap faceEdgesN

theorem faceEdgesN_encF (H W : ℕ) (f : GridFace) :
    faceEdgesN (encF H W f) = (faceEdges f).map (Sym2.map (encV H W)) := by
  obtain ⟨v1, v2, v3⟩ := f
  simp [faceEdgesN, faceEdges, encF, Sym2.map_pair_eq]

theorem flatEdges_eq_map (H W : ℕ) :
    flatEdges H W = (structEdges H W).map (Sym2.map (encV H W)) := by
  rw [flatEdges, flatTerrainFaces_eq_map, structEdges, List.flatMap_map, List.map_flatMap]
  congr 1

theorem structFaces_bounded (H W : ℕ) (hH : 2 ≤ H) (hW : 2 ≤ W) :
    ∀ f ∈ structFaces H W,
      (f.1.1 < H ∧ f.1.2.1 < W) ∧ (f.2.1.1 < H ∧ f.2.1.2.1 < W) ∧
        (f.2.2.1 < H ∧ f.2.2.2.1 < W) := by
  intro f hf
  simp only [structFaces, List.mem_append, List.mem_flatMap, List.mem_range, List.mem_cons,
    List.not_mem_nil, or_false] at hf
  rcases hf with ((((h | h) | h) | h) | h) | h
  · obtain ⟨i, hi, j, hj, h2⟩ := h
    rcases h2 with rfl | rfl <;> (dsimp only [topF1, topF2]; omega)
  · obtain ⟨i, hi, j, hj, h2⟩ := h
    rcases h2 with rfl | rfl <;> (dsimp only [botF1, botF2]; omega)
  · obtain ⟨i, hi, h2⟩ := h
    rcases h2 with rfl | rfl <;> (dsimp only [eastF1, eastF2]; omega)
  · obtain ⟨j, hj, h2⟩ := h
    rcases h2 with rfl | rfl <;> (dsimp only [southF1, southF2]; omega)
  · obtain ⟨i, hi, h2⟩ := h
    rcases h2 with rfl | rfl <;> (dsimp only [westF1, westF2]; omega)
  · obtain ⟨j, hj, h2⟩ := h
    rcases h2 with rfl | rfl <;> (dsimp only [northF1, northF2]; omega)

theorem structEdges_bounded (H W : ℕ) (hH : 2 ≤ H) (hW : 2 ≤ W) :
    ∀ e ∈ structEdges H W, ∀ v ∈ e, v.1 < H ∧ v.2.1 < W := by
  intro e he v hv
  rcases List.mem_flatMap.1 he with ⟨f, hf, hef⟩
  have hb := structFaces_bounded H W hH hW f hf
  simp only [faceEdges, List.mem_cons, List.not_mem_nil, or_false] at hef
  rcases hef with rfl | rfl | rfl <;>
    (rw [Sym2.mem_iff] at hv; rcases hv with rfl | rfl) <;> tauto

theorem row_col_inj (W : ℕ) {a b c d : ℕ} (hb : b < W) (hd : d < W)
    (h : a * W + b = c * W + d) : a = c ∧ b = d := by
  rcases Nat.lt_trichotomy a c with hac | rfl | hac
  · have h1 : (a + 1) * W ≤ c * W := Nat.mul_le_mul_right _ (by omega)
    have h2 : a * W + W = (a + 1) * W := by ring
    omega
  · omega
  · have h1 : (c + 1) * W ≤ a * W := Nat.mul_le_mul_right _ (by omega)
    have h2 : c * W + W = (c + 1) * W := by ring
    omega

theorem row_col_lt (H W : ℕ) {a b : ℕ} (ha : a < H) (hb : b < W) :
    a * W + b < H * W := by
  have h1 : (a + 1) * W ≤ H * W := Nat.mul_le_mul_right _ (by omega)
  have h2 : a * W + W = (a + 1) * W := by ring
  omega

theorem encV_injOn (H W : ℕ) {p q : GridVertex}
    (hp : p.1 < H ∧ p.2.1 < W) (hq : q.1 < H ∧ q.2.1 < W)
    (h : encV H W p = encV H W q) : p = q := by
  obtain ⟨a, b, x⟩ := p
  obtain ⟨c, d, y⟩ := q
  simp only [encV] at h
  simp only at hp hq
  cases x <;> cases y <;> simp only [Bool.false_eq_true, if_false, if_true, zero_add] at h
  · obtain ⟨h1, h2⟩ := row_col_inj W hp.2 hq.2 h
    subst h1; subst h2; rfl
  · exfalso
    have := row_col_lt H W hp.1 hp.2
    omega
  · exfalso
    have := row_col_lt H W hq.1 hq.2
    omega
  · have h' : a * W + b = c * W + d := by omega
    obtain ⟨h1, h2⟩ := row_col_inj W hp.2 hq.2 h'
    subst h1; subst h2; rfl

theorem sym2_encV_injOn (H W : ℕ) {e₁ e₂ : Sym2 GridVertex}
    (h1 : ∀ v ∈ e₁, v.1 < H ∧ v.2.1 < W) (h2 : ∀ v ∈ e₂, v.1 < H ∧ v.2.1 < W)
    (h : Sym2.map (encV H W) e₁ = Sym2.map (encV H W) e₂) : e₁ = e₂ := by
  revert h1 h2 h
  induction e₁, e₂ using Sym2.inductionOn₂ with
  | hf a b c d =>
    intro h1 h2 h
    simp only [Sym2.map_pair_eq, Sym2.eq_iff] at h
    have ha := h1 a (by rw [Sym2.mem_iff]; exact Or.inl rfl)
    have hb := h1 b (by rw [Sym2.mem_iff]; exact Or.inr rfl)
    have hc := h2 c (by rw [Sym2.mem_iff]; exact Or.inl rfl)
    have hd := h2 d (by rw [Sym2.mem_iff]; exact Or.inr rfl)
    rw [Sym2.eq_iff]
    rcases h with ⟨hx, hy⟩ | ⟨hx, hy⟩
    · exact Or.inl ⟨encV_injOn H W ha hc hx, encV_injOn H W hb hd hy⟩
    · exact Or.inr ⟨encV_injOn H W ha hd hx, encV_injOn H W hb hc hy⟩

theorem count_map_of_injOn {α β : Type _} [DecidableEq α] [DecidableEq β]
    (f : α → β) (a : α) :
    ∀ l : List α, a ∈ l → (∀ x ∈ l, ∀ y ∈ l, f x = f y → x = y) →
      (l.map f).count (f a) = l.count a := by
  intro l
  induction l with
  | nil => intro ha _; cases ha
  | cons b t ih =>
    intro ha hinj
    have hinjt : ∀ x ∈ t, ∀ y ∈ t, f x = f y → x = y := fun x hx y hy =>
      hinj x (List.mem_cons_of_mem _ hx) y (List.mem_cons_of_mem _ hy)
    simp only [List.map_cons, List.count_cons, beq_iff_eq]
    by_cases hat : a ∈ t
    · rw [ih hat hinjt]
      have hiff : (f b = f a) ↔ (b = a) :=
        ⟨fun h => hinj b (List.mem_cons_self _ _) a ha h, fun h => by rw [h]⟩
      by_cases hab : b = a
      · rw [if_pos hab, if_pos (hiff.2 hab)]
      · rw [if_neg hab, if_neg (fun h => hab (hiff.1 h))]
    · have hab : a = b := by
        rcases List.mem_cons.1 ha with h | h
        · exact h
        · exact absurd h hat
      subst hab
      have hz1 : (t.map f).count (f a) = 0 := by
        rw [List.count_eq_zero]
        intro hmem
        rcases List.mem_map.1 hmem with ⟨x, hx, hfx⟩
        have hxa : x = a := hinj x (List.mem_cons_of_mem _ hx) a (List.mem_cons_self _ _) hfx
        exact hat (hxa ▸ hx)
      have hz2 : t.count a = 0 := List.count_eq_zero.2 hat
      rw [hz1, hz2, if_pos rfl, if_pos rfl]

theorem flatEdges_count_eq_two (H W : ℕ) (hH : 2 ≤ H) (hW : 2 ≤ W) :
    ∀ e ∈ flatEdges H W, (flatEdges H W).count e = 2 := by
  have hinj : ∀ x ∈ structEdges H W, ∀ y ∈ structEdges H W,
      Sym2.map (encV H W) x = Sym2.map (encV H W) y → x = y := by
    intro x hx y hy h
    exact sym2_encV_injOn H W (structEdges_bounded H W hH hW x hx)
      (structEdges_bounded H W hH hW y hy) h
  intro e he
  rw [flatEdges_eq_map] at he ⊢
  rcases List.mem_map.1 he with ⟨e0, he0, rfl⟩
  rw [count_map_of_injOn _ _ _ he0 hinj]
  exact structEdges_count_eq_two H W hH hW e0 he0

theorem two_le_count_flatMap {α β : Type _} [BEq β] [LawfulBEq β] (g : α → List β) (x : β) :
    ∀ (l : List α) (f1 f2 : α), f1 ≠ f2 → f1 ∈ l → f2 ∈ l →
      x ∈ g f1 → x ∈ g f2 → 2 ≤ (l.flatMap g).count x := by
  intro l
  induction l with
  | nil => intro f1 f2 _ h1 _ _ _; cases h1
  | cons b t ih =>
    intro f1 f2 hne h1 h2 hx1 hx2
    rw [List.flatMap_cons, List.count_append]
    rcases List.mem_cons.1 h1 with rfl | h1t
    · rcases List.mem_cons.1 h2 with rfl | h2t
      · exact absurd rfl hne
      · have c1 : 0 < (g f1).count x := List.count_pos_iff.2 hx1
        have c2 : 0 < (t.flatMap g).count x :=
          List.count_pos_iff.2 (List.mem_flatMap.2 ⟨f2, h2t, hx2⟩)
        omega
    · rcases List.mem_cons.1 h2 with rfl | h2t
      · have c1 : 0 < (g f2).count x := List.count_pos_iff.2 hx2
        have c2 : 0 < (t.flatMap g).count x :=
          List.count_pos_iff.2 (List.mem_flatMap.2 ⟨f1, h1t, hx1⟩)
        omega
      · have := ih f1 f2 hne h1t h2t hx1 hx2
        omega

theorem flatDirEdges_count_ge_two (H W : ℕ) (hH : 2 ≤ H) (hW : 2 ≤ W) :
    2 ≤ ((flatTerrainFaces H W).flatMap dirEdgesN).count (0, W) := by
  have hmem1 : ((0 : ℕ), W, 1) ∈ flatTerrainFaces H W := by
    rw [flatTerrainFaces]
    simp only [List.mem_append, List.mem_flatMap, List.mem_range, List.mem_cons,
      List.not_mem_nil, or_false]
    refine Or.inl (Or.inl (Or.inl (Or.inl (Or.inl ⟨0, by omega, 0, by omega, Or.inl ?_⟩))))
    norm_num
  have hmem2 : ((0 : ℕ), W, H * W) ∈ flatTerrainFaces H W := by
    rw [flatTerrainFaces]
    simp only [List.mem_append, List.mem_flatMap, List.mem_range, List.mem_cons,
      List.not_mem_nil, or_false]
    refine Or.inl (Or.inr ⟨0, by omega, Or.inl ?_⟩)
    norm_num
  have hne : ((0 : ℕ), W, 1) ≠ ((0 : ℕ), W, H * W) := by
    have h4 : 4 ≤ H * W := Nat.mul_le_mul hH hW
    simp only [ne_eq, Prod.mk.injEq, not_and]
    intro _ _
    omega
  exact two_le_count_flatMap dirEdgesN (0, W) (flatTerrainFaces H W) _ _ hne hmem1 hmem2
    (by simp [dirEdgesN]) (by simp [dirEdgesN])

/-- Difference of two points, componentwise. -/
def vsub {K : Type _} [LinearOrderedField K] (a b : K × K × K) : K × K × K :=
  (a.1 - b.1, a.2.1 - b.2.1, a.2.2 - b.2.2)

/-- Cross product of two vectors. -/
def cross {K : Type _} [LinearOrderedField K] (a b : K × K × K) : K × K × K :=
  (a.2.1 * b.2.2 - a.2.2 * b.2.1, a.2.2 * b.1 - a.1 * b.2.2, a.1 * b.2.1 - a.2.1 * b.1)

/-- The (unnormalised) winding normal of a triangular face over a vertex
list: (v1 - v0) x (v2 - v0), trimesh's right-handed convention. -/
def faceNormal {K : Type _} [LinearOrderedField K] (V : List (K × K × K))
    (f : ℕ × ℕ × ℕ) : K × K × K :=
  cross (vsub (V.getD f.2.1 (0, 0, 0)) (V.getD f.1 (0, 0, 0)))
    (vsub (V.getD f.2.2 (0, 0, 0)) (V.getD f.1 (0, 0, 0)))

/-- Claim C1 (corrected): for every terrain grid with at least 2 rows and 2
columns create_terrain_mesh succeeds, and its face list is watertight at the
vertex-index level — every undirected edge of the face list is used by
exactly two faces — but it is NOT orientation-consistent: the directed edge
(0, W) is traversed in the same direction by two distinct faces (the first
top-surface face and the first j=0 wall face), so those two faces wind in
opposite senses around their shared edge and their normals cannot both point
outward. -/
theorem create_terrain_mesh_watertight_not_oriented {K : Type _} [LinearOrderedField K]
    (sqrtF : K → K) (H W : ℕ) (E N U : ℕ → ℕ → K) (bh wdt dpt : K)
    (hH : 2 ≤ H) (hW : 2 ≤ W) :
    ∃ m : Trimesh K, create_terrain_mesh sqrtF H W E N U bh none wdt dpt = .ok m ∧
      m.vertices.length = 2 * (H * W) ∧
      m.faces = flatTerrainFaces H W ∧
      (∀ e ∈ m.faces.flatMap faceEdgesN, (m.faces.flatMap faceEdgesN).count e = 2) ∧
      2 ≤ (m.faces.flatMap dirEdgesN).count (0, W) := by
  have h1 : ¬(route_empty (K := K) none = true ∧ 1 ≤ H ∧ 1 ≤ W) := by
    simp [route_empty]
  have h2 : ¬(H * W = 0) := by
    have h4 : 4 ≤ H * W := Nat.mul_le_mul hH hW
    omega
  have h3 : ¬(H < 2 ∨ W < 2) := by omega
  have hok : create_terrain_mesh sqrtF H W E N U bh none wdt dpt =
      .ok ⟨terrainVertices H W E N U ++ (terrainVertices H W E N U).map
            (fun v => (v.1, v.2.1, list_min 0 (flatten_grid H W U) - bh)),
          flatTerrainFaces H W⟩ := by
    rw [create_terrain_mesh, if_neg h1, if_neg h2, if_neg h3]
  refine ⟨_, hok, ?_, rfl, ?_, ?_⟩
  · show (terrainVertices H W E N U ++ (terrainVertices H W E N U).map _).length = 2 * (H * W)
    rw [List.length_append, List.length_map, terrainVertices_length]
    ring
  · show ∀ e ∈ flatEdges H W, (flatEdges H W).count e = 2
    exact flatEdges_count_eq_two H W hH hW
  · exact flatDirEdges_count_ge_two H W hH hW

/-- Witness for create_terrain_mesh_watertight_not_oriented at a concrete
2×2 rational grid. -/
theorem create_terrain_mesh_watertight_not_oriented_witness :
    ((2 ≤ 2) ∧ (2 ≤ 2)) ∧
    (∃ m : Trimesh ℚ, create_terrain_mesh (fun x => x) 2 2 (fun _ j => (j : ℚ))
        (fun i _ => -(i : ℚ)) (fun _ _ => 0) 1 none 2 1 = .ok m ∧
      m.vertices.length = 2 * (2 * 2) ∧
      m.faces = flatTerrainFaces 2 2 ∧
      (∀ e ∈ m.faces.flatMap faceEdgesN, (m.faces.flatMap faceEdgesN).count e = 2) ∧
      2 ≤ (m.faces.flatMap dirEdgesN).count (0, 2)) :=
  ⟨⟨by norm_num, by norm_num⟩,
    create_terrain_mesh_watertight_not_oriented (fun x => x) 2 2 (fun _ j => (j : ℚ))
      (fun i _ => -(i : ℚ)) (fun _ _ => 0) 1 2 1 (by norm_num) (by norm_num)⟩

/-- Claim C1 counterexample (orientation): on the concrete 2×2 grid with
E[i][j] = j, N[i][j] = -i, U = 0, base_height = 1, the produced vertex
positions are pairwise distinct (so coincident-vertex deduplication changes
nothing), the j=0 wall face faces[8] = (0, 2, 4) lies in the plane of
minimal E-coordinate of the whole mesh, yet its winding normal has strictly
positive E-component: it points into the solid, not outward.  So not all
face normals of create_terrain_mesh's output point outward. -/
theorem create_terrain_mesh_normal_not_outward :
    ∃ m : Trimesh ℚ,
      create_terrain_mesh (fun x => x) 2 2 (fun _ j => (j : ℚ)) (fun i _ => -(i : ℚ))
          (fun _ _ => 0) 1 none 2 1 = .ok m ∧
      m.vertices.Nodup ∧
      m.faces.getD 8 (0, 0, 0) = (0, 2, 4) ∧
      (∀ v ∈ m.vertices, 0 ≤ v.1) ∧
      (m.vertices.getD 0 (0, 0, 0)).1 = 0 ∧
      (m.vertices.getD 2 (0, 0, 0)).1 = 0 ∧
      (m.vertices.getD 4 (0, 0, 0)).1 = 0 ∧
      0 < (faceNormal m.vertices (0, 2, 4)).1 := by
  refine ⟨⟨[((0 : ℚ), 0, 0), (1, 0, 0), (0, -1, 0), (1, -1, 0),
      (0, 0, -1), (1, 0, -1), (0, -1, -1), (1, -1, -1)], flatTerrainFaces 2 2⟩,
    ?_, ?_, ?_, ?_, rfl, rfl, rfl, ?_⟩
  · rw [create_terrain_mesh, if_neg (by simp [route_empty]), if_neg (by norm_num),
      if_neg (by norm_num)]
    norm_num [terrainVertices, flatten_grid, list_min, np_min, List.range_succ,
      Prod.mk.injEq]
  · norm_num [List.nodup_cons, List.mem_cons, Prod.ext_iff, Prod.fst_zero, Prod.snd_zero]
  · decide
  · intro v hv
    fin_cases hv <;> norm_num
  · norm_num [faceNormal, vsub, cross]

/-- Claim C7 (corrected): for a grid with fewer than 2 rows or fewer than 2
columns, create_terrain_mesh fails — but with a plain numpy error
(IndexError from faces[:, ::-1] on the empty 1-dimensional face array, or
ValueError from an empty-array reduction), never with an error of kind
DegenerateGrid: the source contains no degenerate-grid check at all. -/
theorem create_terrain_mesh_degenerate_error {K : Type _} [LinearOrderedField K]
    (sqrtF : K → K) (H W : ℕ) (E N U : ℕ → ℕ → K) (bh : K)
    (route? : Option (List K × List K × List K)) (wdt dpt : K)
    (hdeg : H < 2 ∨ W < 2) :
    ∃ err, create_terrain_mesh sqrtF H W E N U bh route? wdt dpt = .error err ∧
      err ≠ MeshError.DegenerateGrid := by
  by_cases hg1 : route_empty route? = true ∧ 1 ≤ H ∧ 1 ≤ W
  · refine ⟨MeshError.NumpyValueError, ?_, by simp⟩
    rw [create_terrain_mesh.eq_def, if_pos hg1]
  · by_cases hg2 : H * W = 0
    · refine ⟨MeshError.NumpyValueError, ?_, by simp⟩
      rw [create_terrain_mesh.eq_def, if_neg hg1, if_pos hg2]
    · refine ⟨MeshError.NumpyIndexError, ?_, by simp⟩
      rw [create_terrain_mesh.eq_def, if_neg hg1, if_neg hg2, if_pos hdeg]

/-- Witness for create_terrain_mesh_degenerate_error on a concrete 1×2
grid. -/
theorem create_terrain_mesh_degenerate_error_witness :
    ((1 : ℕ) < 2 ∨ (2 : ℕ) < 2) ∧
    (∃ err, create_terrain_mesh (fun x : ℚ => x) 1 2 (fun _ _ => 0) (fun _ _ => 0)
        (fun _ _ => 0) 10 none 2 1 = .error err ∧ err ≠ MeshError.DegenerateGrid) :=
  ⟨Or.inl (by norm_num),
    create_terrain_mesh_degenerate_error (fun x : ℚ => x) 1 2 (fun _ _ => 0) (fun _ _ => 0)
      (fun _ _ => 0) 10 none 2 1 (Or.inl (by norm_num))⟩

/-- Claim C7 counterexample: the concrete 1-row grid makes create_terrain_mesh
fail with the IndexError model value, which is a different error kind from
the DegenerateGrid the specification promises. -/
theorem create_terrain_mesh_degenerate_not_degenerate_kind :
    create_terrain_mesh (fun x : ℚ => x) 1 2 (fun _ _ => 0) (fun _ _ => 0) (fun _ _ => 0)
        10 none 2 1 = .error MeshError.NumpyIndexError ∧
      MeshError.NumpyIndexError ≠ MeshError.DegenerateGrid := by
  constructor
  · rw [create_terrain_mesh, if_neg (by simp [route_empty]), if_neg (by norm_num),
      if_pos (Or.inl (by norm_num))]
  · simp

/-! ## Mesh export and print scaling (mesh_generator.export_meshes) -/

/-- The largest bounding-box dimension of a mesh, from its own vertex array
(mesh.bounds in the source): per-axis max minus min, then the max of the
three spans. -/
def vertex_bounds_max {K : Type _} [LinearOrderedField K] (m : Trimesh K) : K :=
  max (list_max 0 (m.vertices.map fun v => v.1) - list_min 0 (m.vertices.map fun v => v.1))
    (max (list_max 0 (m.vertices.map fun v => v.2.1) -
        list_min 0 (m.vertices.map fun v => v.2.1))
      (list_max 0 (m.vertices.map fun v => v.2.2) -
        list_min 0 (m.vertices.map fun v => v.2.2)))

/-- The scale factor computed by scale_mesh_for_printing (source lines
170-194): target_size_mm / (max mesh dimension · 1000). -/
def print_scale_factor {K : Type _} [LinearOrderedField K] (m : Trimesh K) (target : K) : K :=
  target / (vertex_bounds_max m * 1000)

/-- scale_mesh_for_printing: apply_scale of that factor to every vertex. -/
def scale_mesh_for_printing {K : Type _} [LinearOrderedField K] (m : Trimesh K)
    (target : K) : Trimesh K :=
  ⟨m.vertices.map fun v => (print_scale_factor m target * v.1,
      print_scale_factor m target * v.2.1, print_scale_factor m target * v.2.2),
    m.faces⟩

/-- The largest bounding-box dimension of the full-resolution terrain grids,
as export_meshes computes it for the route mesh (source lines 119-127):
per-grid max minus min of e_grid, n_grid, u_grid, then the max of the three. -/
def grid_bounds_max {K : Type _} [LinearOrderedField K] (H W : ℕ)
    (E N U : ℕ → ℕ → K) : K :=
  max (list_max 0 (flatten_grid H W E) - list_min 0 (flatten_grid H W E))
    (max (list_max 0 (flatten_grid H W N) - list_min 0 (flatten_grid H W N))
      (list_max 0 (flatten_grid H W U) - list_min 0 (flatten_grid H W U)))

/-- Downsampling stride used by MeshGenerator.create_terrain_mesh:
max(1, max(height, width) // max_resolution). -/
def mesh_step (H W maxres : ℕ) : ℕ := max 1 (max H W / maxres)

/-- Length of a numpy slice a[::step] of an axis of length n. -/
def ds_len (n step : ℕ) : ℕ := (n + step - 1) / step

/-- A grid sliced with stride step on both axes (grid[::step, ::step]). -/
def ds_grid {K : Type _} (step : ℕ) (G : ℕ → ℕ → K) : ℕ → ℕ → K :=
  fun i j => G (i * step) (j * step)

/-- The two print scale factors produced by MeshGenerator.export_meshes
(source lines 97-129): the terrain mesh is built by create_terrain_mesh on
the grids downsampled with max_resolution=500 and no route, and scaled by
scale_mesh_for_printing's factor from the mesh's own bounds; the route mesh
is then scaled by a factor recomputed from the FULL-resolution grid bounds
(terrain_bounds_m).  Returns (terrain factor, route factor). -/
def export_meshes_factors {K : Type _} [LinearOrderedField K] (H W : ℕ)
    (E N U : ℕ → ℕ → K) (bh target : K) : Except MeshError (K × K) :=
  match create_terrain_mesh (fun x => x) (ds_len H (mesh_step H W 500))
      (ds_len W (mesh_step H W 500)) (ds_grid (mesh_step H W 500) E)
      (ds_grid (mesh_step H W 500) N) (ds_grid (mesh_step H W 500) U)
      bh none 2 1 with
  | .error e => .error e
  | .ok m => .ok (print_scale_factor m target,
      target / (grid_bounds_max H W E N U * 1000))

/-- Claim C2 (corrected): export_meshes does NOT reuse the terrain mesh's
scale factor for the route mesh.  The terrain factor comes from the
downsampled terrain mesh's own bounds (which include the base slab of height
base_height), while the route factor is recomputed from the full-resolution
terrain grids' bounds (which include neither the base nor the downsampling);
the two factors coincide exactly when those two bounding-box maxima
coincide. -/
theorem export_route_scale_factor_recomputed {K : Type _} [LinearOrderedField K]
    (H W : ℕ) (E N U : ℕ → ℕ → K) (bh target : K) (f1 f2 : K)
    (hok : export_meshes_factors H W E N U bh target = .ok (f1, f2))
    (ht : target ≠ 0) :
    ∃ m : Trimesh K,
      create_terrain_mesh (fun x => x) (ds_len H (mesh_step H W 500))
          (ds_len W (mesh_step H W 500)) (ds_grid (mesh_step H W 500) E)
          (ds_grid (mesh_step H W 500) N) (ds_grid (mesh_step H W 500) U)
          bh none 2 1 = .ok m ∧
      f1 = print_scale_factor m target ∧
      f2 = target / (grid_bounds_max H W E N U * 1000) ∧
      (0 < vertex_bounds_max m → 0 < grid_bounds_max H W E N U →
        (f1 = f2 ↔ vertex_bounds_max m = grid_bounds_max H W E N U)) := by
  rw [export_meshes_factors] at hok
  cases hcm : create_terrain_mesh (fun x : K => x) (ds_len H (mesh_step H W 500))
      (ds_len W (mesh_step H W 500)) (ds_grid (mesh_step H W 500) E)
      (ds_grid (mesh_step H W 500) N) (ds_grid (mesh_step H W 500) U)
      bh none 2 1 with
  | error e =>
    rw [hcm] at hok
    cases hok
  | ok m =>
    rw [hcm] at hok
    simp only [Except.ok.injEq, Prod.mk.injEq] at hok
    obtain ⟨hf1, hf2⟩ := hok
    refine ⟨m, rfl, hf1.symm, hf2.symm, ?_⟩
    intro hv hg
    rw [← hf1, ← hf2] at *
    rw [← hf1.symm, ← hf2.symm]
    rw [print_scale_factor]
    constructor
    · intro h
      rw [div_eq_div_iff (by positivity) (by positivity)] at h
      have h1000 : (1000 : K) ≠ 0 := by norm_num
      have hc := mul_left_cancel₀ ht h
      have := mul_right_cancel₀ h1000 hc
      linarith
    · intro h
      rw [h]

/-- Witness for export_route_scale_factor_recomputed: a flat 2×2 grid
spanning 2 m in E and N with a 50 m base gives terrain factor 1/500 (from
the 50 m mesh height) and route factor 1/20 (from the 2 m grid span). -/
theorem export_route_scale_factor_recomputed_witness :
    (export_meshes_factors 2 2 (fun _ j => 2 * (j : ℚ)) (fun i _ => 2 * (i : ℚ))
        (fun _ _ => 0) 50 100 = .ok (1 / 500, 1 / 20) ∧ (100 : ℚ) ≠ 0) ∧
    (∃ m : Trimesh ℚ,
      create_terrain_mesh (fun x => x) (ds_len 2 (mesh_step 2 2 500))
          (ds_len 2 (mesh_step 2 2 500)) (ds_grid (mesh_step 2 2 500) (fun _ j => 2 * (j : ℚ)))
          (ds_grid (mesh_step 2 2 500) (fun i _ => 2 * (i : ℚ)))
          (ds_grid (mesh_step 2 2 500) (fun _ _ => 0)) 50 none 2 1 = .ok m ∧
      (1 / 500 : ℚ) = print_scale_factor m 100 ∧
      (1 / 20 : ℚ) = 100 / (grid_bounds_max 2 2 (fun _ j => 2 * (j : ℚ))
          (fun i _ => 2 * (i : ℚ)) (fun _ _ => 0) * 1000) ∧
      (0 < vertex_bounds_max m →
        0 < grid_bounds_max 2 2 (fun _ j => 2 * (j : ℚ)) (fun i _ => 2 * (i : ℚ))
            (fun _ _ => 0) →
        ((1 / 500 : ℚ) = 1 / 20 ↔ vertex_bounds_max m =
          grid_bounds_max 2 2 (fun _ j => 2 * (j : ℚ)) (fun i _ => 2 * (i : ℚ))
            (fun _ _ => 0)))) := by
  have hok : export_meshes_factors 2 2 (fun _ j => 2 * (j : ℚ)) (fun i _ => 2 * (i : ℚ))
      (fun _ _ => 0) 50 100 = .ok (1 / 500, 1 / 20) := by
    rw [export_meshes_factors]
    rw [show mesh_step 2 2 500 = 1 from rfl, show ds_len 2 1 = 2 from rfl]
    rw [create_terrain_mesh, if_neg (by simp [route_empty]), if_neg (by norm_num),
      if_neg (by norm_num)]
    norm_num [print_scale_factor, vertex_bounds_max, grid_bounds_max, terrainVertices,
      flatten_grid, list_min, list_max, np_min, np_max, ds_grid, List.range_succ,
      min_def, max_def]
  exact ⟨⟨hok, by norm_num⟩,
    export_route_scale_factor_recomputed 2 2 (fun _ j => 2 * (j : ℚ))
      (fun i _ => 2 * (i : ℚ)) (fun _ _ => 0) 50 100 (1 / 500) (1 / 20) hok (by norm_num)⟩

/-- Claim C2 counterexample: on the same flat 2×2 grid the exported terrain
mesh's scale factor is 1/500 while the route mesh's factor is 1/20 — the
route factor is not the terrain factor reused verbatim. -/
theorem export_scale_factors_differ :
    ∃ f1 f2 : ℚ, export_meshes_factors 2 2 (fun _ j => 2 * (j : ℚ))
        (fun i _ => 2 * (i : ℚ)) (fun _ _ => 0) 50 100 = .ok (f1, f2) ∧ f1 ≠ f2 := by
  refine ⟨1 / 500, 1 / 20, ?_, by norm_num⟩
  rw [export_meshes_factors]
  rw [show mesh_step 2 2 500 = 1 from rfl, show ds_len 2 1 = 2 from rfl]
  rw [create_terrain_mesh, if_neg (by simp [route_empty]), if_neg (by norm_num),
    if_neg (by norm_num)]
  norm_num [print_scale_factor, vertex_bounds_max, grid_bounds_max, terrainVertices,
    flatten_grid, list_min, list_max, np_min, np_max, ds_grid, List.range_succ,
    min_def, max_def]
